import Mathlib

/-!
Verification development for the linux-perf-event-reader crate.

The Rust sources are embedded shallowly:
* byte buffers are lists of natural numbers (each entry standing for one `u8`);
* the `RawData` cursor (src/raw_data.rs) becomes an inductive type with the
  same two constructors, and each `&mut self` method becomes a function that
  returns the operation's result together with the cursor value left in the
  caller's variable (on the early-return error paths of the Rust code the
  cursor is left untouched, so those paths return the input cursor);
* fallible operations return `Except IoErr`, where `IoErr` distinguishes the
  two `std::io::ErrorKind` values the crate produces plus a separate marker
  for a Rust panic (an `assert!` failure);
* multi-byte integers are decoded explicitly from byte lists in the requested
  byte order; `u64` values live in `Nat`, `i32` values in `Int`.
-/

namespace PerfReader

/-- Outcomes of a fallible Rust operation: the two `std::io::ErrorKind` values
produced by the crate (`UnexpectedEof`, `InvalidInput`), plus `panicAssert`,
which models a Rust `assert!` failure (a panic, not a returned error). -/
inductive IoErr where
  | unexpectedEof
  | invalidInput
  | panicAssert
deriving DecidableEq, Repr

/-- Endianness, from src/endian.rs. -/
inductive Endianness where
  | littleEndian
  | bigEndian
deriving DecidableEq, Repr

/-- The native byte order of the host. The crate fixes this at compile time
via cfg(target_endian); we model a little-endian host (the cfg branch at
src/endian.rs lines 9-10). Every value observable through `RawDataU64.get`
is independent of this choice, because a native-order read followed by a
conditional byte swap always yields the requested byte order. -/
def Endianness.native : Endianness := .littleEndian

/-- Little-endian value of a byte list (first byte is least significant). -/
def bytesToNatLE (bs : List Nat) : Nat :=
  bs.foldr (fun b acc => b + 256 * acc) 0

/-- Value of a byte list in byte order `en`. Models `T::read_u64` /
`T::read_u32` / `T::read_u16` from the byteorder crate. -/
def decodeU (en : Endianness) (bs : List Nat) : Nat :=
  match en with
  | .littleEndian => bytesToNatLE bs
  | .bigEndian => bytesToNatLE bs.reverse

/-- Two's-complement reading of a 32-bit value, for `T::read_i32`. -/
def toI32 (v : Nat) : Int :=
  if v < 2 ^ 31 then (v : Int) else (v : Int) - 2 ^ 32

/-- The `RawData` cursor of src/raw_data.rs lines 16-19: a logical byte slice
backed by one slice or by two separate slices. -/
inductive RawData where
  | single (buf : List Nat)
  | split (left right : List Nat)
deriving DecidableEq, Repr

namespace RawData

/-- RawData::empty (src/raw_data.rs line 87). -/
def empty : RawData := .single []

/-- RawData::len (src/raw_data.rs lines 295-300). -/
def len (d : RawData) : Nat :=
  match d with
  | .single buffer => buffer.length
  | .split left right => left.length + right.length

/-- RawData::is_empty (src/raw_data.rs lines 288-293). -/
def isEmpty (d : RawData) : Bool :=
  match d with
  | .single buffer => buffer.isEmpty
  | .split left right => left.isEmpty && right.isEmpty

/-- The logical byte sequence of the view (`left` before `right`). This is the
abstraction function; the Rust type's doc comment (src/raw_data.rs lines 8-10)
promises that users may treat the view as this contiguous sequence. -/
def bytes (d : RawData) : List Nat :=
  match d with
  | .single buffer => buffer
  | .split left right => left ++ right

/-- RawData::read_exact (src/raw_data.rs lines 91-122). The first component is
the operation's result (the bytes copied into the caller's buffer of length
`bufLen`); the second component is the cursor after the call. The Rust method
early-returns on both error paths before assigning `*self`, so those paths
leave the cursor unchanged. -/
def readExactS (d : RawData) (bufLen : Nat) : Except IoErr (List Nat) × RawData :=
  match d with
  | .single buffer =>
    if buffer.length < bufLen then (.error .unexpectedEof, d)
    else (.ok (buffer.take bufLen),
      .single (buffer.drop bufLen))
  | .split left right =>
    if bufLen ≤ left.length then
      (.ok (left.take bufLen),
        if bufLen < left.length then .split (left.drop bufLen) right else .single right)
    else
      if bufLen - left.length > right.length then (.error .unexpectedEof, d)
      else (.ok (left ++ right.take (bufLen - left.length)),
        .single (right.drop (bufLen - left.length)))

/-- Result-plus-new-cursor packaging of `readExactS`, for sequential parsing
code (a successful Rust call both returns `Ok` and advances the cursor). -/
def readExact (d : RawData) (bufLen : Nat) : Except IoErr (List Nat × RawData) :=
  match readExactS d bufLen with
  | (.ok v, d') => .ok (v, d')
  | (.error e, _) => .error e

/-- RawData::read_u64 (src/raw_data.rs lines 124-128). -/
def readU64 (en : Endianness) (d : RawData) : Except IoErr (Nat × RawData) :=
  match readExact d 8 with
  | .ok (b, d') => .ok (decodeU en b, d')
  | .error e => .error e

/-- RawData::read_u32 (src/raw_data.rs lines 130-134). -/
def readU32 (en : Endianness) (d : RawData) : Except IoErr (Nat × RawData) :=
  match readExact d 4 with
  | .ok (b, d') => .ok (decodeU en b, d')
  | .error e => .error e

/-- RawData::read_i32 (src/raw_data.rs lines 136-140). -/
def readI32 (en : Endianness) (d : RawData) : Except IoErr (Int × RawData) :=
  match readExact d 4 with
  | .ok (b, d') => .ok (toI32 (decodeU en b), d')
  | .error e => .error e

/-- RawData::read_u16 (src/raw_data.rs lines 142-146). -/
def readU16 (en : Endianness) (d : RawData) : Except IoErr (Nat × RawData) :=
  match readExact d 2 with
  | .ok (b, d') => .ok (decodeU en b, d')
  | .error e => .error e

/-- RawData::read_u8 (src/raw_data.rs lines 148-152). -/
def readU8 (d : RawData) : Except IoErr (Nat × RawData) :=
  match readExact d 1 with
  | .ok (b, d') => .ok (decodeU .littleEndian b, d')
  | .error e => .error e

/-- Position of the first nul byte, modelling memchr::memchr(0, buf). -/
def memchrZero (l : List Nat) : Option Nat :=
  l.findIdx? (fun b => b = 0)

/-- RawData::read_string (src/raw_data.rs lines 156-187). Returns the bytes
before the first nul byte and sets the cursor to everything after it; `none`
(with the cursor unchanged) when no nul byte exists. -/
def readString (d : RawData) : Option RawData × RawData :=
  match d with
  | .single buffer =>
    match memchrZero buffer with
    | some n => (some (.single (buffer.take n)), .single (buffer.drop (n + 1)))
    | none => (none, d)
  | .split left right =>
    match memchrZero left with
    | some n =>
      (some (.single (left.take n)),
        if n + 1 < left.length then .split (left.drop (n + 1)) right else .single right)
    | none =>
      match memchrZero right with
      | some n => (some (.split left (right.take n)), .single (right.drop (n + 1)))
      | none => (none, d)

/-- RawData::split_off_prefix (src/raw_data.rs lines 190-222), renamed to
avoid a reserved word in this development. Returns the first `n` bytes as an
independent view and sets the cursor past them; on the early-return error
paths the cursor is unchanged. -/
def splitOffStartS (d : RawData) (n : Nat) : Except IoErr RawData × RawData :=
  match d with
  | .single buffer =>
    if buffer.length < n then (.error .unexpectedEof, d)
    else (.ok (.single (buffer.take n)), .single (buffer.drop n))
  | .split left right =>
    if n ≤ left.length then
      (.ok (.single (left.take n)),
        if n < left.length then .split (left.drop n) right else .single right)
    else
      if n - left.length > right.length then (.error .unexpectedEof, d)
      else (.ok (.split left (right.take (n - left.length))),
        .single (right.drop (n - left.length)))

/-- Result-plus-new-cursor packaging of `splitOffStartS`. -/
def splitOffStart (d : RawData) (n : Nat) : Except IoErr (RawData × RawData) :=
  match splitOffStartS d n with
  | (.ok v, d') => .ok (v, d')
  | (.error e, _) => .error e

/-- RawData::skip (src/raw_data.rs lines 224-245). On the early-return error
paths the cursor is unchanged. -/
def skipS (d : RawData) (n : Nat) : Except IoErr Unit × RawData :=
  match d with
  | .single buffer =>
    if buffer.length < n then (.error .unexpectedEof, d)
    else (.ok (), .single (buffer.drop n))
  | .split left right =>
    if n < left.length then (.ok (), .split (left.drop n) right)
    else
      if n - left.length > right.length then (.error .unexpectedEof, d)
      else (.ok (), .single (right.drop (n - left.length)))

/-- New-cursor packaging of `skipS`. -/
def skip (d : RawData) (n : Nat) : Except IoErr RawData :=
  match skipS d n with
  | (.ok _, d') => .ok d'
  | (.error e, _) => .error e

/-- RawData::get (src/raw_data.rs lines 271-286), for the range
`rstart..rstop`. Rust's `slice::get(a..b)` returns `None` when `a > b` or
`b > len`; `slice::get(a..)` fails when `a > len`; `slice::get(..b)` fails
when `b > len`. The claims about this function restrict to `rstart ≤ rstop`;
for `rstart > rstop` the Rust straddling branch can panic on `usize`
underflow, which truncated `Nat` subtraction does not model. -/
def get (d : RawData) (rstart rstop : Nat) : Option RawData :=
  match d with
  | .single buffer =>
    if rstart ≤ rstop ∧ rstop ≤ buffer.length then
      some (.single ((buffer.drop rstart).take (rstop - rstart)))
    else none
  | .split left right =>
    if left.length ≤ rstart then
      if rstart - left.length ≤ rstop - left.length ∧ rstop - left.length ≤ right.length then
        some (.single ((right.drop (rstart - left.length)).take
          ((rstop - left.length) - (rstart - left.length))))
      else none
    else if rstop ≤ left.length then
      if rstart ≤ rstop then
        some (.single ((left.drop rstart).take (rstop - rstart)))
      else none
    else
      if rstart ≤ left.length then
        -- The Rust code rebinds `left` to `left[range.start..]` here, and then
        -- computes the right half as `right.get(..min(range.end - left.len(), right.len()))`
        -- with the REBOUND `left`, clamped so it never fails.
        let leftPart := left.drop rstart
        some (.split leftPart (right.take (min (rstop - leftPart.length) right.length)))
      else none

end RawData

/-- Test of is_swapped_endian (src/raw_data.rs lines 309-313): whether data
written in byte order `en` reads back differently in native order. -/
def isSwappedEndian (en : Endianness) : Bool :=
  decide (en ≠ Endianness.native)

/-- The RawDataU64 word view (src/raw_data.rs lines 303-307). -/
structure RawDataU64 where
  swappedEndian : Bool
  rawData : RawData
deriving DecidableEq, Repr

/-- Byte-swap of a 64-bit value (u64::swap_bytes). -/
def byteSwap64 (v : Nat) : Nat :=
  bytesToNatLE (((List.range 8).map (fun i => v / 256 ^ i % 256)).reverse)

namespace RawDataU64

/-- RawDataU64::from_raw_data (src/raw_data.rs lines 317-322). -/
def fromRawData (en : Endianness) (d : RawData) : RawDataU64 :=
  { rawData := d, swappedEndian := isSwappedEndian en }

/-- RawDataU64::len (src/raw_data.rs lines 328-330). -/
def len (u : RawDataU64) : Nat :=
  u.rawData.len / 8

/-- RawDataU64::get (src/raw_data.rs lines 332-343): skip to `index * 8`,
read eight bytes in native order, then swap if the view was constructed for
the other byte order. -/
def get (u : RawDataU64) (index : Nat) : Option Nat :=
  match u.rawData.skip (index * 8) with
  | .error _ => none
  | .ok data =>
    match RawData.readU64 Endianness.native data with
    | .error _ => none
    | .ok (value, _) => some (if u.swappedEndian then byteSwap64 value else value)

end RawDataU64

/-- The Regs view of src/registers.rs lines 3-7. -/
structure Regs where
  regsMask : Nat
  rawRegs : RawDataU64
deriving DecidableEq, Repr

/-- Regs::new (src/registers.rs lines 10-15). -/
def Regs.new (regsMask : Nat) (rawRegs : RawDataU64) : Regs :=
  { regsMask := regsMask, rawRegs := rawRegs }

/-!
Bitflag types. The crate defines them with the bitflags macro over `u64`
(src/types.rs), taking the numeric constants from src/consts.rs, which is
not present in the tree; the bit positions below are the Linux kernel ABI
values (perf_event.h) that those constants denote. A bitflag set is embedded
as the raw `Nat` bitmask itself; `contains` of a single flag is a bit test.
-/

/-- Bit positions of the PERF_SAMPLE_* flags making up `SampleFormat`. -/
def sampleIP : Nat := 0
def sampleTID : Nat := 1
def sampleTIME : Nat := 2
def sampleADDR : Nat := 3
def sampleREAD : Nat := 4
def sampleCALLCHAIN : Nat := 5
def sampleID : Nat := 6
def sampleCPU : Nat := 7
def samplePERIOD : Nat := 8
def sampleSTREAM_ID : Nat := 9
def sampleRAW : Nat := 10
def sampleBRANCH_STACK : Nat := 11
def sampleREGS_USER : Nat := 12
def sampleSTACK_USER : Nat := 13
def sampleWEIGHT : Nat := 14
def sampleDATA_SRC : Nat := 15
def sampleIDENTIFIER : Nat := 16
def sampleTRANSACTION : Nat := 17
def sampleREGS_INTR : Nat := 18
def samplePHYS_ADDR : Nat := 19
def sampleAUX : Nat := 20
def sampleCGROUP : Nat := 21
def sampleDATA_PAGE_SIZE : Nat := 22
def sampleCODE_PAGE_SIZE : Nat := 23
def sampleWEIGHT_STRUCT : Nat := 24

/-- Bit positions of the AttrFlags bits used by the embedded code
(src/types.rs lines 72-151; kernel ABI positions). -/
def attrFREQ : Nat := 10
def attrWATERMARK : Nat := 14
def attrSAMPLE_ID_ALL : Nat := 18
def attrUSE_CLOCKID : Nat := 25

/-- Bit positions of the ReadFormat flags (src/types.rs lines 189-194). -/
def readTOTAL_TIME_ENABLED : Nat := 0
def readTOTAL_TIME_RUNNING : Nat := 1
def readID : Nat := 2
def readGROUP : Nat := 3

/-- Bit position of BranchSampleFormat::HW_INDEX (src/types.rs line 69;
PERF_SAMPLE_BRANCH_HW_INDEX). -/
def branchHW_INDEX : Nat := 17

/-- Whether flag bit `b` is set in bitset `fmt`: bitflags `contains` for a
single-bit flag. -/
def hasFlag (fmt : Nat) (b : Nat) : Bool :=
  fmt.testBit b

/-- How many of the distinct flag bits `bits` are set in `fmt`. This is
`fmt.intersection(mask).bits().count_ones()` for `mask` the union of the
listed (pairwise distinct, single-bit) flags. -/
def countFlags (fmt : Nat) : List Nat → Nat
  | [] => 0
  | b :: bs => (if fmt.testBit b then 1 else 0) + countFlags fmt bs

/-- Population count of a `u64` value (`count_ones`). -/
def popCount64 (x : Nat) : Nat :=
  countFlags x (List.range 64)

/-- Masks kept by the bitflags `from_bits_truncate` constructors: all defined
bits of the corresponding bitflags type (`AttrFlags` occupies bits 0-37,
`SampleFormat` bits 0-24, `BranchSampleFormat` bits 0-17, `ReadFormat`
bits 0-3, see src/types.rs). -/
def attrFlagsMask : Nat := 2 ^ 38 - 1
def sampleFormatMask : Nat := 2 ^ 25 - 1
def branchSampleFormatMask : Nat := 2 ^ 18 - 1
def readFormatMask : Nat := 2 ^ 4 - 1

/-- The record type tag (src/types.rs lines 258-259). -/
structure RecordType where
  val : Nat
deriving DecidableEq, Repr

/-- PERF_RECORD_USER_TYPE_START: the boundary between kernel built-in and
producer-defined record kinds (src/consts.rs is absent; kernel ABI value). -/
def PERF_RECORD_USER_TYPE_START : Nat := 64

namespace RecordType

/-- PERF_RECORD_SAMPLE (kernel ABI value 9). -/
def SAMPLE : RecordType := { val := 9 }

/-- RecordType::is_builtin_type (src/types.rs lines 285-287). -/
def isBuiltinType (rt : RecordType) : Bool :=
  rt.val < PERF_RECORD_USER_TYPE_START

/-- RecordType::is_user_type (src/types.rs lines 289-291). -/
def isUserType (rt : RecordType) : Bool :=
  PERF_RECORD_USER_TYPE_START ≤ rt.val

end RecordType

/-- RecordIdParseInfo (src/parse_info.rs lines 19-23). The `u8` offsets are
embedded as `Nat` (their Rust values are at most 48, so no wrapping occurs). -/
structure RecordIdParseInfo where
  nonsample_record_id_offset_from_end : Option Nat
  sample_record_id_offset_from_start : Option Nat
deriving DecidableEq, Repr

/-- RecordParseInfo (src/parse_info.rs lines 3-17). -/
structure RecordParseInfo where
  endian : Endianness
  sample_format : Nat
  branch_sample_format : Nat
  read_format : Nat
  common_data_offset_from_end : Option Nat
  sample_regs_user : Nat
  user_regs_count : Nat
  sample_regs_intr : Nat
  intr_regs_count : Nat
  id_parse_info : RecordIdParseInfo
  nonsample_record_time_offset_from_end : Option Nat
  sample_record_time_offset_from_start : Option Nat
deriving DecidableEq, Repr


/-- PmuTypeId (src/perf_event.rs line 315). -/
structure PmuTypeId where
  val : Nat
deriving DecidableEq, Repr

/-- HwBreakpointAddr (src/perf_event.rs line 323). -/
structure HwBreakpointAddr where
  val : Nat
deriving DecidableEq, Repr

/-- HwBreakpointLen (src/perf_event.rs line 331). -/
structure HwBreakpointLen where
  val : Nat
deriving DecidableEq, Repr

/-- HardwareEventId (src/perf_event.rs lines 384-405). -/
inductive HardwareEventId where
  | cpuCycles
  | instructions
  | cacheReferences
  | cacheMisses
  | branchInstructions
  | branchMisses
  | busCycles
  | stalledCyclesFrontend
  | stalledCyclesBackend
  | refCpuCycles
deriving DecidableEq, Repr

/-- HardwareEventId::parse (src/perf_event.rs lines 408-423); the
PERF_COUNT_HW_* constants are the kernel ABI values 0 through 9. -/
def HardwareEventId.parse (hardwareEventId : Nat) : Option HardwareEventId :=
  match hardwareEventId with
  | 0 => some .cpuCycles
  | 1 => some .instructions
  | 2 => some .cacheReferences
  | 3 => some .cacheMisses
  | 4 => some .branchInstructions
  | 5 => some .branchMisses
  | 6 => some .busCycles
  | 7 => some .stalledCyclesFrontend
  | 8 => some .stalledCyclesBackend
  | 9 => some .refCpuCycles
  | _ => none

/-- SoftwareCounterType (src/perf_event.rs lines 428-453). -/
inductive SoftwareCounterType where
  | cpuClock
  | taskClock
  | pageFaults
  | contextSwitches
  | cpuMigrations
  | pageFaultsMin
  | pageFaultsMaj
  | alignmentFaults
  | emulationFaults
  | dummy
  | bpfOutput
  | cgroupSwitches
deriving DecidableEq, Repr

/-- SoftwareCounterType::parse (src/perf_event.rs lines 456-473); the
PERF_COUNT_SW_* constants are the kernel ABI values 0 through 11. -/
def SoftwareCounterType.parse (config : Nat) : Option SoftwareCounterType :=
  match config with
  | 0 => some .cpuClock
  | 1 => some .taskClock
  | 2 => some .pageFaults
  | 3 => some .contextSwitches
  | 4 => some .cpuMigrations
  | 5 => some .pageFaultsMin
  | 6 => some .pageFaultsMaj
  | 7 => some .alignmentFaults
  | 8 => some .emulationFaults
  | 9 => some .dummy
  | 10 => some .bpfOutput
  | 11 => some .cgroupSwitches
  | _ => none

/-- HardwareCacheId (src/perf_event.rs lines 478-493). -/
inductive HardwareCacheId where
  | l1d
  | l1i
  | ll
  | dtlb
  | itlb
  | bpu
  | node
deriving DecidableEq, Repr

/-- HardwareCacheId::parse (src/perf_event.rs lines 496-509); kernel ABI
values 0 through 6. -/
def HardwareCacheId.parse (cacheId : Nat) : Option HardwareCacheId :=
  match cacheId with
  | 0 => some .l1d
  | 1 => some .l1i
  | 2 => some .ll
  | 3 => some .dtlb
  | 4 => some .itlb
  | 5 => some .bpu
  | 6 => some .node
  | _ => none

/-- HardwareCacheOp (src/perf_event.rs lines 512-519). -/
inductive HardwareCacheOp where
  | read
  | write
  | prefetchOp
deriving DecidableEq, Repr

/-- HardwareCacheOp::parse (src/perf_event.rs lines 522-529). -/
def HardwareCacheOp.parse (cacheOp : Nat) : Option HardwareCacheOp :=
  match cacheOp with
  | 0 => some .read
  | 1 => some .write
  | 2 => some .prefetchOp
  | _ => none

/-- HardwareCacheOpResult (src/perf_event.rs lines 533-538). -/
inductive HardwareCacheOpResult where
  | access
  | miss
deriving DecidableEq, Repr

/-- HardwareCacheOpResult::parse (src/perf_event.rs lines 541-547). -/
def HardwareCacheOpResult.parse (cacheOpResult : Nat) : Option HardwareCacheOpResult :=
  match cacheOpResult with
  | 0 => some .access
  | 1 => some .miss
  | _ => none

/-- PerfEventType (src/perf_event.rs lines 230-306). The breakpoint variant
carries the raw HwBreakpointType bits (a `from_bits_truncate` over bits 0-2,
kernel values, see src/types.rs lines 153-167). -/
inductive PerfEventType where
  | hardware (id : HardwareEventId) (pmu : PmuTypeId)
  | software (ty : SoftwareCounterType)
  | tracepoint (id : Nat)
  | hwCache (id : HardwareCacheId) (op : HardwareCacheOp) (res : HardwareCacheOpResult)
      (pmu : PmuTypeId)
  | breakpoint (bpType : Nat) (addr : HwBreakpointAddr) (bpLen : HwBreakpointLen)
  | dynamicPmu (ty : Nat) (config : Nat) (config1 : Nat) (config2 : Nat)
deriving DecidableEq, Repr

/-- PerfEventType::parse (src/perf_event.rs lines 334-379). The PERF_TYPE_*
constants are the kernel ABI values: HARDWARE 0, SOFTWARE 1, TRACEPOINT 2,
HW_CACHE 3, BREAKPOINT 5; every other major type code becomes DynamicPmu. -/
def PerfEventType.parse (ty bpType config config1 config2 : Nat) :
    Option PerfEventType :=
  match ty with
  | 0 => do
    let hardwareEventId := config % 256
    let pmuType := PmuTypeId.mk (config / 2 ^ 32 % 2 ^ 32)
    let id ← HardwareEventId.parse hardwareEventId
    some (.hardware id pmuType)
  | 1 => do
    let sw ← SoftwareCounterType.parse config
    some (.software sw)
  | 2 => some (.tracepoint config)
  | 3 => do
    let cacheId := config % 256
    let cacheOpId := config / 2 ^ 8 % 256
    let cacheOpResult := config / 2 ^ 16 % 256
    let pmuType := PmuTypeId.mk (config / 2 ^ 32 % 2 ^ 32)
    let cid ← HardwareCacheId.parse cacheId
    let cop ← HardwareCacheOp.parse cacheOpId
    let cres ← HardwareCacheOpResult.parse cacheOpResult
    some (.hwCache cid cop cres pmuType)
  | 5 =>
    some (.breakpoint (bpType % 8) (HwBreakpointAddr.mk config1) (HwBreakpointLen.mk config2))
  | _ => some (.dynamicPmu ty config config1 config2)

/-- SamplingPolicy (src/perf_event.rs lines 558-579). The `period` payload is
nonzero by construction (`NonZeroU64` in the source). -/
inductive SamplingPolicy where
  | noSampling
  | period (v : Nat)
  | frequency (v : Nat)
deriving DecidableEq, Repr

/-- WakeupPolicy (src/perf_event.rs lines 596-606). -/
inductive WakeupPolicy where
  | eventCount (v : Nat)
  | watermark (v : Nat)
deriving DecidableEq, Repr

/-- ClockId (src/types.rs lines 227-238). -/
inductive ClockId where
  | realtime
  | monotonic
  | processCputimeId
  | threadCputimeId
  | monotonicRaw
  | realtimeCoarse
  | monotonicCoarse
  | boottime
  | realtimeAlarm
  | boottimeAlarm
deriving DecidableEq, Repr

/-- ClockId::from_u32 (src/types.rs lines 241-256). -/
def ClockId.fromU32 (clockid : Nat) : Option ClockId :=
  match clockid with
  | 0 => some .realtime
  | 1 => some .monotonic
  | 2 => some .processCputimeId
  | 3 => some .threadCputimeId
  | 4 => some .monotonicRaw
  | 5 => some .realtimeCoarse
  | 6 => some .monotonicCoarse
  | 7 => some .boottime
  | 8 => some .realtimeAlarm
  | 9 => some .boottimeAlarm
  | _ => none

/-- PerfClock (src/perf_event.rs lines 617-628). -/
inductive PerfClock where
  | defaultClock
  | clockId (c : ClockId)
deriving DecidableEq, Repr

/-- PerfEventAttr (src/perf_event.rs lines 29-85). Bitset-valued fields hold
the raw masks (already truncated by `from_bits_truncate` during parsing). -/
structure PerfEventAttr where
  type_ : PerfEventType
  sampling_policy : SamplingPolicy
  sample_format : Nat
  read_format : Nat
  flags : Nat
  wakeup_policy : WakeupPolicy
  branch_sample_format : Nat
  sample_regs_user : Nat
  sample_stack_user : Nat
  clock : PerfClock
  sample_regs_intr : Nat
  aux_watermark : Nat
  sample_max_stack : Nat
  aux_sample_size : Nat
  sig_data : Nat
deriving DecidableEq, Repr

/-- RecordIdParseInfo::new (src/parse_info.rs lines 116-172). -/
def RecordIdParseInfo.new (attr : PerfEventAttr) : RecordIdParseInfo :=
  let sampleFormat := attr.sample_format
  let nonsampleRecordIdOffsetFromEnd :=
    if hasFlag attr.flags attrSAMPLE_ID_ALL &&
        (hasFlag sampleFormat sampleID || hasFlag sampleFormat sampleIDENTIFIER) then
      if hasFlag sampleFormat sampleIDENTIFIER then
        some 8
      else
        some (countFlags sampleFormat
          [sampleID, sampleSTREAM_ID, sampleCPU, sampleIDENTIFIER] * 8)
    else
      none
  let sampleRecordIdOffsetFromStart :=
    if hasFlag sampleFormat sampleIDENTIFIER then
      some 0
    else if hasFlag sampleFormat sampleID then
      some (countFlags sampleFormat [sampleIP, sampleTID, sampleTIME, sampleADDR] * 8)
    else
      none
  { nonsample_record_id_offset_from_end := nonsampleRecordIdOffsetFromEnd,
    sample_record_id_offset_from_start := sampleRecordIdOffsetFromStart }

/-- RecordParseInfo::new (src/parse_info.rs lines 26-113). -/
def RecordParseInfo.new (attr : PerfEventAttr) (endian : Endianness) : RecordParseInfo :=
  let sampleFormat := attr.sample_format
  let branchSampleFormat := attr.branch_sample_format
  let readFormat := attr.read_format
  let commonDataOffsetFromEnd :=
    if hasFlag attr.flags attrSAMPLE_ID_ALL then
      some (countFlags sampleFormat
        [sampleTID, sampleTIME, sampleID, sampleSTREAM_ID, sampleCPU, sampleIDENTIFIER] * 8)
    else
      none
  let sampleRegsUser := attr.sample_regs_user
  let userRegsCount := popCount64 sampleRegsUser
  let sampleRegsIntr := attr.sample_regs_intr
  let intrRegsCount := popCount64 sampleRegsIntr
  let nonsampleRecordTimeOffsetFromEnd :=
    if hasFlag attr.flags attrSAMPLE_ID_ALL && hasFlag sampleFormat sampleTIME then
      some (countFlags sampleFormat
        [sampleTIME, sampleID, sampleSTREAM_ID, sampleCPU, sampleIDENTIFIER] * 8)
    else
      none
  let sampleRecordTimeOffsetFromStart :=
    if hasFlag sampleFormat sampleTIME then
      some (countFlags sampleFormat [sampleIDENTIFIER, sampleIP, sampleTID] * 8)
    else
      none
  { endian := endian,
    sample_format := sampleFormat,
    branch_sample_format := branchSampleFormat,
    read_format := readFormat,
    common_data_offset_from_end := commonDataOffsetFromEnd,
    sample_regs_user := sampleRegsUser,
    user_regs_count := userRegsCount,
    sample_regs_intr := sampleRegsIntr,
    intr_regs_count := intrRegsCount,
    id_parse_info := RecordIdParseInfo.new attr,
    nonsample_record_time_offset_from_end := nonsampleRecordTimeOffsetFromEnd,
    sample_record_time_offset_from_start := sampleRecordTimeOffsetFromStart }

/-- get_record_id (src/records/mod.rs lines 50-73; identical source text at
src/event_record.rs lines 42-65). -/
def getRecordId (en : Endianness) (recordType : RecordType) (data : RawData)
    (parseInfo : RecordIdParseInfo) : Option Nat :=
  if recordType.isUserType then
    none
  else if recordType = RecordType.SAMPLE then
    match parseInfo.sample_record_id_offset_from_start with
    | some idOffsetFromStart =>
      match data.skip idOffsetFromStart with
      | .error _ => none
      | .ok data =>
        match RawData.readU64 en data with
        | .error _ => none
        | .ok (v, _) => some v
    | none => none
  else
    match parseInfo.nonsample_record_id_offset_from_end with
    | some idOffsetFromEnd =>
      if data.len < idOffsetFromEnd then
        none
      else
        match data.skip (data.len - idOffsetFromEnd) with
        | .error _ => none
        | .ok data =>
          match RawData.readU64 en data with
          | .error _ => none
          | .ok (v, _) => some v
    | none => none

/-- get_record_timestamp (src/records/mod.rs lines 79-102; identical source
text at src/event_record.rs lines 71-94). -/
def getRecordTimestamp (en : Endianness) (recordType : RecordType) (data : RawData)
    (parseInfo : RecordParseInfo) : Option Nat :=
  if recordType.isUserType then
    none
  else if recordType = RecordType.SAMPLE then
    match parseInfo.sample_record_time_offset_from_start with
    | some timeOffsetFromStart =>
      match data.skip timeOffsetFromStart with
      | .error _ => none
      | .ok data =>
        match RawData.readU64 en data with
        | .error _ => none
        | .ok (v, _) => some v
    | none => none
  else
    match parseInfo.nonsample_record_time_offset_from_end with
    | some timeOffsetFromEnd =>
      if data.len < timeOffsetFromEnd then
        none
      else
        match data.skip (data.len - timeOffsetFromEnd) with
        | .error _ => none
        | .ok data =>
          match RawData.readU64 en data with
          | .error _ => none
          | .ok (v, _) => some v
    | none => none


/-- One optional u64 field of a record body: `if fmt.contains(FLAG) {
Some(cur.read_u64::<T>()?) } else { None }`, the idiom repeated throughout
src/records/sample.rs and src/records/common_data.rs. -/
def readOptU64 (en : Endianness) (c : Bool) (cur : RawData) :
    Except IoErr (Option Nat × RawData) :=
  if c then do
    let (v, cur) ← RawData.readU64 en cur
    pure (some v, cur)
  else pure (none, cur)

/-- The optional pid/tid pair: two i32 reads gated on one flag
(src/records/sample.rs lines 51-57, src/records/common_data.rs lines 114-120). -/
def readOptTid (en : Endianness) (c : Bool) (cur : RawData) :
    Except IoErr (Option Int × Option Int × RawData) :=
  if c then do
    let (pid, cur) ← RawData.readI32 en cur
    let (tid, cur) ← RawData.readI32 en cur
    pure (some pid, some tid, cur)
  else pure (none, none, cur)

/-- The optional cpu field: a u32 value plus a reserved u32, gated on one
flag (src/records/sample.rs lines 84-90). -/
def readOptCpu (en : Endianness) (c : Bool) (cur : RawData) :
    Except IoErr (Option Nat × RawData) :=
  if c then do
    let (cpu, cur) ← RawData.readU32 en cur
    let (_reserved, cur) ← RawData.readU32 en cur
    pure (some cpu, cur)
  else pure (none, cur)

/-- One consumed-and-discarded optional u64 field: `if fmt.contains(FLAG) {
let _ = cur.read_u64::<T>()?; }`. -/
def skipFlaggedU64 (en : Endianness) (c : Bool) (cur : RawData) :
    Except IoErr RawData :=
  if c then do
    let (_v, cur) ← RawData.readU64 en cur
    pure cur
  else pure cur

/-- CommonData (src/records/common_data.rs lines 7-15). -/
structure CommonData where
  pid : Option Int
  tid : Option Int
  timestamp : Option Nat
  id : Option Nat
  stream_id : Option Nat
  cpu : Option Nat
deriving DecidableEq, Repr

/-- CommonData::default(): the all-absent value. -/
def CommonData.defaultValue : CommonData :=
  { pid := none, tid := none, timestamp := none, id := none, stream_id := none, cpu := none }

/-- CommonData::parse_nonsample (src/records/common_data.rs lines 92-166):
skip to the trailer at `common_data_offset_from_end` bytes before the end,
then read the requested fields in trailer order, with the trailing identifier
superseding the plain id. -/
def CommonData.parseNonsample (en : Endianness) (data : RawData)
    (parseInfo : RecordParseInfo) : Except IoErr CommonData :=
  match parseInfo.common_data_offset_from_end with
  | some commonDataOffsetFromEnd => do
    let sampleFormat := parseInfo.sample_format
    let cur := data
    -- cur.len().checked_sub(offset).ok_or(UnexpectedEof)?
    if cur.len < commonDataOffsetFromEnd then
      throw IoErr.unexpectedEof
    else
    let cur ← RawData.skip cur (cur.len - commonDataOffsetFromEnd)
    let (pid, tid, cur) ← readOptTid en (hasFlag sampleFormat sampleTID) cur
    let (timestamp, cur) ← readOptU64 en (hasFlag sampleFormat sampleTIME) cur
    let (idPlain, cur) ← readOptU64 en (hasFlag sampleFormat sampleID) cur
    let (streamId, cur) ← readOptU64 en (hasFlag sampleFormat sampleSTREAM_ID) cur
    let (cpu, cur) ← readOptCpu en (hasFlag sampleFormat sampleCPU) cur
    let (identifier, _cur) ← readOptU64 en (hasFlag sampleFormat sampleIDENTIFIER) cur
    let id := identifier.or idPlain
    pure { pid := pid, tid := tid, timestamp := timestamp, id := id,
           stream_id := streamId, cpu := cpu }
  | none => .ok CommonData.defaultValue

/-- SampleRecord (src/records/sample.rs lines 8-25). -/
structure SampleRecord where
  id : Option Nat
  addr : Option Nat
  stream_id : Option Nat
  raw : Option RawData
  ip : Option Nat
  timestamp : Option Nat
  pid : Option Int
  tid : Option Int
  cpu : Option Nat
  period : Option Nat
  user_regs : Option Regs
  user_stack : Option (RawData × Nat)
  callchain : Option RawDataU64
  phys_addr : Option Nat
  data_page_size : Option Nat
  code_page_size : Option Nat
deriving DecidableEq, Repr

/-- The `for _ in 0..nr` loop of the non-grouped READ block
(src/records/sample.rs lines 119-124): each entry is a value word plus an
optional id word. -/
def readEntriesLoop (en : Endianness) (readFormat : Nat) :
    Nat → RawData → Except IoErr RawData
  | 0, cur => .ok cur
  | n + 1, cur => do
    let (_value, cur) ← RawData.readU64 en cur
    let cur ← skipFlaggedU64 en (hasFlag readFormat readID) cur
    readEntriesLoop en readFormat n cur

/-- The `for _ in 0..nr` loop of the BRANCH_STACK block
(src/records/sample.rs lines 149-153): three words per entry. -/
def branchEntriesLoop (en : Endianness) : Nat → RawData → Except IoErr RawData
  | 0, cur => .ok cur
  | n + 1, cur => do
    let (_from, cur) ← RawData.readU64 en cur
    let (_to, cur) ← RawData.readU64 en cur
    let (_flags, cur) ← RawData.readU64 en cur
    branchEntriesLoop en n cur

/-- SampleRecord::parse (src/records/sample.rs lines 28-244). The source
reads `parse_info.regs_count` (line 35) and uses it for both the REGS_USER
block (line 161) and the REGS_INTR block (line 199); that field belongs to
the revision of RecordParseInfo defined in records/parse_info.rs, which is
absent from the tree and which the RecordParseInfo embedded above (from
src/parse_info.rs) does not contain, so the field's value is taken as the
explicit argument `regsCount`. -/
def SampleRecord.parse (en : Endianness) (data : RawData)
    (parseInfo : RecordParseInfo) (regsCount : Nat) : Except IoErr SampleRecord := do
  let sampleFormat := parseInfo.sample_format
  let branchSampleFormat := parseInfo.branch_sample_format
  let readFormat := parseInfo.read_format
  let sampleRegsUser := parseInfo.sample_regs_user
  let cur := data

  let (identifier, cur) ← readOptU64 en (hasFlag sampleFormat sampleIDENTIFIER) cur
  let (ip, cur) ← readOptU64 en (hasFlag sampleFormat sampleIP) cur
  let (pid, tid, cur) ← readOptTid en (hasFlag sampleFormat sampleTID) cur
  let (timestamp, cur) ← readOptU64 en (hasFlag sampleFormat sampleTIME) cur
  let (addr, cur) ← readOptU64 en (hasFlag sampleFormat sampleADDR) cur
  let (idPlain, cur) ← readOptU64 en (hasFlag sampleFormat sampleID) cur
  let id := identifier.or idPlain
  let (streamId, cur) ← readOptU64 en (hasFlag sampleFormat sampleSTREAM_ID) cur
  let (cpu, cur) ← readOptCpu en (hasFlag sampleFormat sampleCPU) cur
  let (period, cur) ← readOptU64 en (hasFlag sampleFormat samplePERIOD) cur

  let cur ← (if hasFlag sampleFormat sampleREAD then
      if hasFlag readFormat readGROUP then do
        let (_value, cur) ← RawData.readU64 en cur
        let cur ← skipFlaggedU64 en (hasFlag readFormat readTOTAL_TIME_ENABLED) cur
        let cur ← skipFlaggedU64 en (hasFlag readFormat readTOTAL_TIME_RUNNING) cur
        let cur ← skipFlaggedU64 en (hasFlag readFormat readID) cur
        pure cur
      else do
        let (nr, cur) ← RawData.readU64 en cur
        let cur ← skipFlaggedU64 en (hasFlag readFormat readTOTAL_TIME_ENABLED) cur
        let cur ← skipFlaggedU64 en (hasFlag readFormat readTOTAL_TIME_RUNNING) cur
        readEntriesLoop en readFormat nr cur
    else pure cur)

  let (callchain, cur) ← (if hasFlag sampleFormat sampleCALLCHAIN then do
      let (callchainLength, cur) ← RawData.readU64 en cur
      let (cc, cur) ← RawData.splitOffStart cur (callchainLength * 8)
      pure (some (RawDataU64.fromRawData en cc), cur)
    else pure (none, cur))

  let (raw, cur) ← (if hasFlag sampleFormat sampleRAW then do
      let (size, cur) ← RawData.readU32 en cur
      let (r, cur) ← RawData.splitOffStart cur size
      pure (some r, cur)
    else pure (none, cur))

  let cur ← (if hasFlag sampleFormat sampleBRANCH_STACK then do
      let (nr, cur) ← RawData.readU64 en cur
      let cur ← skipFlaggedU64 en (hasFlag branchSampleFormat branchHW_INDEX) cur
      branchEntriesLoop en nr cur
    else pure cur)

  let (userRegs, cur) ← (if hasFlag sampleFormat sampleREGS_USER then do
      let (regsAbi, cur) ← RawData.readU64 en cur
      if regsAbi = 0 then pure (none, cur)
      else do
        let (regsData, cur) ← RawData.splitOffStart cur (regsCount * 8)
        let rawRegs := RawDataU64.fromRawData en regsData
        let userRegs := Regs.new sampleRegsUser rawRegs
        pure (some userRegs, cur)
    else pure (none, cur))

  let (userStack, cur) ← (if hasFlag sampleFormat sampleSTACK_USER then do
      let (stackSize, cur) ← RawData.readU64 en cur
      let (stack, cur) ← RawData.splitOffStart cur stackSize
      let (dynamicSize, cur) ← (if stackSize ≠ 0 then RawData.readU64 en cur
        else pure (0, cur))
      pure (some (stack, dynamicSize), cur)
    else pure (none, cur))

  let cur ← skipFlaggedU64 en (hasFlag sampleFormat sampleWEIGHT) cur
  let cur ← skipFlaggedU64 en (hasFlag sampleFormat sampleDATA_SRC) cur
  let cur ← skipFlaggedU64 en (hasFlag sampleFormat sampleTRANSACTION) cur

  let cur ← (if hasFlag sampleFormat sampleREGS_INTR then do
      let (regsAbi, cur) ← RawData.readU64 en cur
      if regsAbi ≠ 0 then RawData.skip cur (regsCount * 8)
      else pure cur
    else pure cur)

  let (physAddr, cur) ← readOptU64 en (hasFlag sampleFormat samplePHYS_ADDR) cur

  let cur ← (if hasFlag sampleFormat sampleAUX then do
      let (size, cur) ← RawData.readU64 en cur
      RawData.skip cur size
    else pure cur)

  let (dataPageSize, cur) ← readOptU64 en (hasFlag sampleFormat sampleDATA_PAGE_SIZE) cur
  let (codePageSize, _cur) ← readOptU64 en (hasFlag sampleFormat sampleCODE_PAGE_SIZE) cur

  pure { id := id, ip := ip, addr := addr, stream_id := streamId, raw := raw,
         user_regs := userRegs, user_stack := userStack, callchain := callchain,
         cpu := cpu, timestamp := timestamp, pid := pid, tid := tid,
         period := period, phys_addr := physAddr, data_page_size := dataPageSize,
         code_page_size := codePageSize }

/-- CpuMode (src/types.rs lines 329-337). -/
inductive CpuMode where
  | unknown
  | kernel
  | user
  | hypervisor
  | guestKernel
  | guestUser
deriving DecidableEq, Repr

/-- CpuMode::from_misc (src/types.rs lines 339-352); the 3-bit cpumode field
is the low bits of `misc` (PERF_RECORD_MISC_CPUMODE_MASK is 7). -/
def CpuMode.fromMisc (misc : Nat) : CpuMode :=
  match misc &&& 7 with
  | 0 => .unknown
  | 1 => .kernel
  | 2 => .user
  | 3 => .hypervisor
  | 4 => .guestKernel
  | 5 => .guestUser
  | _ => .unknown

/-- Bit position of PERF_RECORD_MISC_MMAP_BUILD_ID (kernel ABI: 1 << 14). -/
def miscMMAP_BUILD_ID : Nat := 14

/-- Mmap2InodeAndVersion (src/records/event_record.rs lines 259-265). -/
structure Mmap2InodeAndVersion where
  major : Nat
  minor : Nat
  inode : Nat
  inode_generation : Nat
deriving DecidableEq, Repr

/-- Mmap2FileId (src/records/event_record.rs lines 171-175). -/
inductive Mmap2FileId where
  | inodeAndVersion (v : Mmap2InodeAndVersion)
  | buildId (b : List Nat)
deriving DecidableEq, Repr

/-- Mmap2Record (src/records/event_record.rs lines 177-189). -/
structure Mmap2Record where
  pid : Int
  tid : Int
  address : Nat
  length : Nat
  page_offset : Nat
  file_id : Mmap2FileId
  protection : Nat
  flags : Nat
  cpu_mode : CpuMode
  path : RawData
deriving DecidableEq, Repr

/-- Mmap2Record::parse (src/records/event_record.rs lines 191-237). The
build-id branch executes `assert!(build_id_len <= 20)` (line 202): when the
length byte exceeds 20 the Rust code panics, which is modelled as the
distinguished outcome `IoErr.panicAssert`. -/
def Mmap2Record.parse (en : Endianness) (data : RawData) (misc : Nat) :
    Except IoErr Mmap2Record := do
  let cur := data
  let (pid, cur) ← RawData.readI32 en cur
  let (tid, cur) ← RawData.readI32 en cur
  let (address, cur) ← RawData.readU64 en cur
  let (length, cur) ← RawData.readU64 en cur
  let (pageOffset, cur) ← RawData.readU64 en cur
  let (fileId, cur) ←
    (if misc.testBit miscMMAP_BUILD_ID then do
      let (buildIdLen, cur) ← RawData.readU8 cur
      if buildIdLen ≤ 20 then do
        let (_align1, cur) ← RawData.readU8 cur
        let (_align2, cur) ← RawData.readU16 en cur
        let (buildIdBytes, cur) ← RawData.readExact cur 20
        pure (Mmap2FileId.buildId (buildIdBytes.take buildIdLen), cur)
      else
        throw IoErr.panicAssert
    else do
      let (major, cur) ← RawData.readU32 en cur
      let (minor, cur) ← RawData.readU32 en cur
      let (inode, cur) ← RawData.readU64 en cur
      let (inodeGeneration, cur) ← RawData.readU64 en cur
      pure (Mmap2FileId.inodeAndVersion
        { major := major, minor := minor, inode := inode,
          inode_generation := inodeGeneration }, cur))
  let (protection, cur) ← RawData.readU32 en cur
  let (flags, cur) ← RawData.readU32 en cur
  let (path, _cur) := match RawData.readString cur with
    | (some s, cur) => (s, cur)
    | (none, cur) => (cur, cur)
  pure { pid := pid, tid := tid, address := address, length := length,
         page_offset := pageOffset, file_id := fileId, protection := protection,
         flags := flags, cpu_mode := CpuMode.fromMisc misc, path := path }

/-- The PERF_ATTR_SIZE_VER* thresholds (src/consts.rs is absent from the
tree; these are the kernel ABI values, which also equal the cumulative byte
counts of the field groups listed in the specification). -/
def PERF_ATTR_SIZE_VER0 : Nat := 64
def PERF_ATTR_SIZE_VER1 : Nat := 72
def PERF_ATTR_SIZE_VER2 : Nat := 80
def PERF_ATTR_SIZE_VER3 : Nat := 96
def PERF_ATTR_SIZE_VER4 : Nat := 104
def PERF_ATTR_SIZE_VER5 : Nat := 112
def PERF_ATTR_SIZE_VER6 : Nat := 120
def PERF_ATTR_SIZE_VER7 : Nat := 128

/-- Sequential byte reader over a contiguous stream, for the `R: Read`
parameter of PerfEventAttr::parse: take `n` bytes or fail with UnexpectedEof. -/
def readBytes (reader : List Nat) (n : Nat) : Except IoErr (List Nat × List Nat) :=
  if reader.length < n then .error .unexpectedEof
  else .ok (reader.take n, reader.drop n)

/-- Reader variant of read_u64. -/
def readerU64 (en : Endianness) (reader : List Nat) : Except IoErr (Nat × List Nat) :=
  match readBytes reader 8 with
  | .ok (b, reader) => .ok (decodeU en b, reader)
  | .error e => .error e

/-- Reader variant of read_u32. -/
def readerU32 (en : Endianness) (reader : List Nat) : Except IoErr (Nat × List Nat) :=
  match readBytes reader 4 with
  | .ok (b, reader) => .ok (decodeU en b, reader)
  | .error e => .error e

/-- Reader variant of read_u16. -/
def readerU16 (en : Endianness) (reader : List Nat) : Except IoErr (Nat × List Nat) :=
  match readBytes reader 2 with
  | .ok (b, reader) => .ok (decodeU en b, reader)
  | .error e => .error e

/-- PerfEventAttr::parse (src/perf_event.rs lines 88-225). The effective
`size` is the explicit override if supplied, else the stream's self-declared
size; field groups are read in increasing version order, each gated on the
effective size, and any excess beyond VER7 is consumed and discarded
(io::copy into a sink, which cannot fail for an in-memory reader). -/
def PerfEventAttr.parse (en : Endianness) (reader : List Nat)
    (sizeOpt : Option Nat) : Except IoErr PerfEventAttr := do
  let (typeRaw, reader) ← readerU32 en reader
  let (selfDescribedSize, reader) ← readerU32 en reader
  let (config, reader) ← readerU64 en reader

  let size := sizeOpt.getD selfDescribedSize
  if size < PERF_ATTR_SIZE_VER0 then
    throw IoErr.invalidInput
  else

  let (samplingPeriodOrFrequency, reader) ← readerU64 en reader
  let (sampleType, reader) ← readerU64 en reader
  let (readFormatRaw, reader) ← readerU64 en reader
  let (flagsRaw, reader) ← readerU64 en reader
  let (wakeupEventsOrWatermark, reader) ← readerU32 en reader
  let (bpType, reader) ← readerU32 en reader
  let (bpAddrOrConfig1, reader) ← readerU64 en reader

  let (bpLenOrConfig2, reader) ← (if PERF_ATTR_SIZE_VER1 ≤ size then readerU64 en reader
    else pure (0, reader))

  let (branchSampleType, reader) ← (if PERF_ATTR_SIZE_VER2 ≤ size then readerU64 en reader
    else pure (0, reader))

  let (sampleRegsUser, sampleStackUser, clockid, reader) ←
    (if PERF_ATTR_SIZE_VER3 ≤ size then do
      let (sampleRegsUser, reader) ← readerU64 en reader
      let (sampleStackUser, reader) ← readerU32 en reader
      let (clockid, reader) ← readerU32 en reader
      pure (sampleRegsUser, sampleStackUser, clockid, reader)
    else pure (0, 0, 0, reader))

  let (sampleRegsIntr, reader) ← (if PERF_ATTR_SIZE_VER4 ≤ size then readerU64 en reader
    else pure (0, reader))

  let (auxWatermark, sampleMaxStack, reader) ←
    (if PERF_ATTR_SIZE_VER5 ≤ size then do
      let (auxWatermark, reader) ← readerU32 en reader
      let (sampleMaxStack, reader) ← readerU16 en reader
      let (_reserved2, reader) ← readerU16 en reader
      pure (auxWatermark, sampleMaxStack, reader)
    else pure (0, 0, reader))

  let (auxSampleSize, reader) ←
    (if PERF_ATTR_SIZE_VER6 ≤ size then do
      let (auxSampleSize, reader) ← readerU32 en reader
      let (_reserved3, reader) ← readerU32 en reader
      pure (auxSampleSize, reader)
    else pure (0, reader))

  let (sigData, reader) ← (if PERF_ATTR_SIZE_VER7 ≤ size then readerU64 en reader
    else pure (0, reader))

  -- Consume any remaining bytes (io::copy into io::sink).
  let _ := if PERF_ATTR_SIZE_VER7 < size then reader.drop (size - PERF_ATTR_SIZE_VER7)
    else reader

  let flags := flagsRaw &&& attrFlagsMask
  let type_ ← (match PerfEventType.parse typeRaw bpType config bpAddrOrConfig1
      bpLenOrConfig2 with
    | some t => pure t
    | none => throw IoErr.invalidInput)

  -- NonZeroU64::new(v) is Some exactly when v is nonzero.
  let samplingPolicy :=
    if hasFlag flags attrFREQ then SamplingPolicy.frequency samplingPeriodOrFrequency
    else if samplingPeriodOrFrequency ≠ 0 then SamplingPolicy.period samplingPeriodOrFrequency
    else SamplingPolicy.noSampling

  let wakeupPolicy :=
    if hasFlag flags attrWATERMARK then WakeupPolicy.watermark wakeupEventsOrWatermark
    else WakeupPolicy.eventCount wakeupEventsOrWatermark

  let clock ← (if hasFlag flags attrUSE_CLOCKID then
      match ClockId.fromU32 clockid with
      | some c => pure (PerfClock.clockId c)
      | none => throw IoErr.invalidInput
    else pure PerfClock.defaultClock)

  pure { type_ := type_,
         sampling_policy := samplingPolicy,
         sample_format := sampleType &&& sampleFormatMask,
         read_format := readFormatRaw &&& readFormatMask,
         flags := flags,
         wakeup_policy := wakeupPolicy,
         branch_sample_format := branchSampleType &&& branchSampleFormatMask,
         sample_regs_user := sampleRegsUser,
         sample_stack_user := sampleStackUser,
         clock := clock,
         sample_regs_intr := sampleRegsIntr,
         aux_watermark := auxWatermark,
         sample_max_stack := sampleMaxStack,
         aux_sample_size := auxSampleSize,
         sig_data := sigData }

/-- The u64 at byte offset `k` of a logical byte sequence, in byte order
`en`: the value a straight read of bytes `k..k+8` yields. -/
def wordAt (en : Endianness) (l : List Nat) (k : Nat) : Nat :=
  decodeU en ((l.drop k).take 8)

/-- The split view of the byte sequence `b` at position `i`:
`RawData::Split(&b[..i], &b[i..])`. -/
def splitView (b : List Nat) (i : Nat) : RawData :=
  .split (b.take i) (b.drop i)

/-- The known perf_event_attr version-size thresholds, oldest first. -/
def attrSizeThresholds : List Nat :=
  [PERF_ATTR_SIZE_VER0, PERF_ATTR_SIZE_VER1, PERF_ATTR_SIZE_VER2,
   PERF_ATTR_SIZE_VER3, PERF_ATTR_SIZE_VER4, PERF_ATTR_SIZE_VER5,
   PERF_ATTR_SIZE_VER6, PERF_ATTR_SIZE_VER7]

/-- Every scalar field group beyond declared size `n` of a decoded
configuration holds its zero default (the VER1 group extends the
type-specific payload rather than a scalar field and is therefore not
listed). -/
def attrZeroBeyond (n : Nat) (a : PerfEventAttr) : Prop :=
  (n < PERF_ATTR_SIZE_VER2 → a.branch_sample_format = 0) ∧
  (n < PERF_ATTR_SIZE_VER3 → a.sample_regs_user = 0 ∧ a.sample_stack_user = 0) ∧
  (n < PERF_ATTR_SIZE_VER4 → a.sample_regs_intr = 0) ∧
  (n < PERF_ATTR_SIZE_VER5 → a.aux_watermark = 0 ∧ a.sample_max_stack = 0) ∧
  (n < PERF_ATTR_SIZE_VER6 → a.aux_sample_size = 0) ∧
  (n < PERF_ATTR_SIZE_VER7 → a.sig_data = 0)

deriving instance DecidableEq for Except

/-!
Concrete inputs used by witness theorems.
-/

/-- Witness configuration: sample format TID, TIME and IDENTIFIER; flag
SAMPLE_ID_ALL; everything else inert. -/
def attrW1 : PerfEventAttr :=
  { type_ := .tracepoint 0, sampling_policy := .noSampling,
    sample_format := 2 ^ sampleTID + 2 ^ sampleTIME + 2 ^ sampleIDENTIFIER,
    read_format := 0, flags := 2 ^ attrSAMPLE_ID_ALL,
    wakeup_policy := .eventCount 0, branch_sample_format := 0,
    sample_regs_user := 0, sample_stack_user := 0, clock := .defaultClock,
    sample_regs_intr := 0, aux_watermark := 0, sample_max_stack := 0,
    aux_sample_size := 0, sig_data := 0 }

/-- Witness sample body for attrW1: identifier 9, pid 5, tid 6, timestamp 7. -/
def sampleBodyW1 : RawData :=
  .single [9, 0, 0, 0, 0, 0, 0, 0, 5, 0, 0, 0, 6, 0, 0, 0, 7, 0, 0, 0, 0, 0, 0, 0]

/-- The record sampleBodyW1 parses to under attrW1. -/
def sampleRecW1 : SampleRecord :=
  { id := some 9, addr := none, stream_id := none, raw := none, ip := none,
    timestamp := some 7, pid := some 5, tid := some 6, cpu := none,
    period := none, user_regs := none, user_stack := none, callchain := none,
    phys_addr := none, data_page_size := none, code_page_size := none }

/-- Witness non-sample body for attrW1: four payload bytes, then the trailer
pid 5, tid 6, timestamp 7, identifier 9. -/
def nonsampleBodyW1 : RawData :=
  .single [0, 0, 0, 0, 5, 0, 0, 0, 6, 0, 0, 0, 7, 0, 0, 0, 0, 0, 0, 0,
    9, 0, 0, 0, 0, 0, 0, 0]

/-- The common data nonsampleBodyW1 parses to under attrW1. -/
def commonW1 : CommonData :=
  { pid := some 5, tid := some 6, timestamp := some 7, id := some 9,
    stream_id := none, cpu := none }

/-!
Characterization lemmas: each cursor operation described as a function of
the cursor's logical byte sequence.
-/

/-- Witness parse info for the C8 peek cases with both offsets present. -/
def infoW8a : RecordParseInfo :=
  { endian := Endianness.littleEndian, sample_format := 0,
    branch_sample_format := 0, read_format := 0,
    common_data_offset_from_end := none, sample_regs_user := 0,
    user_regs_count := 0, sample_regs_intr := 0, intr_regs_count := 0,
    id_parse_info := { nonsample_record_id_offset_from_end := some 16,
                       sample_record_id_offset_from_start := some 16 },
    nonsample_record_time_offset_from_end := some 16,
    sample_record_time_offset_from_start := some 16 }

/-- Witness parse info for the C8 peek cases with both offsets absent. -/
def infoW8b : RecordParseInfo :=
  { endian := Endianness.littleEndian, sample_format := 0,
    branch_sample_format := 0, read_format := 0,
    common_data_offset_from_end := none, sample_regs_user := 0,
    user_regs_count := 0, sample_regs_intr := 0, intr_regs_count := 0,
    id_parse_info := { nonsample_record_id_offset_from_end := none,
                       sample_record_id_offset_from_start := none },
    nonsample_record_time_offset_from_end := none,
    sample_record_time_offset_from_start := none }

/-- Witness parse info for identifier precedence: both the IDENTIFIER and
the plain ID sample-format flags set, trailer offset 16. -/
def infoW9 : RecordParseInfo :=
  { endian := Endianness.littleEndian,
    sample_format := 2 ^ sampleIDENTIFIER + 2 ^ sampleID,
    branch_sample_format := 0, read_format := 0,
    common_data_offset_from_end := some 16, sample_regs_user := 0,
    user_regs_count := 0, sample_regs_intr := 0, intr_regs_count := 0,
    id_parse_info := { nonsample_record_id_offset_from_end := some 8,
                       sample_record_id_offset_from_start := some 0 },
    nonsample_record_time_offset_from_end := none,
    sample_record_time_offset_from_start := none }

/-- Witness sample body for infoW9: identifier 1, then plain id 2. -/
def sampleBodyW9 : RawData :=
  .single [1, 0, 0, 0, 0, 0, 0, 0, 2, 0, 0, 0, 0, 0, 0, 0]

/-- The record sampleBodyW9 parses to under infoW9: identifier 1 wins. -/
def sampleRecW9 : SampleRecord :=
  { id := some 1, addr := none, stream_id := none, raw := none, ip := none,
    timestamp := none, pid := none, tid := none, cpu := none,
    period := none, user_regs := none, user_stack := none, callchain := none,
    phys_addr := none, data_page_size := none, code_page_size := none }

/-- Witness non-sample body for infoW9: four payload bytes, then the trailer
plain id 2 and identifier 1. -/
def nonsampleBodyW9 : RawData :=
  .single [0, 0, 0, 0, 2, 0, 0, 0, 0, 0, 0, 0, 1, 0, 0, 0, 0, 0, 0, 0]

/-- The common data nonsampleBodyW9 parses to under infoW9: identifier 1 wins. -/
def commonW9 : CommonData :=
  { pid := none, tid := none, timestamp := none, id := some 1,
    stream_id := none, cpu := none }

/-- C4 configuration: REGS_USER, REGS_INTR and PHYS_ADDR requested, user
register mask 0x1 (popcount 1) and interrupt register mask 0x3 (popcount 2). -/
def infoW4 : RecordParseInfo :=
  { endian := Endianness.littleEndian,
    sample_format := 2 ^ sampleREGS_USER + 2 ^ sampleREGS_INTR + 2 ^ samplePHYS_ADDR,
    branch_sample_format := 0, read_format := 0,
    common_data_offset_from_end := none, sample_regs_user := 1,
    user_regs_count := 1, sample_regs_intr := 3, intr_regs_count := 2,
    id_parse_info := { nonsample_record_id_offset_from_end := none,
                       sample_record_id_offset_from_start := none },
    nonsample_record_time_offset_from_end := none,
    sample_record_time_offset_from_start := none }

/-- C4 body laid out as the claim demands for infoW4: user abi 1, one user
register word, interrupt abi 1, two interrupt register words (the second
nonzero), and the phys_addr word 170 at byte offset 40. -/
def c4Body : RawData :=
  .single [1, 0, 0, 0, 0, 0, 0, 0,  0, 0, 0, 0, 0, 0, 0, 0,
           1, 0, 0, 0, 0, 0, 0, 0,  0, 0, 0, 0, 0, 0, 0, 0,
           1, 0, 0, 0, 0, 0, 0, 0,  170, 0, 0, 0, 0, 0, 0, 0]

/-- The record c4Body parses to under infoW4 with regs_count = 1. -/
def c4RecW : SampleRecord :=
  { id := none, addr := none, stream_id := none, raw := none, ip := none,
    timestamp := none, pid := none, tid := none, cpu := none, period := none,
    user_regs := some (Regs.new 1
      { swappedEndian := false,
        rawData := RawData.single [0, 0, 0, 0, 0, 0, 0, 0] }),
    user_stack := none, callchain := none, phys_addr := some 1,
    data_page_size := none, code_page_size := none }

/-- Witness attr byte stream for the sampling-policy claim: declared size 64
(VER0), FREQ flag set (bit 10 of the flags word), period/frequency word 0. -/
def readerW10 : List Nat :=
  [0, 0, 0, 0,  64, 0, 0, 0,  0, 0, 0, 0, 0, 0, 0, 0,
   0, 0, 0, 0, 0, 0, 0, 0,  0, 0, 0, 0, 0, 0, 0, 0,
   0, 0, 0, 0, 0, 0, 0, 0,  0, 4, 0, 0, 0, 0, 0, 0,
   0, 0, 0, 0,  0, 0, 0, 0,  0, 0, 0, 0, 0, 0, 0, 0]

/-- The configuration readerW10 parses to: Frequency 0. -/
def attrW10 : PerfEventAttr :=
  { type_ := PerfEventType.hardware HardwareEventId.cpuCycles { val := 0 },
    sampling_policy := SamplingPolicy.frequency 0,
    sample_format := 0, read_format := 0, flags := 1024,
    wakeup_policy := WakeupPolicy.eventCount 0, branch_sample_format := 0,
    sample_regs_user := 0, sample_stack_user := 0,
    clock := PerfClock.defaultClock, sample_regs_intr := 0,
    aux_watermark := 0, sample_max_stack := 0, aux_sample_size := 0,
    sig_data := 0 }

/-- Witness attr stream for version tolerance: tracepoint type, declared
size 96 (VER3), 96 bytes, all later fields zero. -/
def readerW5 : List Nat :=
  [2, 0, 0, 0, 96, 0, 0, 0] ++ List.replicate 88 0

/-- Witness attr stream with declared size 0: 16 bytes, tracepoint type. -/
def readerW5c : List Nat :=
  [2, 0, 0, 0, 0, 0, 0, 0] ++ List.replicate 8 0

theorem bind_ok_inv {α β : Type} {e : Except IoErr α} {f : α → Except IoErr β} {b : β}
    (H : e.bind f = .ok b) : ∃ a, e = .ok a ∧ f a = .ok b := by
  cases e with
  | ok a => exact ⟨a, rfl, H⟩
  | error err => exact absurd H (by simp [Except.bind])

theorem bindM_ok_inv {α β : Type} {e : Except IoErr α} {f : α → Except IoErr β} {b : β}
    (H : e >>= f = .ok b) : ∃ a, e = .ok a ∧ f a = .ok b :=
  bind_ok_inv H

namespace RawData

theorem len_eq_length_bytes (d : RawData) : d.len = d.bytes.length := by
  cases d <;> simp [len, bytes]

theorem readExactS_of_lt {d : RawData} {n : Nat} (h : d.bytes.length < n) :
    d.readExactS n = (.error .unexpectedEof, d) := by
  cases d with
  | single buffer =>
    simp only [bytes] at h
    simp only [readExactS]
    rw [if_pos h]
  | split left right =>
    simp only [bytes, List.length_append] at h
    simp only [readExactS]
    rw [if_neg (by omega), if_pos (by omega)]

theorem readExactS_of_le {d : RawData} {n : Nat} (h : n ≤ d.bytes.length) :
    (d.readExactS n).1 = .ok (d.bytes.take n) ∧
    ((d.readExactS n).2).bytes = d.bytes.drop n := by
  cases d with
  | single buffer =>
    simp only [bytes] at h
    simp only [readExactS]
    rw [if_neg (by omega)]
    simp [bytes]
  | split left right =>
    simp only [bytes, List.length_append] at h
    simp only [readExactS, bytes]
    by_cases hn : n ≤ left.length
    · rw [if_pos hn]
      refine ⟨?_, ?_⟩
      · simp [List.take_append_eq_append_take, Nat.sub_eq_zero_of_le hn]
      · by_cases hlt : n < left.length
        · rw [if_pos hlt]
          simp [bytes, List.drop_append_eq_append_drop, Nat.sub_eq_zero_of_le hn]
        · rw [if_neg hlt]
          have hne : n = left.length := by omega
          simp [bytes, hne, List.drop_append_eq_append_drop]
    · rw [if_neg hn, if_neg (by omega)]
      refine ⟨?_, ?_⟩
      · simp [List.take_append_eq_append_take,
          List.take_of_length_le (le_of_not_le hn)]
      · simp [bytes, List.drop_append_eq_append_drop,
          List.drop_of_length_le (le_of_not_le hn)]

theorem readExact_of_lt {d : RawData} {n : Nat} (h : d.bytes.length < n) :
    d.readExact n = .error .unexpectedEof := by
  rw [readExact, readExactS_of_lt h]

theorem readExact_of_le {d : RawData} {n : Nat} (h : n ≤ d.bytes.length) :
    ∃ d', d.readExact n = .ok (d.bytes.take n, d') ∧ d'.bytes = d.bytes.drop n := by
  obtain ⟨h1, h2⟩ := readExactS_of_le h
  rcases hE : d.readExactS n with ⟨r, d'⟩
  rw [hE] at h1 h2
  simp only at h1 h2
  subst h1
  exact ⟨d', by rw [readExact, hE], h2⟩

theorem readExact_eq_ok {d : RawData} {n : Nat} {v : List Nat} {d' : RawData}
    (H : d.readExact n = .ok (v, d')) :
    n ≤ d.bytes.length ∧ v = d.bytes.take n ∧ d'.bytes = d.bytes.drop n := by
  by_cases h : n ≤ d.bytes.length
  · obtain ⟨d₂, hE, hb⟩ := readExact_of_le h
    rw [hE] at H
    obtain ⟨hv, hd⟩ := Prod.mk.inj (Except.ok.inj H)
    exact ⟨h, hv.symm, hd ▸ hb⟩
  · rw [readExact_of_lt (by omega)] at H
    exact absurd H (by simp)

theorem skipS_of_lt {d : RawData} {n : Nat} (h : d.bytes.length < n) :
    d.skipS n = (.error .unexpectedEof, d) := by
  cases d with
  | single buffer =>
    simp only [bytes] at h
    simp only [skipS]
    rw [if_pos h]
  | split left right =>
    simp only [bytes, List.length_append] at h
    simp only [skipS]
    rw [if_neg (by omega), if_pos (by omega)]

theorem skipS_of_le {d : RawData} {n : Nat} (h : n ≤ d.bytes.length) :
    (d.skipS n).1 = .ok () ∧ ((d.skipS n).2).bytes = d.bytes.drop n := by
  cases d with
  | single buffer =>
    simp only [bytes] at h
    simp only [skipS]
    rw [if_neg (by omega)]
    simp [bytes]
  | split left right =>
    simp only [bytes, List.length_append] at h
    simp only [skipS]
    by_cases hn : n < left.length
    · rw [if_pos hn]
      simp [bytes, List.drop_append_eq_append_drop, Nat.sub_eq_zero_of_le (le_of_lt hn)]
    · rw [if_neg hn, if_neg (by omega)]
      simp [bytes, List.drop_append_eq_append_drop,
        List.drop_of_length_le (le_of_not_lt hn)]

theorem skip_of_lt {d : RawData} {n : Nat} (h : d.bytes.length < n) :
    d.skip n = .error .unexpectedEof := by
  rw [skip, skipS_of_lt h]

theorem skip_of_le {d : RawData} {n : Nat} (h : n ≤ d.bytes.length) :
    ∃ d', d.skip n = .ok d' ∧ d'.bytes = d.bytes.drop n := by
  obtain ⟨h1, h2⟩ := skipS_of_le h
  rcases hE : d.skipS n with ⟨r, d'⟩
  rw [hE] at h1 h2
  simp only at h1 h2
  subst h1
  exact ⟨d', by rw [skip, hE], h2⟩

theorem skip_eq_ok {d : RawData} {n : Nat} {d' : RawData}
    (H : d.skip n = .ok d') :
    n ≤ d.bytes.length ∧ d'.bytes = d.bytes.drop n := by
  by_cases h : n ≤ d.bytes.length
  · obtain ⟨d₂, hE, hb⟩ := skip_of_le h
    rw [hE] at H
    exact ⟨h, Except.ok.inj H ▸ hb⟩
  · rw [skip_of_lt (by omega)] at H
    exact absurd H (by simp)

theorem splitOffStartS_of_lt {d : RawData} {n : Nat} (h : d.bytes.length < n) :
    d.splitOffStartS n = (.error .unexpectedEof, d) := by
  cases d with
  | single buffer =>
    simp only [bytes] at h
    simp only [splitOffStartS]
    rw [if_pos h]
  | split left right =>
    simp only [bytes, List.length_append] at h
    simp only [splitOffStartS]
    rw [if_neg (by omega), if_pos (by omega)]

theorem splitOffStartS_of_le {d : RawData} {n : Nat} (h : n ≤ d.bytes.length) :
    (∃ p, (d.splitOffStartS n).1 = .ok p ∧ p.bytes = d.bytes.take n) ∧
    ((d.splitOffStartS n).2).bytes = d.bytes.drop n := by
  cases d with
  | single buffer =>
    simp only [bytes] at h
    simp only [splitOffStartS]
    rw [if_neg (by omega)]
    simp [bytes]
  | split left right =>
    simp only [bytes, List.length_append] at h
    simp only [splitOffStartS, bytes]
    by_cases hn : n ≤ left.length
    · rw [if_pos hn]
      refine ⟨⟨_, rfl, ?_⟩, ?_⟩
      · simp [bytes, List.take_append_eq_append_take, Nat.sub_eq_zero_of_le hn]
      · by_cases hlt : n < left.length
        · rw [if_pos hlt]
          simp [bytes, List.drop_append_eq_append_drop, Nat.sub_eq_zero_of_le hn]
        · rw [if_neg hlt]
          have hne : n = left.length := by omega
          simp [bytes, hne, List.drop_append_eq_append_drop]
    · rw [if_neg hn, if_neg (by omega)]
      refine ⟨⟨_, rfl, ?_⟩, ?_⟩
      · simp [bytes, List.take_append_eq_append_take,
          List.take_of_length_le (le_of_not_le hn)]
      · simp [bytes, List.drop_append_eq_append_drop,
          List.drop_of_length_le (le_of_not_le hn)]

theorem splitOffStart_of_lt {d : RawData} {n : Nat} (h : d.bytes.length < n) :
    d.splitOffStart n = .error .unexpectedEof := by
  rw [splitOffStart, splitOffStartS_of_lt h]

theorem splitOffStart_of_le {d : RawData} {n : Nat} (h : n ≤ d.bytes.length) :
    ∃ p d', d.splitOffStart n = .ok (p, d') ∧ p.bytes = d.bytes.take n ∧
      d'.bytes = d.bytes.drop n := by
  obtain ⟨⟨p, h1, hp⟩, h2⟩ := splitOffStartS_of_le h
  rcases hE : d.splitOffStartS n with ⟨r, d'⟩
  rw [hE] at h1 h2
  simp only at h1 h2
  subst h1
  exact ⟨p, d', by rw [splitOffStart, hE], hp, h2⟩

theorem splitOffStart_eq_ok {d : RawData} {n : Nat} {p d' : RawData}
    (H : d.splitOffStart n = .ok (p, d')) :
    n ≤ d.bytes.length ∧ p.bytes = d.bytes.take n ∧ d'.bytes = d.bytes.drop n := by
  by_cases h : n ≤ d.bytes.length
  · obtain ⟨p₂, d₂, hE, hp, hb⟩ := splitOffStart_of_le h
    rw [hE] at H
    obtain ⟨hv, hd⟩ := Prod.mk.inj (Except.ok.inj H)
    exact ⟨h, hv ▸ hp, hd ▸ hb⟩
  · rw [splitOffStart_of_lt (by omega)] at H
    exact absurd H (by simp)

theorem readU64_of_le {en : Endianness} {d : RawData} (h : 8 ≤ d.bytes.length) :
    ∃ d', d.readU64 en = .ok (wordAt en d.bytes 0, d') ∧ d'.bytes = d.bytes.drop 8 := by
  obtain ⟨d', hE, hb⟩ := readExact_of_le h
  exact ⟨d', by rw [readU64, hE]; simp [wordAt], hb⟩

theorem readU64_of_lt {en : Endianness} {d : RawData} (h : d.bytes.length < 8) :
    d.readU64 en = .error .unexpectedEof := by
  rw [readU64, readExact_of_lt h]

theorem readU64_eq_ok {en : Endianness} {d : RawData} {v : Nat} {d' : RawData}
    (H : d.readU64 en = .ok (v, d')) :
    8 ≤ d.bytes.length ∧ v = wordAt en d.bytes 0 ∧ d'.bytes = d.bytes.drop 8 := by
  by_cases h : 8 ≤ d.bytes.length
  · obtain ⟨d₂, hE, hb⟩ := @readU64_of_le en d h
    rw [hE] at H
    obtain ⟨hv, hd⟩ := Prod.mk.inj (Except.ok.inj H)
    exact ⟨h, hv.symm, hd ▸ hb⟩
  · rw [readU64_of_lt (by omega)] at H
    exact absurd H (by simp)

theorem readU32_eq_ok {en : Endianness} {d : RawData} {v : Nat} {d' : RawData}
    (H : d.readU32 en = .ok (v, d')) :
    4 ≤ d.bytes.length ∧ d'.bytes = d.bytes.drop 4 := by
  rw [readU32] at H
  by_cases h : 4 ≤ d.bytes.length
  · obtain ⟨d₂, hE, hb⟩ := readExact_of_le h
    rw [hE] at H
    obtain ⟨-, hd⟩ := Prod.mk.inj (Except.ok.inj H)
    exact ⟨h, hd ▸ hb⟩
  · rw [readExact_of_lt (by omega)] at H
    exact absurd H (by simp)

theorem readU32_of_le {en : Endianness} {d : RawData} (h : 4 ≤ d.bytes.length) :
    ∃ d', d.readU32 en = .ok (decodeU en (d.bytes.take 4), d') ∧
      d'.bytes = d.bytes.drop 4 := by
  obtain ⟨d', hE, hb⟩ := readExact_of_le h
  exact ⟨d', by rw [readU32, hE], hb⟩

theorem readI32_eq_ok {en : Endianness} {d : RawData} {v : Int} {d' : RawData}
    (H : d.readI32 en = .ok (v, d')) :
    4 ≤ d.bytes.length ∧ d'.bytes = d.bytes.drop 4 := by
  rw [readI32] at H
  by_cases h : 4 ≤ d.bytes.length
  · obtain ⟨d₂, hE, hb⟩ := readExact_of_le h
    rw [hE] at H
    obtain ⟨-, hd⟩ := Prod.mk.inj (Except.ok.inj H)
    exact ⟨h, hd ▸ hb⟩
  · rw [readExact_of_lt (by omega)] at H
    exact absurd H (by simp)

theorem readI32_of_le {en : Endianness} {d : RawData} (h : 4 ≤ d.bytes.length) :
    ∃ d', d.readI32 en = .ok (toI32 (decodeU en (d.bytes.take 4)), d') ∧
      d'.bytes = d.bytes.drop 4 := by
  obtain ⟨d', hE, hb⟩ := readExact_of_le h
  exact ⟨d', by rw [readI32, hE], hb⟩

theorem memchrZero_append (l r : List Nat) :
    memchrZero (l ++ r) =
      (memchrZero l).or ((memchrZero r).map (fun i => i + l.length)) := by
  simp [memchrZero, List.findIdx?_append]

theorem memchrZero_lt_length {l : List Nat} {n : Nat}
    (h : memchrZero l = some n) : n < l.length := by
  induction l generalizing n with
  | nil => simp [memchrZero] at h
  | cons x xs ih =>
    rw [memchrZero, List.findIdx?_cons, List.findIdx?_succ] at h
    by_cases hx : (decide (x = 0) : Bool) = true
    · rw [if_pos hx] at h
      cases h
      simp
    · rw [if_neg hx] at h
      simp only [Option.map_eq_some'] at h
      obtain ⟨m, hm, hn⟩ := h
      have := ih (n := m) hm
      simp only [List.length_cons]
      omega

theorem takeAppendLeft {l : List Nat} {n : Nat} (r : List Nat) (h : n ≤ l.length) :
    (l ++ r).take n = l.take n := by
  rw [List.take_append_eq_append_take, Nat.sub_eq_zero_of_le h]
  simp

theorem dropAppendLeft {l : List Nat} {n : Nat} (r : List Nat) (h : n ≤ l.length) :
    (l ++ r).drop n = l.drop n ++ r := by
  rw [List.drop_append_eq_append_drop, Nat.sub_eq_zero_of_le h]
  rfl

theorem takeAppendRight (l r : List Nat) (m : Nat) :
    (l ++ r).take (m + l.length) = l ++ r.take m := by
  rw [List.take_append_eq_append_take, List.take_of_length_le (by omega),
    Nat.add_sub_cancel]

theorem dropAppendRight (l r : List Nat) (m : Nat) :
    (l ++ r).drop (m + l.length) = r.drop m := by
  rw [List.drop_append_eq_append_drop, List.drop_of_length_le (by omega),
    Nat.add_sub_cancel]
  rfl

theorem readString_split_bytes (l r : List Nat) :
    (((RawData.split l r).readString).1).map bytes =
      (((RawData.single (l ++ r)).readString).1).map bytes ∧
    (((RawData.split l r).readString).2).bytes =
      (((RawData.single (l ++ r)).readString).2).bytes := by
  have hm := memchrZero_append l r
  rw [readString, readString]
  rcases hl : memchrZero l with - | n
  · rcases hr : memchrZero r with - | m
    · rw [hl, hr] at hm
      simp only [Option.or, Option.map] at hm
      rw [hm]
      simp [bytes]
    · rw [hl, hr] at hm
      simp only [Option.or, Option.map] at hm
      rw [hm]
      have hmlt := memchrZero_lt_length hr
      dsimp only [bytes]
      refine ⟨?_, ?_⟩
      · rw [takeAppendRight]
        simp [bytes]
      · have heq : m + l.length + 1 = (m + 1) + l.length := by omega
        rw [heq, dropAppendRight]
  · rw [hl] at hm
    simp only [Option.or] at hm
    rw [hm]
    have hnlt := memchrZero_lt_length hl
    dsimp only [bytes]
    refine ⟨?_, ?_⟩
    · rw [takeAppendLeft r (le_of_lt hnlt)]
    · by_cases hc : n + 1 < l.length
      · rw [if_pos hc]
        dsimp only [bytes]
        rw [dropAppendLeft r (by omega)]
      · rw [if_neg hc]
        have hne : n + 1 = l.length := by omega
        dsimp only [bytes]
        rw [dropAppendLeft r (by omega), hne]
        simp

end RawData

theorem readOptU64_eq_ok {en : Endianness} {c : Bool} {cur : RawData}
    {v : Option Nat} {cur' : RawData}
    (H : readOptU64 en c cur = .ok (v, cur')) :
    (if c then 8 else 0) ≤ cur.bytes.length ∧
    cur'.bytes = cur.bytes.drop (if c then 8 else 0) ∧
    v = (if c then some (wordAt en cur.bytes 0) else none) := by
  cases c with
  | false =>
    simp only [readOptU64, Bool.false_eq_true, if_false] at H
    obtain ⟨hv, hc⟩ := Prod.mk.inj (Except.ok.inj H)
    subst hv
    subst hc
    simp
  | true =>
    simp only [readOptU64, if_true] at H
    obtain ⟨⟨w, cur₂⟩, h1, H⟩ := bindM_ok_inv H
    obtain ⟨hle, hw, hb⟩ := RawData.readU64_eq_ok h1
    simp only [pure, Except.pure] at H
    obtain ⟨hv, hc⟩ := Prod.mk.inj (Except.ok.inj H)
    subst hv
    subst hc
    simp only [if_true]
    exact ⟨hle, hb, by rw [hw]⟩

theorem readOptTid_eq_ok {en : Endianness} {c : Bool} {cur : RawData}
    {p t : Option Int} {cur' : RawData}
    (H : readOptTid en c cur = .ok (p, t, cur')) :
    (if c then 8 else 0) ≤ cur.bytes.length ∧
    cur'.bytes = cur.bytes.drop (if c then 8 else 0) := by
  cases c with
  | false =>
    simp only [readOptTid, Bool.false_eq_true, if_false] at H
    obtain ⟨hp, H2⟩ := Prod.mk.inj (Except.ok.inj H)
    obtain ⟨ht, hc⟩ := Prod.mk.inj H2
    subst hc
    simp
  | true =>
    simp only [readOptTid, if_true] at H
    obtain ⟨⟨p₁, cur₁⟩, h1, H⟩ := bindM_ok_inv H
    obtain ⟨hle1, hb1⟩ := RawData.readI32_eq_ok h1
    obtain ⟨⟨t₁, cur₂⟩, h2, H⟩ := bindM_ok_inv H
    obtain ⟨hle2, hb2⟩ := RawData.readI32_eq_ok h2
    simp only [pure, Except.pure] at H
    obtain ⟨hp, H2⟩ := Prod.mk.inj (Except.ok.inj H)
    obtain ⟨ht, hc⟩ := Prod.mk.inj H2
    subst hc
    rw [hb1] at hle2 hb2
    simp only [List.length_drop] at hle2
    refine ⟨by simp; omega, ?_⟩
    rw [hb2, List.drop_drop]
    simp

theorem readOptCpu_eq_ok {en : Endianness} {c : Bool} {cur : RawData}
    {v : Option Nat} {cur' : RawData}
    (H : readOptCpu en c cur = .ok (v, cur')) :
    (if c then 8 else 0) ≤ cur.bytes.length ∧
    cur'.bytes = cur.bytes.drop (if c then 8 else 0) := by
  cases c with
  | false =>
    simp only [readOptCpu, Bool.false_eq_true, if_false] at H
    obtain ⟨hv, hc⟩ := Prod.mk.inj (Except.ok.inj H)
    subst hc
    simp
  | true =>
    simp only [readOptCpu, if_true] at H
    obtain ⟨⟨c₁, cur₁⟩, h1, H⟩ := bindM_ok_inv H
    obtain ⟨hle1, hb1⟩ := RawData.readU32_eq_ok h1
    obtain ⟨⟨r₁, cur₂⟩, h2, H⟩ := bindM_ok_inv H
    obtain ⟨hle2, hb2⟩ := RawData.readU32_eq_ok h2
    simp only [pure, Except.pure] at H
    obtain ⟨hv, hc⟩ := Prod.mk.inj (Except.ok.inj H)
    subst hc
    rw [hb1] at hle2 hb2
    simp only [List.length_drop] at hle2
    refine ⟨by simp; omega, ?_⟩
    rw [hb2, List.drop_drop]
    simp

theorem countFlags_mul8_three (fmt a b c : Nat) :
    countFlags fmt [a, b, c] * 8 =
      (if hasFlag fmt a then 8 else 0) +
        ((if hasFlag fmt b then 8 else 0) + (if hasFlag fmt c then 8 else 0)) := by
  simp only [countFlags, hasFlag]
  split_ifs <;> omega

theorem countFlags_mul8_four (fmt a b c e : Nat) :
    countFlags fmt [a, b, c, e] * 8 =
      (if hasFlag fmt a then 8 else 0) +
        ((if hasFlag fmt b then 8 else 0) +
          ((if hasFlag fmt c then 8 else 0) + (if hasFlag fmt e then 8 else 0))) := by
  simp only [countFlags, hasFlag]
  split_ifs <;> omega

theorem sample_parse_fields {en : Endianness} {d : RawData} {info : RecordParseInfo}
    {rc : Nat} {rec : SampleRecord}
    (H : SampleRecord.parse en d info rc = .ok rec) :
    (hasFlag info.sample_format sampleTIME = true →
       countFlags info.sample_format [sampleIDENTIFIER, sampleIP, sampleTID] * 8 + 8 ≤
           d.bytes.length ∧
       rec.timestamp = some (wordAt en d.bytes
           (countFlags info.sample_format [sampleIDENTIFIER, sampleIP, sampleTID] * 8))) ∧
    (hasFlag info.sample_format sampleTIME = false → rec.timestamp = none) ∧
    (hasFlag info.sample_format sampleIDENTIFIER = true →
       8 ≤ d.bytes.length ∧ rec.id = some (wordAt en d.bytes 0)) ∧
    (hasFlag info.sample_format sampleIDENTIFIER = false →
       (hasFlag info.sample_format sampleID = true →
          countFlags info.sample_format [sampleIP, sampleTID, sampleTIME, sampleADDR] * 8 + 8 ≤
              d.bytes.length ∧
          rec.id = some (wordAt en d.bytes
              (countFlags info.sample_format [sampleIP, sampleTID, sampleTIME, sampleADDR] * 8))) ∧
       (hasFlag info.sample_format sampleID = false → rec.id = none)) := by
  simp only [SampleRecord.parse] at H
  obtain ⟨⟨identifier, cur1⟩, hId, H⟩ := bindM_ok_inv H
  obtain ⟨⟨ip, cur2⟩, hIp, H⟩ := bindM_ok_inv H
  obtain ⟨⟨pid, tid, cur3⟩, hTid, H⟩ := bindM_ok_inv H
  obtain ⟨⟨timestamp, cur4⟩, hTime, H⟩ := bindM_ok_inv H
  obtain ⟨⟨addr, cur5⟩, hAddr, H⟩ := bindM_ok_inv H
  obtain ⟨⟨idPlain, cur6⟩, hIdP, H⟩ := bindM_ok_inv H
  obtain ⟨⟨streamId, cur7⟩, hStream, H⟩ := bindM_ok_inv H
  obtain ⟨⟨cpu, cur8⟩, hCpu, H⟩ := bindM_ok_inv H
  obtain ⟨⟨period, cur9⟩, hPeriod, H⟩ := bindM_ok_inv H
  obtain ⟨cur10, hRead, H⟩ := bindM_ok_inv H
  obtain ⟨⟨callchain, cur11⟩, hCc, H⟩ := bindM_ok_inv H
  obtain ⟨⟨raw, cur12⟩, hRaw, H⟩ := bindM_ok_inv H
  obtain ⟨cur13, hBranch, H⟩ := bindM_ok_inv H
  obtain ⟨⟨userRegs, cur14⟩, hRegs, H⟩ := bindM_ok_inv H
  obtain ⟨⟨userStack, cur15⟩, hStack, H⟩ := bindM_ok_inv H
  obtain ⟨cur16, hWeight, H⟩ := bindM_ok_inv H
  obtain ⟨cur17, hSrc, H⟩ := bindM_ok_inv H
  obtain ⟨cur18, hTrans, H⟩ := bindM_ok_inv H
  obtain ⟨cur19, hIntr, H⟩ := bindM_ok_inv H
  obtain ⟨⟨physAddr, cur20⟩, hPhys, H⟩ := bindM_ok_inv H
  obtain ⟨cur21, hAux, H⟩ := bindM_ok_inv H
  obtain ⟨⟨dataPageSize, cur22⟩, hDps, H⟩ := bindM_ok_inv H
  obtain ⟨⟨codePageSize, cur23⟩, hCps, H⟩ := bindM_ok_inv H
  simp only [pure, Except.pure] at H
  have hrec := (Except.ok.inj H).symm
  rcases readOptU64_eq_ok hId with ⟨le1, hb1, hv1⟩
  rcases readOptU64_eq_ok hIp with ⟨le2, hb2, hv2⟩
  rcases readOptTid_eq_ok hTid with ⟨le3, hb3⟩
  rcases readOptU64_eq_ok hTime with ⟨le4, hb4, hv4⟩
  rcases readOptU64_eq_ok hAddr with ⟨le5, hb5, hv5⟩
  rcases readOptU64_eq_ok hIdP with ⟨le6, hb6, hv6⟩
  have hts : rec.timestamp = timestamp := by rw [hrec]
  have hid : rec.id = identifier.or idPlain := by rw [hrec]
  have hcur3 : cur3.bytes = d.bytes.drop
      ((if hasFlag info.sample_format sampleIDENTIFIER then 8 else 0) +
        ((if hasFlag info.sample_format sampleIP then 8 else 0) +
          (if hasFlag info.sample_format sampleTID then 8 else 0))) := by
    rw [hb3, hb2, hb1, List.drop_drop, List.drop_drop]
  have hcur5 : cur5.bytes = d.bytes.drop
      ((if hasFlag info.sample_format sampleIDENTIFIER then 8 else 0) +
        ((if hasFlag info.sample_format sampleIP then 8 else 0) +
          ((if hasFlag info.sample_format sampleTID then 8 else 0) +
            ((if hasFlag info.sample_format sampleTIME then 8 else 0) +
              (if hasFlag info.sample_format sampleADDR then 8 else 0))))) := by
    rw [hb5, hb4, hb3, hb2, hb1, List.drop_drop, List.drop_drop, List.drop_drop,
      List.drop_drop]
  refine ⟨?_, ?_, ?_, ?_⟩
  · intro hT
    rw [hT] at hv4
    simp only [if_true] at hv4
    rw [countFlags_mul8_three]
    constructor
    · rw [hT] at le4
      rw [hcur3] at le4
      simp only [if_true, List.length_drop] at le4
      omega
    · rw [hts, hv4, hcur3]
      simp [wordAt]
  · intro hT
    rw [hT] at hv4
    simp only [Bool.false_eq_true, if_false] at hv4
    rw [hts, hv4]
  · intro hI
    rw [hI] at hv1
    simp only [if_true] at hv1
    refine ⟨?_, ?_⟩
    · rw [hI] at le1
      simp only [if_true] at le1
      exact le1
    · rw [hid, hv1]
      simp [Option.or]
  · intro hI
    rw [hI] at hv1
    simp only [Bool.false_eq_true, if_false] at hv1
    refine ⟨?_, ?_⟩
    · intro hD
      rw [hD] at hv6
      simp only [if_true] at hv6
      rw [countFlags_mul8_four]
      have hcur5' : cur5.bytes = d.bytes.drop
          ((if hasFlag info.sample_format sampleIP then 8 else 0) +
            ((if hasFlag info.sample_format sampleTID then 8 else 0) +
              ((if hasFlag info.sample_format sampleTIME then 8 else 0) +
                (if hasFlag info.sample_format sampleADDR then 8 else 0)))) := by
        rw [hcur5, hI]
        simp
      constructor
      · rw [hD] at le6
        rw [hcur5'] at le6
        simp only [if_true, List.length_drop] at le6
        omega
      · rw [hid, hv1, hv6, hcur5']
        simp [Option.or, wordAt]
    · intro hD
      rw [hD] at hv6
      simp only [Bool.false_eq_true, if_false] at hv6
      rw [hid, hv1, hv6]
      simp [Option.or]

theorem nonsample_parse_fields {en : Endianness} {d : RawData} {info : RecordParseInfo}
    {cd : CommonData}
    (H : CommonData.parseNonsample en d info = .ok cd) :
    (info.common_data_offset_from_end = none → cd = CommonData.defaultValue) ∧
    (∀ co, info.common_data_offset_from_end = some co →
      co ≤ d.bytes.length ∧
      ((hasFlag info.sample_format sampleTIME = true →
          (d.bytes.length - co) +
              (if hasFlag info.sample_format sampleTID then 8 else 0) + 8 ≤
            d.bytes.length ∧
          cd.timestamp = some (wordAt en d.bytes
            ((d.bytes.length - co) +
              (if hasFlag info.sample_format sampleTID then 8 else 0)))) ∧
       (hasFlag info.sample_format sampleTIME = false → cd.timestamp = none) ∧
       (hasFlag info.sample_format sampleIDENTIFIER = true →
          (d.bytes.length - co) +
              ((if hasFlag info.sample_format sampleTID then 8 else 0) +
                ((if hasFlag info.sample_format sampleTIME then 8 else 0) +
                  ((if hasFlag info.sample_format sampleID then 8 else 0) +
                    ((if hasFlag info.sample_format sampleSTREAM_ID then 8 else 0) +
                      (if hasFlag info.sample_format sampleCPU then 8 else 0))))) + 8 ≤
            d.bytes.length ∧
          cd.id = some (wordAt en d.bytes
            ((d.bytes.length - co) +
              ((if hasFlag info.sample_format sampleTID then 8 else 0) +
                ((if hasFlag info.sample_format sampleTIME then 8 else 0) +
                  ((if hasFlag info.sample_format sampleID then 8 else 0) +
                    ((if hasFlag info.sample_format sampleSTREAM_ID then 8 else 0) +
                      (if hasFlag info.sample_format sampleCPU then 8 else 0)))))))) ∧
       (hasFlag info.sample_format sampleIDENTIFIER = false →
          (hasFlag info.sample_format sampleID = true →
            (d.bytes.length - co) +
                ((if hasFlag info.sample_format sampleTID then 8 else 0) +
                  (if hasFlag info.sample_format sampleTIME then 8 else 0)) + 8 ≤
              d.bytes.length ∧
            cd.id = some (wordAt en d.bytes
              ((d.bytes.length - co) +
                ((if hasFlag info.sample_format sampleTID then 8 else 0) +
                  (if hasFlag info.sample_format sampleTIME then 8 else 0))))) ∧
          (hasFlag info.sample_format sampleID = false → cd.id = none)))) := by
  cases hco : info.common_data_offset_from_end with
  | none =>
    simp only [CommonData.parseNonsample, hco] at H
    refine ⟨fun _ => (Except.ok.inj H).symm, fun co hco' => absurd hco' (by simp)⟩
  | some co =>
    refine ⟨fun h => absurd h (by simp), fun co' hco' => ?_⟩

    obtain rfl : co = co' := Option.some.inj hco'
    simp only [CommonData.parseNonsample, hco] at H
    by_cases hlt : d.len < co
    · rw [if_pos hlt] at H
      exact absurd H (by simp [throw, throwThe, MonadExceptOf.throw])
    · rw [if_neg hlt] at H
      rw [RawData.len_eq_length_bytes] at hlt
      obtain ⟨cur1, hSk, H⟩ := bindM_ok_inv H
      obtain ⟨⟨pid, tid, cur2⟩, hTid, H⟩ := bindM_ok_inv H
      obtain ⟨⟨timestamp, cur3⟩, hTime, H⟩ := bindM_ok_inv H
      obtain ⟨⟨idPlain, cur4⟩, hIdP, H⟩ := bindM_ok_inv H
      obtain ⟨⟨streamId, cur5⟩, hStream, H⟩ := bindM_ok_inv H
      obtain ⟨⟨cpu, cur6⟩, hCpu, H⟩ := bindM_ok_inv H
      obtain ⟨⟨identifier, cur7⟩, hIdf, H⟩ := bindM_ok_inv H
      simp only [pure, Except.pure] at H
      have hrec := (Except.ok.inj H).symm
      obtain ⟨hskLe, hskB⟩ := RawData.skip_eq_ok hSk
      rcases readOptTid_eq_ok hTid with ⟨le1, hb1⟩
      rcases readOptU64_eq_ok hTime with ⟨le2, hb2, hv2⟩
      rcases readOptU64_eq_ok hIdP with ⟨le3, hb3, hv3⟩
      rcases readOptU64_eq_ok hStream with ⟨le4, hb4, hv4⟩
      rcases readOptCpu_eq_ok hCpu with ⟨le5, hb5⟩
      rcases readOptU64_eq_ok hIdf with ⟨le6, hb6, hv6⟩
      rw [RawData.len_eq_length_bytes] at hskB
      have hts : cd.timestamp = timestamp := by rw [hrec]
      have hid : cd.id = identifier.or idPlain := by rw [hrec]
      have hcur2 : cur2.bytes = d.bytes.drop
          ((d.bytes.length - co) +
            (if hasFlag info.sample_format sampleTID then 8 else 0)) := by
        rw [hb1, hskB, List.drop_drop, Nat.add_comm]
      have hcur6 : cur6.bytes = d.bytes.drop
          ((d.bytes.length - co) +
            ((if hasFlag info.sample_format sampleTID then 8 else 0) +
              ((if hasFlag info.sample_format sampleTIME then 8 else 0) +
                ((if hasFlag info.sample_format sampleID then 8 else 0) +
                  ((if hasFlag info.sample_format sampleSTREAM_ID then 8 else 0) +
                    (if hasFlag info.sample_format sampleCPU then 8 else 0)))))) := by
        rw [hb5, hb4, hb3, hb2, hb1, hskB, List.drop_drop, List.drop_drop,
          List.drop_drop, List.drop_drop, List.drop_drop]
      have hcur3 : cur3.bytes = d.bytes.drop
          ((d.bytes.length - co) +
            ((if hasFlag info.sample_format sampleTID then 8 else 0) +
              (if hasFlag info.sample_format sampleTIME then 8 else 0))) := by
        rw [hb2, hb1, hskB, List.drop_drop, List.drop_drop]
      refine ⟨by omega, ?_, ?_, ?_, ?_⟩
      · intro hT
        rw [hT] at hv2 le2
        simp only [if_true] at hv2 le2
        rw [hcur2] at le2 hv2
        simp only [List.length_drop] at le2
        refine ⟨by omega, ?_⟩
        rw [hts, hv2]
        simp [wordAt]
      · intro hT
        rw [hT] at hv2
        simp only [Bool.false_eq_true, if_false] at hv2
        rw [hts, hv2]
      · intro hI
        rw [hI] at hv6 le6
        simp only [if_true] at hv6 le6
        rw [hcur6] at le6 hv6
        simp only [List.length_drop] at le6
        refine ⟨by omega, ?_⟩
        rw [hid, hv6]
        simp [Option.or, wordAt]
      · intro hI
        rw [hI] at hv6
        simp only [Bool.false_eq_true, if_false] at hv6
        refine ⟨?_, ?_⟩
        · intro hD
          rw [hD] at hv3 le3
          simp only [if_true] at hv3 le3
          rw [hcur3] at le3 hv3
          simp only [List.length_drop] at le3
          refine ⟨by omega, ?_⟩
          rw [hid, hv6, hv3]
          simp [Option.or, wordAt]
        · intro hD
          rw [hD] at hv3
          simp only [Bool.false_eq_true, if_false] at hv3
          rw [hid, hv6, hv3]
          simp [Option.or]

theorem getRecordTimestamp_user {en : Endianness} {rt : RecordType} {d : RawData}
    {info : RecordParseInfo} (hu : rt.isUserType = true) :
    getRecordTimestamp en rt d info = none := by
  rw [getRecordTimestamp, if_pos hu]

theorem getRecordId_user {en : Endianness} {rt : RecordType} {d : RawData}
    {idInfo : RecordIdParseInfo} (hu : rt.isUserType = true) :
    getRecordId en rt d idInfo = none := by
  rw [getRecordId, if_pos hu]

theorem sample_not_user : RecordType.SAMPLE.isUserType = false := by decide

theorem getRecordTimestamp_sample_none {en : Endianness} {d : RawData}
    {info : RecordParseInfo}
    (ho : info.sample_record_time_offset_from_start = none) :
    getRecordTimestamp en RecordType.SAMPLE d info = none := by
  rw [getRecordTimestamp, if_neg (by simp [sample_not_user]), if_pos rfl, ho]

theorem getRecordTimestamp_sample_short {en : Endianness} {d : RawData}
    {info : RecordParseInfo} {o : Nat}
    (ho : info.sample_record_time_offset_from_start = some o)
    (h : d.bytes.length < o + 8) :
    getRecordTimestamp en RecordType.SAMPLE d info = none := by
  rw [getRecordTimestamp, if_neg (by simp [sample_not_user]), if_pos rfl, ho]
  dsimp only
  by_cases hlt : d.bytes.length < o
  · rw [RawData.skip_of_lt hlt]
  · obtain ⟨d1, hsk, hb⟩ := RawData.skip_of_le (le_of_not_lt hlt)
    rw [hsk]
    dsimp only
    rw [RawData.readU64_of_lt (by rw [hb, List.length_drop]; omega)]

theorem getRecordTimestamp_sample_some {en : Endianness} {d : RawData}
    {info : RecordParseInfo} {o : Nat}
    (ho : info.sample_record_time_offset_from_start = some o)
    (h : o + 8 ≤ d.bytes.length) :
    getRecordTimestamp en RecordType.SAMPLE d info = some (wordAt en d.bytes o) := by
  rw [getRecordTimestamp, if_neg (by simp [sample_not_user]), if_pos rfl, ho]
  dsimp only
  obtain ⟨d1, hsk, hb⟩ := @RawData.skip_of_le d o (by omega)
  rw [hsk]
  dsimp only
  obtain ⟨d2, hr, -⟩ := @RawData.readU64_of_le en d1
    (by rw [hb, List.length_drop]; omega)
  rw [hr]
  rw [hb] at hr ⊢
  simp [wordAt]

theorem getRecordTimestamp_nonsample_none {en : Endianness} {rt : RecordType}
    {d : RawData} {info : RecordParseInfo}
    (hu : rt.isUserType = false) (hs : rt ≠ RecordType.SAMPLE)
    (ho : info.nonsample_record_time_offset_from_end = none) :
    getRecordTimestamp en rt d info = none := by
  rw [getRecordTimestamp, if_neg (by simp [hu]), if_neg hs, ho]

theorem getRecordTimestamp_nonsample_long {en : Endianness} {rt : RecordType}
    {d : RawData} {info : RecordParseInfo} {o : Nat}
    (hu : rt.isUserType = false) (hs : rt ≠ RecordType.SAMPLE)
    (ho : info.nonsample_record_time_offset_from_end = some o)
    (h : d.len < o) :
    getRecordTimestamp en rt d info = none := by
  rw [getRecordTimestamp, if_neg (by simp [hu]), if_neg hs, ho]
  dsimp only
  rw [if_pos h]

theorem getRecordTimestamp_nonsample_some {en : Endianness} {rt : RecordType}
    {d : RawData} {info : RecordParseInfo} {o : Nat}
    (hu : rt.isUserType = false) (hs : rt ≠ RecordType.SAMPLE)
    (ho : info.nonsample_record_time_offset_from_end = some o)
    (h8 : 8 ≤ o) (hol : o ≤ d.bytes.length) :
    getRecordTimestamp en rt d info =
      some (wordAt en d.bytes (d.bytes.length - o)) := by
  rw [getRecordTimestamp, if_neg (by simp [hu]), if_neg hs, ho]
  dsimp only
  rw [RawData.len_eq_length_bytes, if_neg (by omega)]
  obtain ⟨d1, hsk, hb⟩ := @RawData.skip_of_le d (d.bytes.length - o) (by omega)
  rw [hsk]
  dsimp only
  obtain ⟨d2, hr, -⟩ := @RawData.readU64_of_le en d1
    (by rw [hb, List.length_drop]; omega)
  rw [hr]
  rw [hb] at hr ⊢
  simp [wordAt]

theorem getRecordId_sample_none {en : Endianness} {d : RawData}
    {idInfo : RecordIdParseInfo}
    (ho : idInfo.sample_record_id_offset_from_start = none) :
    getRecordId en RecordType.SAMPLE d idInfo = none := by
  rw [getRecordId, if_neg (by simp [sample_not_user]), if_pos rfl, ho]

theorem getRecordId_sample_short {en : Endianness} {d : RawData}
    {idInfo : RecordIdParseInfo} {o : Nat}
    (ho : idInfo.sample_record_id_offset_from_start = some o)
    (h : d.bytes.length < o + 8) :
    getRecordId en RecordType.SAMPLE d idInfo = none := by
  rw [getRecordId, if_neg (by simp [sample_not_user]), if_pos rfl, ho]
  dsimp only
  by_cases hlt : d.bytes.length < o
  · rw [RawData.skip_of_lt hlt]
  · obtain ⟨d1, hsk, hb⟩ := RawData.skip_of_le (le_of_not_lt hlt)
    rw [hsk]
    dsimp only
    rw [RawData.readU64_of_lt (by rw [hb, List.length_drop]; omega)]

theorem getRecordId_sample_some {en : Endianness} {d : RawData}
    {idInfo : RecordIdParseInfo} {o : Nat}
    (ho : idInfo.sample_record_id_offset_from_start = some o)
    (h : o + 8 ≤ d.bytes.length) :
    getRecordId en RecordType.SAMPLE d idInfo = some (wordAt en d.bytes o) := by
  rw [getRecordId, if_neg (by simp [sample_not_user]), if_pos rfl, ho]
  dsimp only
  obtain ⟨d1, hsk, hb⟩ := @RawData.skip_of_le d o (by omega)
  rw [hsk]
  dsimp only
  obtain ⟨d2, hr, -⟩ := @RawData.readU64_of_le en d1
    (by rw [hb, List.length_drop]; omega)
  rw [hr]
  rw [hb] at hr ⊢
  simp [wordAt]

theorem getRecordId_nonsample_none {en : Endianness} {rt : RecordType}
    {d : RawData} {idInfo : RecordIdParseInfo}
    (hu : rt.isUserType = false) (hs : rt ≠ RecordType.SAMPLE)
    (ho : idInfo.nonsample_record_id_offset_from_end = none) :
    getRecordId en rt d idInfo = none := by
  rw [getRecordId, if_neg (by simp [hu]), if_neg hs, ho]

theorem getRecordId_nonsample_long {en : Endianness} {rt : RecordType}
    {d : RawData} {idInfo : RecordIdParseInfo} {o : Nat}
    (hu : rt.isUserType = false) (hs : rt ≠ RecordType.SAMPLE)
    (ho : idInfo.nonsample_record_id_offset_from_end = some o)
    (h : d.len < o) :
    getRecordId en rt d idInfo = none := by
  rw [getRecordId, if_neg (by simp [hu]), if_neg hs, ho]
  dsimp only
  rw [if_pos h]

theorem getRecordId_nonsample_some {en : Endianness} {rt : RecordType}
    {d : RawData} {idInfo : RecordIdParseInfo} {o : Nat}
    (hu : rt.isUserType = false) (hs : rt ≠ RecordType.SAMPLE)
    (ho : idInfo.nonsample_record_id_offset_from_end = some o)
    (h8 : 8 ≤ o) (hol : o ≤ d.bytes.length) :
    getRecordId en rt d idInfo =
      some (wordAt en d.bytes (d.bytes.length - o)) := by
  rw [getRecordId, if_neg (by simp [hu]), if_neg hs, ho]
  dsimp only
  rw [RawData.len_eq_length_bytes, if_neg (by omega)]
  obtain ⟨d1, hsk, hb⟩ := @RawData.skip_of_le d (d.bytes.length - o) (by omega)
  rw [hsk]
  dsimp only
  obtain ⟨d2, hr, -⟩ := @RawData.readU64_of_le en d1
    (by rw [hb, List.length_drop]; omega)
  rw [hr]
  rw [hb] at hr ⊢
  simp [wordAt]

theorem new_sample_format (attr : PerfEventAttr) (enI : Endianness) :
    (RecordParseInfo.new attr enI).sample_format = attr.sample_format := rfl

theorem new_id_parse_info (attr : PerfEventAttr) (enI : Endianness) :
    (RecordParseInfo.new attr enI).id_parse_info = RecordIdParseInfo.new attr := rfl

theorem new_sample_time_off (attr : PerfEventAttr) (enI : Endianness) :
    (RecordParseInfo.new attr enI).sample_record_time_offset_from_start =
      (if hasFlag attr.sample_format sampleTIME then
        some (countFlags attr.sample_format [sampleIDENTIFIER, sampleIP, sampleTID] * 8)
      else none) := rfl

theorem new_common_off (attr : PerfEventAttr) (enI : Endianness) :
    (RecordParseInfo.new attr enI).common_data_offset_from_end =
      (if hasFlag attr.flags attrSAMPLE_ID_ALL then
        some (countFlags attr.sample_format
          [sampleTID, sampleTIME, sampleID, sampleSTREAM_ID, sampleCPU,
            sampleIDENTIFIER] * 8)
      else none) := rfl

theorem new_nonsample_time_off (attr : PerfEventAttr) (enI : Endianness) :
    (RecordParseInfo.new attr enI).nonsample_record_time_offset_from_end =
      (if hasFlag attr.flags attrSAMPLE_ID_ALL &&
          hasFlag attr.sample_format sampleTIME then
        some (countFlags attr.sample_format
          [sampleTIME, sampleID, sampleSTREAM_ID, sampleCPU, sampleIDENTIFIER] * 8)
      else none) := rfl

theorem idnew_sample_off (attr : PerfEventAttr) :
    (RecordIdParseInfo.new attr).sample_record_id_offset_from_start =
      (if hasFlag attr.sample_format sampleIDENTIFIER then
        some 0
      else if hasFlag attr.sample_format sampleID then
        some (countFlags attr.sample_format
          [sampleIP, sampleTID, sampleTIME, sampleADDR] * 8)
      else none) := rfl

theorem idnew_nonsample_off (attr : PerfEventAttr) :
    (RecordIdParseInfo.new attr).nonsample_record_id_offset_from_end =
      (if hasFlag attr.flags attrSAMPLE_ID_ALL &&
          (hasFlag attr.sample_format sampleID ||
            hasFlag attr.sample_format sampleIDENTIFIER) then
        (if hasFlag attr.sample_format sampleIDENTIFIER then
          some 8
        else
          some (countFlags attr.sample_format
            [sampleID, sampleSTREAM_ID, sampleCPU, sampleIDENTIFIER] * 8))
      else none) := rfl

theorem countFlags_cons_mul8 (fmt b : Nat) (bs : List Nat) :
    countFlags fmt (b :: bs) * 8 =
      (if hasFlag fmt b then 8 else 0) + countFlags fmt bs * 8 := by
  simp only [countFlags, hasFlag]
  split_ifs <;> omega

theorem countFlags_head8 {fmt b : Nat} (bs : List Nat) (h : hasFlag fmt b = true) :
    8 ≤ countFlags fmt (b :: bs) * 8 := by
  simp only [countFlags, hasFlag] at h ⊢
  rw [if_pos h]
  omega

theorem countFlags_mul8_five (fmt a b c e f : Nat) :
    countFlags fmt [a, b, c, e, f] * 8 =
      (if hasFlag fmt a then 8 else 0) +
        ((if hasFlag fmt b then 8 else 0) +
          ((if hasFlag fmt c then 8 else 0) +
            ((if hasFlag fmt e then 8 else 0) + (if hasFlag fmt f then 8 else 0)))) := by
  simp only [countFlags, hasFlag]
  split_ifs <;> omega

theorem countFlags_mul8_six (fmt a b c e f g : Nat) :
    countFlags fmt [a, b, c, e, f, g] * 8 =
      (if hasFlag fmt a then 8 else 0) +
        ((if hasFlag fmt b then 8 else 0) +
          ((if hasFlag fmt c then 8 else 0) +
            ((if hasFlag fmt e then 8 else 0) +
              ((if hasFlag fmt f then 8 else 0) + (if hasFlag fmt g then 8 else 0))))) := by
  simp only [countFlags, hasFlag]
  split_ifs <;> omega

/-- C1: Round-trip offset law: for every configuration (PerfEventAttr /
RecordParseInfo derived via RecordParseInfo::new) and every record body that
the corresponding full body parser parses successfully, the timestamp
returned by get_record_timestamp and the id returned by get_record_id
(computed by skipping to a precomputed offset, from the start for SAMPLE
records, from the end for non-sample records) equal the timestamp and id
fields obtained by fully parsing that same body (SampleRecord::parse for
SAMPLE records, CommonData::parse_nonsample for the other built-in record
kinds). -/
theorem c1_round_trip_offset (en enI : Endianness) (attr : PerfEventAttr)
    (d : RawData) (rc : Nat) :
    (∀ rec : SampleRecord,
       SampleRecord.parse en d (RecordParseInfo.new attr enI) rc = .ok rec →
       getRecordTimestamp en RecordType.SAMPLE d (RecordParseInfo.new attr enI) =
           rec.timestamp ∧
       getRecordId en RecordType.SAMPLE d
           (RecordParseInfo.new attr enI).id_parse_info = rec.id) ∧
    (∀ (rt : RecordType) (cd : CommonData),
       rt.isUserType = false → rt ≠ RecordType.SAMPLE →
       CommonData.parseNonsample en d (RecordParseInfo.new attr enI) = .ok cd →
       getRecordTimestamp en rt d (RecordParseInfo.new attr enI) = cd.timestamp ∧
       getRecordId en rt d (RecordParseInfo.new attr enI).id_parse_info = cd.id) := by
  constructor
  · intro rec H
    obtain ⟨MT, MTn, MI, MIn⟩ := sample_parse_fields H
    rw [new_sample_format] at MT MTn MI MIn
    constructor
    · cases hT : hasFlag attr.sample_format sampleTIME with
      | true =>
        obtain ⟨hbound, hval⟩ := MT hT
        have ho : (RecordParseInfo.new attr enI).sample_record_time_offset_from_start =
            some (countFlags attr.sample_format
              [sampleIDENTIFIER, sampleIP, sampleTID] * 8) := by
          rw [new_sample_time_off, if_pos hT]
        rw [getRecordTimestamp_sample_some ho hbound, hval]
      | false =>
        have ho : (RecordParseInfo.new attr enI).sample_record_time_offset_from_start =
            none := by
          rw [new_sample_time_off, if_neg (by simp [hT])]
        rw [getRecordTimestamp_sample_none ho, MTn hT]
    · cases hI : hasFlag attr.sample_format sampleIDENTIFIER with
      | true =>
        obtain ⟨hbound, hval⟩ := MI hI
        have ho : (RecordParseInfo.new attr enI).id_parse_info.sample_record_id_offset_from_start =
            some 0 := by
          rw [new_id_parse_info, idnew_sample_off, if_pos hI]
        rw [getRecordId_sample_some ho (by omega), hval]
      | false =>
        obtain ⟨MIn1, MIn2⟩ := MIn hI
        cases hD : hasFlag attr.sample_format sampleID with
        | true =>
          obtain ⟨hbound, hval⟩ := MIn1 hD
          have ho : (RecordParseInfo.new attr enI).id_parse_info.sample_record_id_offset_from_start =
              some (countFlags attr.sample_format
                [sampleIP, sampleTID, sampleTIME, sampleADDR] * 8) := by
            rw [new_id_parse_info, idnew_sample_off, if_neg (by simp [hI]), if_pos hD]
          rw [getRecordId_sample_some ho hbound, hval]
        | false =>
          have ho : (RecordParseInfo.new attr enI).id_parse_info.sample_record_id_offset_from_start =
              none := by
            rw [new_id_parse_info, idnew_sample_off, if_neg (by simp [hI]),
              if_neg (by simp [hD])]
          rw [getRecordId_sample_none ho, MIn2 hD]
  · intro rt cd hu hs H
    obtain ⟨Mnone, Msome⟩ := nonsample_parse_fields H
    rw [new_sample_format] at Msome
    cases hA : hasFlag attr.flags attrSAMPLE_ID_ALL with
    | false =>
      have hcd : cd = CommonData.defaultValue :=
        Mnone (by rw [new_common_off, if_neg (by simp [hA])])
      subst hcd
      constructor
      · rw [getRecordTimestamp_nonsample_none hu hs
          (by rw [new_nonsample_time_off, if_neg (by simp [hA])])]
        rfl
      · rw [getRecordId_nonsample_none hu hs
          (by rw [new_id_parse_info, idnew_nonsample_off, if_neg (by simp [hA])])]
        rfl
    | true =>
      have hco : (RecordParseInfo.new attr enI).common_data_offset_from_end =
          some (countFlags attr.sample_format
            [sampleTID, sampleTIME, sampleID, sampleSTREAM_ID, sampleCPU,
              sampleIDENTIFIER] * 8) := by
        rw [new_common_off, if_pos hA]
      obtain ⟨hcoLen, MT, MTn, MI, MIn⟩ := Msome _ hco
      have hsplit := countFlags_cons_mul8 attr.sample_format sampleTID
        [sampleTIME, sampleID, sampleSTREAM_ID, sampleCPU, sampleIDENTIFIER]
      have hsix := countFlags_mul8_six attr.sample_format sampleTID sampleTIME
        sampleID sampleSTREAM_ID sampleCPU sampleIDENTIFIER
      constructor
      · cases hT : hasFlag attr.sample_format sampleTIME with
        | false =>
          rw [getRecordTimestamp_nonsample_none hu hs
            (by rw [new_nonsample_time_off, if_neg (by simp [hT])]), MTn hT]
        | true =>
          obtain ⟨hbound, hval⟩ := MT hT
          have hto8 : 8 ≤ countFlags attr.sample_format
              [sampleTIME, sampleID, sampleSTREAM_ID, sampleCPU, sampleIDENTIFIER] * 8 :=
            countFlags_head8 _ hT
          have htoLen : countFlags attr.sample_format
              [sampleTIME, sampleID, sampleSTREAM_ID, sampleCPU, sampleIDENTIFIER] * 8 ≤
                d.bytes.length := by omega
          have ho : (RecordParseInfo.new attr enI).nonsample_record_time_offset_from_end =
              some (countFlags attr.sample_format
                [sampleTIME, sampleID, sampleSTREAM_ID, sampleCPU, sampleIDENTIFIER] * 8) := by
            rw [new_nonsample_time_off, if_pos (by simp [hA, hT])]
          rw [getRecordTimestamp_nonsample_some hu hs ho hto8 htoLen, hval]
          have heq : d.bytes.length - countFlags attr.sample_format
                [sampleTIME, sampleID, sampleSTREAM_ID, sampleCPU, sampleIDENTIFIER] * 8 =
              (d.bytes.length - countFlags attr.sample_format
                [sampleTID, sampleTIME, sampleID, sampleSTREAM_ID, sampleCPU,
                  sampleIDENTIFIER] * 8) +
                (if hasFlag attr.sample_format sampleTID then 8 else 0) := by
            omega
          rw [heq]
      · cases hI : hasFlag attr.sample_format sampleIDENTIFIER with
        | true =>
          obtain ⟨hbound, hval⟩ := MI hI
          have h8 : (if hasFlag attr.sample_format sampleIDENTIFIER then 8 else 0) = 8 := by
            simp [hI]
          have ho : (RecordParseInfo.new attr enI).id_parse_info.nonsample_record_id_offset_from_end =
              some 8 := by
            rw [new_id_parse_info, idnew_nonsample_off, if_pos (by simp [hA, hI]),
              if_pos hI]
          rw [getRecordId_nonsample_some hu hs ho (by omega) (by omega), hval]
          have heq : d.bytes.length - 8 =
              (d.bytes.length - countFlags attr.sample_format
                [sampleTID, sampleTIME, sampleID, sampleSTREAM_ID, sampleCPU,
                  sampleIDENTIFIER] * 8) +
                ((if hasFlag attr.sample_format sampleTID then 8 else 0) +
                  ((if hasFlag attr.sample_format sampleTIME then 8 else 0) +
                    ((if hasFlag attr.sample_format sampleID then 8 else 0) +
                      ((if hasFlag attr.sample_format sampleSTREAM_ID then 8 else 0) +
                        (if hasFlag attr.sample_format sampleCPU then 8 else 0))))) := by
            omega
          rw [heq]
        | false =>
          obtain ⟨MIn1, MIn2⟩ := MIn hI
          have h0 : (if hasFlag attr.sample_format sampleIDENTIFIER then 8 else 0) = 0 := by
            simp [hI]
          cases hD : hasFlag attr.sample_format sampleID with
          | true =>
            obtain ⟨hbound, hval⟩ := MIn1 hD
            have hfour := countFlags_mul8_four attr.sample_format sampleID
              sampleSTREAM_ID sampleCPU sampleIDENTIFIER
            have hio8 : 8 ≤ countFlags attr.sample_format
                [sampleID, sampleSTREAM_ID, sampleCPU, sampleIDENTIFIER] * 8 :=
              countFlags_head8 _ hD
            have ho : (RecordParseInfo.new attr enI).id_parse_info.nonsample_record_id_offset_from_end =
                some (countFlags attr.sample_format
                  [sampleID, sampleSTREAM_ID, sampleCPU, sampleIDENTIFIER] * 8) := by
              rw [new_id_parse_info, idnew_nonsample_off, if_pos (by simp [hA, hD]),
                if_neg (by simp [hI])]
            rw [getRecordId_nonsample_some hu hs ho hio8 (by omega), hval]
            have heq : d.bytes.length - countFlags attr.sample_format
                  [sampleID, sampleSTREAM_ID, sampleCPU, sampleIDENTIFIER] * 8 =
                (d.bytes.length - countFlags attr.sample_format
                  [sampleTID, sampleTIME, sampleID, sampleSTREAM_ID, sampleCPU,
                    sampleIDENTIFIER] * 8) +
                  ((if hasFlag attr.sample_format sampleTID then 8 else 0) +
                    (if hasFlag attr.sample_format sampleTIME then 8 else 0)) := by
              omega
            rw [heq]
          | false =>
            rw [getRecordId_nonsample_none hu hs
              (by rw [new_id_parse_info, idnew_nonsample_off,
                if_neg (by simp [hI, hD])]), MIn2 hD]

/-- Witness for C1 at a concrete configuration and concrete record bodies. -/
theorem c1_round_trip_offset_witness :
    SampleRecord.parse .littleEndian sampleBodyW1
        (RecordParseInfo.new attrW1 .littleEndian) 0 = .ok sampleRecW1 ∧
    getRecordTimestamp .littleEndian RecordType.SAMPLE sampleBodyW1
        (RecordParseInfo.new attrW1 .littleEndian) = sampleRecW1.timestamp ∧
    getRecordId .littleEndian RecordType.SAMPLE sampleBodyW1
        (RecordParseInfo.new attrW1 .littleEndian).id_parse_info = sampleRecW1.id ∧
    CommonData.parseNonsample .littleEndian nonsampleBodyW1
        (RecordParseInfo.new attrW1 .littleEndian) = .ok commonW1 ∧
    getRecordTimestamp .littleEndian (RecordType.mk 3) nonsampleBodyW1
        (RecordParseInfo.new attrW1 .littleEndian) = commonW1.timestamp ∧
    getRecordId .littleEndian (RecordType.mk 3) nonsampleBodyW1
        (RecordParseInfo.new attrW1 .littleEndian).id_parse_info = commonW1.id := by
  have hS : SampleRecord.parse .littleEndian sampleBodyW1
      (RecordParseInfo.new attrW1 .littleEndian) 0 = .ok sampleRecW1 := by decide
  have hN : CommonData.parseNonsample .littleEndian nonsampleBodyW1
      (RecordParseInfo.new attrW1 .littleEndian) = .ok commonW1 := by decide
  have h := c1_round_trip_offset .littleEndian .littleEndian attrW1 sampleBodyW1 0
  obtain ⟨hts, hid⟩ := h.1 sampleRecW1 hS
  have h2 := c1_round_trip_offset .littleEndian .littleEndian attrW1 nonsampleBodyW1 0
  obtain ⟨hts2, hid2⟩ := h2.2 (RecordType.mk 3) commonW1 (by decide) (by decide) hN
  exact ⟨hS, hts, hid, hN, hts2, hid2⟩

/-- C7: Atomicity of cursor mutation on failure: whenever read_exact,
split_off_prefix or skip fails because fewer than n bytes remain, the
operation returns UnexpectedEof and the cursor left in the caller's variable
is exactly the cursor from before the call (so its logical byte content is
unchanged: no partial consumption survives a failed read). -/
theorem c7_failed_mutation_leaves_cursor_unchanged (d : RawData) (n : Nat)
    (h : d.len < n) :
    d.readExactS n = (.error .unexpectedEof, d) ∧
    d.splitOffStartS n = (.error .unexpectedEof, d) ∧
    d.skipS n = (.error .unexpectedEof, d) := by
  rw [RawData.len_eq_length_bytes] at h
  exact ⟨RawData.readExactS_of_lt h, RawData.splitOffStartS_of_lt h,
    RawData.skipS_of_lt h⟩

/-- Witness for C7: a one-byte split cursor and a five-byte read. -/
theorem c7_failed_mutation_witness :
    (RawData.split [1] [2]).len < 5 ∧
    (RawData.split [1] [2]).readExactS 5 =
      (.error .unexpectedEof, RawData.split [1] [2]) ∧
    (RawData.split [1] [2]).splitOffStartS 5 =
      (.error .unexpectedEof, RawData.split [1] [2]) ∧
    (RawData.split [1] [2]).skipS 5 =
      (.error .unexpectedEof, RawData.split [1] [2]) := by
  have h := c7_failed_mutation_leaves_cursor_unchanged (RawData.split [1] [2]) 5
    (by decide)
  exact ⟨by decide, h.1, h.2.1, h.2.2⟩

/-- C2: RawData::get on a Split view is broken for ranges that straddle the
boundary. At range 1..3 of the five-byte view Split([10,11],[12,13,14]) it
returns a THREE-byte sub-view holding bytes 1..4 instead of the requested
two bytes 1..3, and at the out-of-bounds range 0..6 it returns the whole
view instead of None (the Single variant correctly returns None there). The
straddling branch of the Rust code rebinds `left` before computing
`range.end - left.len()` and clamps the right half with min, so the length
invariant and the out-of-bounds check are both lost. -/
theorem c2_get_straddling_range_bug :
    RawData.get (.split [10, 11] [12, 13, 14]) 1 3 =
      some (.split [11] [12, 13]) ∧
    (RawData.split [11] [12, 13]).bytes = [11, 12, 13] ∧
    (RawData.split [11] [12, 13]).len = 3 ∧
    RawData.get (.split [10, 11] [12, 13, 14]) 0 6 =
      some (.split [10, 11] [12, 13, 14]) ∧
    RawData.get (.single [10, 11, 12, 13, 14]) 1 3 =
      some (.single [11, 12]) ∧
    RawData.get (.single [10, 11, 12, 13, 14]) 0 6 = none := by
  refine ⟨by decide, by decide, by decide, by decide, by decide, by decide⟩

theorem splitView_bytes (b : List Nat) (i : Nat) : (splitView b i).bytes = b := by
  simp [splitView, RawData.bytes]

theorem rawDataU64_get_bytes (sw : Bool) (d : RawData) (k : Nat) :
    RawDataU64.get ⟨sw, d⟩ k =
      (if k * 8 + 8 ≤ d.bytes.length then
        some (if sw then byteSwap64 (wordAt Endianness.native d.bytes (k * 8))
          else wordAt Endianness.native d.bytes (k * 8))
      else none) := by
  by_cases h : k * 8 + 8 ≤ d.bytes.length
  · obtain ⟨d1, hsk1, hb1⟩ := RawData.skip_of_le (d := d) (n := k * 8) (by omega)
    have h8 : 8 ≤ d1.bytes.length := by rw [hb1, List.length_drop]; omega
    obtain ⟨d2, hr, -⟩ := @RawData.readU64_of_le Endianness.native d1 h8
    rw [if_pos h, RawDataU64.get, hsk1]
    dsimp only
    rw [hr]
    dsimp only
    rw [hb1]
    simp [wordAt]
  · rw [if_neg h, RawDataU64.get]
    by_cases hsk : k * 8 ≤ d.bytes.length
    · obtain ⟨d1, hsk1, hb1⟩ := RawData.skip_of_le hsk
      rw [hsk1]
      dsimp only
      rw [RawData.readU64_of_lt (by rw [hb1, List.length_drop]; omega)]
    · rw [RawData.skip_of_lt (d := d) (n := k * 8) (by omega)]

/-- Counterexample for C6 as stated: the slice operation (RawData::get) does
not commute with splitting the backing buffer; at split point 2 of the byte
sequence 0,1,2,3,4 the Split view answers range 1..3 with a three-byte view
while the Single view answers with the two bytes 1..3. -/
theorem c6_get_breaks_split_equivalence :
    (((splitView [0, 1, 2, 3, 4] 2).get 1 3).map RawData.bytes) ≠
      (((RawData.single [0, 1, 2, 3, 4]).get 1 3).map RawData.bytes) := by
  decide

/-- C6 (amended): Split-buffer equivalence holds for read_exact, read_string,
split_off_prefix, skip, and RawDataU64 word access: for every byte sequence b
and split point i, each of these operations applied to Split(b[..i], b[i..])
has the same success/failure outcome, the same logical result bytes and the
same logical cursor content as when applied to Single(b). (The remaining
operation of the original claim, slice/get, violates the equivalence; see the
counterexample.) -/
theorem c6_split_single_equivalence (b : List Nat) (i n k : Nat) (sw : Bool) :
    (((splitView b i).readExactS n).1 = ((RawData.single b).readExactS n).1 ∧
      (((splitView b i).readExactS n).2).bytes =
        (((RawData.single b).readExactS n).2).bytes) ∧
    ((((splitView b i).readString).1).map RawData.bytes =
        (((RawData.single b).readString).1).map RawData.bytes ∧
      (((splitView b i).readString).2).bytes =
        (((RawData.single b).readString).2).bytes) ∧
    ((((splitView b i).splitOffStartS n).1).map RawData.bytes =
        (((RawData.single b).splitOffStartS n).1).map RawData.bytes ∧
      (((splitView b i).splitOffStartS n).2).bytes =
        (((RawData.single b).splitOffStartS n).2).bytes) ∧
    (((splitView b i).skipS n).1 = ((RawData.single b).skipS n).1 ∧
      (((splitView b i).skipS n).2).bytes =
        (((RawData.single b).skipS n).2).bytes) ∧
    RawDataU64.get ⟨sw, splitView b i⟩ k = RawDataU64.get ⟨sw, RawData.single b⟩ k := by
  have hsb : (splitView b i).bytes = b := splitView_bytes b i
  have hb : (RawData.single b).bytes = b := rfl
  refine ⟨?_, ?_, ?_, ?_, ?_⟩
  · by_cases h : n ≤ b.length
    · obtain ⟨h1, h2⟩ := RawData.readExactS_of_le (d := splitView b i) (hsb ▸ h)
      obtain ⟨h3, h4⟩ := RawData.readExactS_of_le (d := RawData.single b) (hb ▸ h)
      rw [h1, h2, h3, h4, hsb]
      exact ⟨rfl, rfl⟩
    · rw [RawData.readExactS_of_lt (d := splitView b i) (n := n) (by rw [hsb]; omega),
        RawData.readExactS_of_lt (d := RawData.single b) (n := n) (by rw [hb]; omega)]
      exact ⟨rfl, hsb⟩
  · have h := RawData.readString_split_bytes (b.take i) (b.drop i)
    rw [List.take_append_drop] at h
    exact h
  · by_cases h : n ≤ b.length
    · obtain ⟨⟨p1, h1, hp1⟩, h2⟩ :=
        RawData.splitOffStartS_of_le (d := splitView b i) (hsb ▸ h)
      obtain ⟨⟨p2, h3, hp2⟩, h4⟩ :=
        RawData.splitOffStartS_of_le (d := RawData.single b) (hb ▸ h)
      rw [h1, h3, h2, h4, hsb]
      refine ⟨?_, rfl⟩
      show Except.ok p1.bytes = Except.ok p2.bytes
      rw [hp1, hp2, hsb, hb]
    · rw [RawData.splitOffStartS_of_lt (d := splitView b i) (n := n) (by rw [hsb]; omega),
        RawData.splitOffStartS_of_lt (d := RawData.single b) (n := n) (by rw [hb]; omega)]
      exact ⟨rfl, hsb⟩
  · by_cases h : n ≤ b.length
    · obtain ⟨h1, h2⟩ := RawData.skipS_of_le (d := splitView b i) (hsb ▸ h)
      obtain ⟨h3, h4⟩ := RawData.skipS_of_le (d := RawData.single b) (hb ▸ h)
      rw [h1, h2, h3, h4, hsb]
      exact ⟨rfl, rfl⟩
    · rw [RawData.skipS_of_lt (d := splitView b i) (n := n) (by rw [hsb]; omega),
        RawData.skipS_of_lt (d := RawData.single b) (n := n) (by rw [hb]; omega)]
      exact ⟨rfl, hsb⟩
  · rw [rawDataU64_get_bytes, rawDataU64_get_bytes, hsb, hb]

/-- C3: an mmap2 record in the build-id variant (misc bit 14 set) whose
build-id length byte is 21 makes Mmap2Record::parse hit the source's
`assert!(build_id_len <= 20)` (src/records/event_record.rs line 202) and
panic, modelled as the `panicAssert` outcome; the parse does NOT return the
InvalidInput error value the claim promises. The input places 21 in the
length byte after the 32-byte fixed header (pid, tid, address, length,
page_offset). -/
theorem c3_build_id_len_21_panics_not_invalid_input :
    Mmap2Record.parse Endianness.littleEndian
        (RawData.single (List.replicate 32 0 ++ [21])) (2 ^ 14) =
      .error .panicAssert ∧
    Mmap2Record.parse Endianness.littleEndian
        (RawData.single (List.replicate 32 0 ++ [21])) (2 ^ 14) ≠
      .error .invalidInput := by
  exact ⟨by decide, by decide⟩

/-- C8: the peek functions get_record_timestamp and get_record_id are total
(they are plain functions into Option Nat) and return None, never an error:
for a user-range record type; for a SAMPLE record when the precomputed
from-start offset is absent or does not leave room for eight bytes; and for
a non-sample built-in record when the precomputed from-end offset is absent
or exceeds the record length. -/
theorem c8_peek_none_cases (en : Endianness) (rt : RecordType) (d : RawData)
    (info : RecordParseInfo) (idInfo : RecordIdParseInfo) (o : Nat) :
    (rt.isUserType = true →
      getRecordTimestamp en rt d info = none ∧ getRecordId en rt d idInfo = none) ∧
    (info.sample_record_time_offset_from_start = none →
      getRecordTimestamp en RecordType.SAMPLE d info = none) ∧
    (idInfo.sample_record_id_offset_from_start = none →
      getRecordId en RecordType.SAMPLE d idInfo = none) ∧
    (info.sample_record_time_offset_from_start = some o → d.bytes.length < o + 8 →
      getRecordTimestamp en RecordType.SAMPLE d info = none) ∧
    (idInfo.sample_record_id_offset_from_start = some o → d.bytes.length < o + 8 →
      getRecordId en RecordType.SAMPLE d idInfo = none) ∧
    (rt.isUserType = false → rt ≠ RecordType.SAMPLE →
      ((info.nonsample_record_time_offset_from_end = none →
          getRecordTimestamp en rt d info = none) ∧
        (idInfo.nonsample_record_id_offset_from_end = none →
          getRecordId en rt d idInfo = none) ∧
        (info.nonsample_record_time_offset_from_end = some o → d.len < o →
          getRecordTimestamp en rt d info = none) ∧
        (idInfo.nonsample_record_id_offset_from_end = some o → d.len < o →
          getRecordId en rt d idInfo = none))) := by
  refine ⟨fun hu => ⟨getRecordTimestamp_user hu, getRecordId_user hu⟩,
    fun ho => getRecordTimestamp_sample_none ho,
    fun ho => getRecordId_sample_none ho,
    fun ho h => getRecordTimestamp_sample_short ho h,
    fun ho h => getRecordId_sample_short ho h,
    fun hu hs => ⟨fun ho => getRecordTimestamp_nonsample_none hu hs ho,
      fun ho => getRecordId_nonsample_none hu hs ho,
      fun ho h => getRecordTimestamp_nonsample_long hu hs ho h,
      fun ho h => getRecordId_nonsample_long hu hs ho h⟩⟩

/-- Witness for C8: all hypotheses discharged at the user type 64, the
built-in type 1, a ten-byte body, and offset 16. -/
theorem c8_peek_none_cases_witness :
    (getRecordTimestamp Endianness.littleEndian ⟨64⟩
        (RawData.single (List.replicate 10 0)) infoW8a = none ∧
      getRecordId Endianness.littleEndian ⟨64⟩
        (RawData.single (List.replicate 10 0)) infoW8a.id_parse_info = none) ∧
    getRecordTimestamp Endianness.littleEndian RecordType.SAMPLE
      (RawData.single (List.replicate 10 0)) infoW8b = none ∧
    getRecordId Endianness.littleEndian RecordType.SAMPLE
      (RawData.single (List.replicate 10 0)) infoW8b.id_parse_info = none ∧
    getRecordTimestamp Endianness.littleEndian RecordType.SAMPLE
      (RawData.single (List.replicate 10 0)) infoW8a = none ∧
    getRecordId Endianness.littleEndian RecordType.SAMPLE
      (RawData.single (List.replicate 10 0)) infoW8a.id_parse_info = none ∧
    getRecordTimestamp Endianness.littleEndian ⟨1⟩
      (RawData.single (List.replicate 10 0)) infoW8b = none ∧
    getRecordId Endianness.littleEndian ⟨1⟩
      (RawData.single (List.replicate 10 0)) infoW8b.id_parse_info = none ∧
    getRecordTimestamp Endianness.littleEndian ⟨1⟩
      (RawData.single (List.replicate 10 0)) infoW8a = none ∧
    getRecordId Endianness.littleEndian ⟨1⟩
      (RawData.single (List.replicate 10 0)) infoW8a.id_parse_info = none := by
  have Ha := c8_peek_none_cases Endianness.littleEndian ⟨64⟩
    (RawData.single (List.replicate 10 0)) infoW8a infoW8a.id_parse_info 16
  have Hb := c8_peek_none_cases Endianness.littleEndian ⟨1⟩
    (RawData.single (List.replicate 10 0)) infoW8b infoW8b.id_parse_info 16
  have Hc := c8_peek_none_cases Endianness.littleEndian ⟨1⟩
    (RawData.single (List.replicate 10 0)) infoW8a infoW8a.id_parse_info 16
  exact ⟨Ha.1 (by decide),
    Hb.2.1 rfl, Hb.2.2.1 rfl,
    Hc.2.2.2.1 rfl (by decide), Hc.2.2.2.2.1 rfl (by decide),
    (Hb.2.2.2.2.2 (by decide) (by decide)).1 rfl,
    (Hb.2.2.2.2.2 (by decide) (by decide)).2.1 rfl,
    (Hc.2.2.2.2.2 (by decide) (by decide)).2.2.1 rfl (by decide),
    (Hc.2.2.2.2.2 (by decide) (by decide)).2.2.2 rfl (by decide)⟩

/-- C9: identifier precedence. When both the IDENTIFIER and the plain ID
sample-format flags are set, the id field of a successfully parsed record is
the word at the identifier position (the record start for SAMPLE records;
the final trailer word for non-sample records), and whenever the word at the
plain id position differs from the identifier word, the id field is not the
plain-position word. -/
theorem c9_identifier_precedence (en : Endianness) (d1 d2 : RawData)
    (info : RecordParseInfo) (rc : Nat) (rec : SampleRecord) (cd : CommonData)
    (co : Nat)
    (hIdf : hasFlag info.sample_format sampleIDENTIFIER = true)
    (hId : hasFlag info.sample_format sampleID = true) :
    (SampleRecord.parse en d1 info rc = .ok rec →
      rec.id = some (wordAt en d1.bytes 0) ∧
      (wordAt en d1.bytes
            (countFlags info.sample_format
              [sampleIDENTIFIER, sampleIP, sampleTID, sampleTIME, sampleADDR] * 8) ≠
          wordAt en d1.bytes 0 →
        rec.id ≠ some (wordAt en d1.bytes
          (countFlags info.sample_format
            [sampleIDENTIFIER, sampleIP, sampleTID, sampleTIME, sampleADDR] * 8)))) ∧
    (CommonData.parseNonsample en d2 info = .ok cd →
      info.common_data_offset_from_end = some co →
      cd.id = some (wordAt en d2.bytes
          ((d2.bytes.length - co) +
            ((if hasFlag info.sample_format sampleTID then 8 else 0) +
              ((if hasFlag info.sample_format sampleTIME then 8 else 0) +
                ((if hasFlag info.sample_format sampleID then 8 else 0) +
                  ((if hasFlag info.sample_format sampleSTREAM_ID then 8 else 0) +
                    (if hasFlag info.sample_format sampleCPU then 8 else 0))))))) ∧
      (wordAt en d2.bytes
            ((d2.bytes.length - co) +
              ((if hasFlag info.sample_format sampleTID then 8 else 0) +
                (if hasFlag info.sample_format sampleTIME then 8 else 0))) ≠
          wordAt en d2.bytes
            ((d2.bytes.length - co) +
              ((if hasFlag info.sample_format sampleTID then 8 else 0) +
                ((if hasFlag info.sample_format sampleTIME then 8 else 0) +
                  ((if hasFlag info.sample_format sampleID then 8 else 0) +
                    ((if hasFlag info.sample_format sampleSTREAM_ID then 8 else 0) +
                      (if hasFlag info.sample_format sampleCPU then 8 else 0)))))) →
        cd.id ≠ some (wordAt en d2.bytes
          ((d2.bytes.length - co) +
            ((if hasFlag info.sample_format sampleTID then 8 else 0) +
              (if hasFlag info.sample_format sampleTIME then 8 else 0)))))) := by
  constructor
  · intro H
    have F := (sample_parse_fields H).2.2.1 hIdf
    refine ⟨F.2, fun hne hc => ?_⟩
    rw [F.2] at hc
    exact hne (Option.some.inj hc).symm
  · intro H hco
    have G := (nonsample_parse_fields H).2 co hco
    have F := G.2.2.2.1 hIdf
    refine ⟨F.2, fun hne hc => ?_⟩
    rw [F.2] at hc
    exact hne (Option.some.inj hc).symm

/-- Witness for C9: at infoW9 both flags are set, the sample body parses to
identifier 1 (plain id position holds 2), and the non-sample trailer parses
to identifier 1 as well. -/
theorem c9_identifier_precedence_witness :
    (sampleRecW9.id = some (wordAt Endianness.littleEndian sampleBodyW9.bytes 0) ∧
      sampleRecW9.id ≠ some (wordAt Endianness.littleEndian sampleBodyW9.bytes
        (countFlags infoW9.sample_format
          [sampleIDENTIFIER, sampleIP, sampleTID, sampleTIME, sampleADDR] * 8))) ∧
    (commonW9.id = some (wordAt Endianness.littleEndian nonsampleBodyW9.bytes
        ((nonsampleBodyW9.bytes.length - 16) +
          ((if hasFlag infoW9.sample_format sampleTID then 8 else 0) +
            ((if hasFlag infoW9.sample_format sampleTIME then 8 else 0) +
              ((if hasFlag infoW9.sample_format sampleID then 8 else 0) +
                ((if hasFlag infoW9.sample_format sampleSTREAM_ID then 8 else 0) +
                  (if hasFlag infoW9.sample_format sampleCPU then 8 else 0))))))) ∧
      commonW9.id ≠ some (wordAt Endianness.littleEndian nonsampleBodyW9.bytes
        ((nonsampleBodyW9.bytes.length - 16) +
          ((if hasFlag infoW9.sample_format sampleTID then 8 else 0) +
            (if hasFlag infoW9.sample_format sampleTIME then 8 else 0))))) := by
  have H := c9_identifier_precedence Endianness.littleEndian sampleBodyW9
    nonsampleBodyW9 infoW9 0 sampleRecW9 commonW9 16 (by decide) (by decide)
  have Hs := H.1 (by decide)
  have Hn := H.2 (by decide) rfl
  exact ⟨⟨Hs.1, Hs.2 (by decide)⟩, ⟨Hn.1, Hn.2 (by decide)⟩⟩

theorem c4_parse_inv {en : Endianness} {d : RawData} {rc : Nat} {rec : SampleRecord}
    (H : SampleRecord.parse en d infoW4 rc = .ok rec)
    (habi : wordAt en d.bytes 0 ≠ 0) :
    (rec.user_regs.map fun g => g.rawRegs.rawData.len) = some (rc * 8) ∧
    8 + rc * 8 + 8 ≤ d.bytes.length ∧
    (wordAt en d.bytes (8 + rc * 8) ≠ 0 →
      8 + rc * 8 + 8 + rc * 8 + 8 ≤ d.bytes.length ∧
      rec.phys_addr = some (wordAt en d.bytes (8 + rc * 8 + 8 + rc * 8))) ∧
    (wordAt en d.bytes (8 + rc * 8) = 0 →
      8 + rc * 8 + 8 + 8 ≤ d.bytes.length ∧
      rec.phys_addr = some (wordAt en d.bytes (8 + rc * 8 + 8))) := by
  simp only [SampleRecord.parse] at H
  obtain ⟨⟨identifier, cur1⟩, hId, H⟩ := bindM_ok_inv H
  obtain ⟨⟨ip, cur2⟩, hIp, H⟩ := bindM_ok_inv H
  obtain ⟨⟨pid, tid, cur3⟩, hTid, H⟩ := bindM_ok_inv H
  obtain ⟨⟨timestamp, cur4⟩, hTime, H⟩ := bindM_ok_inv H
  obtain ⟨⟨addr, cur5⟩, hAddr, H⟩ := bindM_ok_inv H
  obtain ⟨⟨idPlain, cur6⟩, hIdP, H⟩ := bindM_ok_inv H
  obtain ⟨⟨streamId, cur7⟩, hStream, H⟩ := bindM_ok_inv H
  obtain ⟨⟨cpu, cur8⟩, hCpu, H⟩ := bindM_ok_inv H
  obtain ⟨⟨period, cur9⟩, hPeriod, H⟩ := bindM_ok_inv H
  obtain ⟨cur10, hRead, H⟩ := bindM_ok_inv H
  obtain ⟨⟨callchain, cur11⟩, hCc, H⟩ := bindM_ok_inv H
  obtain ⟨⟨raw, cur12⟩, hRaw, H⟩ := bindM_ok_inv H
  obtain ⟨cur13, hBranch, H⟩ := bindM_ok_inv H
  obtain ⟨⟨userRegs, cur14⟩, hRegs, H⟩ := bindM_ok_inv H
  obtain ⟨⟨userStack, cur15⟩, hStack, H⟩ := bindM_ok_inv H
  obtain ⟨cur16, hWeight, H⟩ := bindM_ok_inv H
  obtain ⟨cur17, hSrc, H⟩ := bindM_ok_inv H
  obtain ⟨cur18, hTrans, H⟩ := bindM_ok_inv H
  obtain ⟨cur19, hIntr, H⟩ := bindM_ok_inv H
  obtain ⟨⟨physAddr, cur20⟩, hPhys, H⟩ := bindM_ok_inv H
  obtain ⟨cur21, hAux, H⟩ := bindM_ok_inv H
  obtain ⟨⟨dataPageSize, cur22⟩, hDps, H⟩ := bindM_ok_inv H
  obtain ⟨⟨codePageSize, cur23⟩, hCps, H⟩ := bindM_ok_inv H
  simp only [pure, Except.pure] at H
  have hrec := (Except.ok.inj H).symm
  have hur : rec.user_regs = userRegs := by rw [hrec]
  have hpa : rec.phys_addr = physAddr := by rw [hrec]
  rcases readOptU64_eq_ok hId with ⟨-, hb1, -⟩
  rcases readOptU64_eq_ok hIp with ⟨-, hb2, -⟩
  rcases readOptTid_eq_ok hTid with ⟨-, hb3⟩
  rcases readOptU64_eq_ok hTime with ⟨-, hb4, -⟩
  rcases readOptU64_eq_ok hAddr with ⟨-, hb5, -⟩
  rcases readOptU64_eq_ok hIdP with ⟨-, hb6, -⟩
  rcases readOptU64_eq_ok hStream with ⟨-, hb7, -⟩
  rcases readOptCpu_eq_ok hCpu with ⟨-, hb8⟩
  rcases readOptU64_eq_ok hPeriod with ⟨-, hb9, -⟩
  have hcur9 : cur9.bytes = d.bytes := by
    rw [hb9, hb8, hb7, hb6, hb5, hb4, hb3, hb2, hb1]
    simp only [
      show (if hasFlag infoW4.sample_format sampleIDENTIFIER then 8 else 0) = 0 from by decide,
      show (if hasFlag infoW4.sample_format sampleIP then 8 else 0) = 0 from by decide,
      show (if hasFlag infoW4.sample_format sampleTID then 8 else 0) = 0 from by decide,
      show (if hasFlag infoW4.sample_format sampleTIME then 8 else 0) = 0 from by decide,
      show (if hasFlag infoW4.sample_format sampleADDR then 8 else 0) = 0 from by decide,
      show (if hasFlag infoW4.sample_format sampleID then 8 else 0) = 0 from by decide,
      show (if hasFlag infoW4.sample_format sampleSTREAM_ID then 8 else 0) = 0 from by decide,
      show (if hasFlag infoW4.sample_format sampleCPU then 8 else 0) = 0 from by decide,
      show (if hasFlag infoW4.sample_format samplePERIOD then 8 else 0) = 0 from by decide,
      List.drop_zero]
  rw [if_neg (show ¬(hasFlag infoW4.sample_format sampleREAD = true) from by decide)] at hRead
  simp only [pure, Except.pure] at hRead
  obtain rfl := Except.ok.inj hRead
  rw [if_neg (show ¬(hasFlag infoW4.sample_format sampleCALLCHAIN = true) from by decide)] at hCc
  simp only [pure, Except.pure] at hCc
  obtain ⟨rfl, rfl⟩ := Prod.mk.inj (Except.ok.inj hCc)
  rw [if_neg (show ¬(hasFlag infoW4.sample_format sampleRAW = true) from by decide)] at hRaw
  simp only [pure, Except.pure] at hRaw
  obtain ⟨rfl, rfl⟩ := Prod.mk.inj (Except.ok.inj hRaw)
  rw [if_neg (show ¬(hasFlag infoW4.sample_format sampleBRANCH_STACK = true) from by decide)] at hBranch
  simp only [pure, Except.pure] at hBranch
  obtain rfl := Except.ok.inj hBranch
  rw [if_pos (show hasFlag infoW4.sample_format sampleREGS_USER = true from by decide)] at hRegs
  obtain ⟨⟨regsAbi, curA⟩, hAbi, hRegs⟩ := bindM_ok_inv hRegs
  rcases RawData.readU64_eq_ok hAbi with ⟨-, hwA, hbA⟩
  rw [hcur9] at hwA hbA
  have hAbiNe : ¬(regsAbi = 0) := by rw [hwA]; exact habi
  rw [if_neg hAbiNe] at hRegs
  obtain ⟨⟨regsData, curB⟩, hSplit, hRegs⟩ := bindM_ok_inv hRegs
  obtain ⟨leS, hbS, hbB⟩ := RawData.splitOffStart_eq_ok hSplit
  simp only [pure, Except.pure] at hRegs
  obtain ⟨hURv, rfl⟩ := Prod.mk.inj (Except.ok.inj hRegs)
  have hcurB : curB.bytes = d.bytes.drop (8 + rc * 8) := by
    rw [hbB, hbA, List.drop_drop]
  rw [if_neg (show ¬(hasFlag infoW4.sample_format sampleSTACK_USER = true) from by decide)] at hStack
  simp only [pure, Except.pure] at hStack
  obtain ⟨rfl, rfl⟩ := Prod.mk.inj (Except.ok.inj hStack)
  simp only [skipFlaggedU64] at hWeight hSrc hTrans
  rw [if_neg (show ¬(hasFlag infoW4.sample_format sampleWEIGHT = true) from by decide)] at hWeight
  simp only [pure, Except.pure] at hWeight
  obtain rfl := Except.ok.inj hWeight
  rw [if_neg (show ¬(hasFlag infoW4.sample_format sampleDATA_SRC = true) from by decide)] at hSrc
  simp only [pure, Except.pure] at hSrc
  obtain rfl := Except.ok.inj hSrc
  rw [if_neg (show ¬(hasFlag infoW4.sample_format sampleTRANSACTION = true) from by decide)] at hTrans
  simp only [pure, Except.pure] at hTrans
  obtain rfl := Except.ok.inj hTrans
  rw [if_pos (show hasFlag infoW4.sample_format sampleREGS_INTR = true from by decide)] at hIntr
  obtain ⟨⟨abi2, curC⟩, hAbi2, hIntr⟩ := bindM_ok_inv hIntr
  rcases RawData.readU64_eq_ok hAbi2 with ⟨leC, hwC, hbC⟩
  have habi2 : abi2 = wordAt en d.bytes (8 + rc * 8) := by
    rw [hwC, hcurB]
    simp [wordAt]
  have hcurC : curC.bytes = d.bytes.drop (8 + rc * 8 + 8) := by
    rw [hbC, hcurB, List.drop_drop]
  rw [hcurB, List.length_drop] at leC
  rcases readOptU64_eq_ok hPhys with ⟨leP, hbP, hvP⟩
  rw [show (hasFlag infoW4.sample_format samplePHYS_ADDR) = true from by decide] at leP hvP
  simp only [if_true] at leP hvP
  refine ⟨?_, by omega, ?_, ?_⟩
  · rw [hur, ← hURv]
    simp only [Option.map_some', Regs.new, RawDataU64.fromRawData,
      RawData.len_eq_length_bytes, hbS, List.length_take]
    rw [Nat.min_eq_left leS]
  · intro hnz
    rw [if_pos (show abi2 ≠ 0 from by rw [habi2]; exact hnz)] at hIntr
    obtain ⟨leK, h19⟩ := RawData.skip_eq_ok hIntr
    rw [h19, hcurC, List.drop_drop, List.length_drop] at leP
    refine ⟨by omega, ?_⟩
    rw [hpa, hvP, h19, hcurC, List.drop_drop]
    simp [wordAt]
  · intro hz
    rw [if_neg (not_not_intro (habi2.trans hz))] at hIntr
    simp only [pure, Except.pure] at hIntr
    obtain rfl := Except.ok.inj hIntr
    rw [hcurC, List.length_drop] at leP
    refine ⟨by omega, ?_⟩
    rw [hpa, hvP, hcurC]
    simp [wordAt]

/-- C4: the per-mask register counts of the claim are impossible. Under
infoW4 the user mask has popcount 1 and the interrupt mask popcount 2, and
the body c4Body carries the claimed layout, with the value 170 in the
phys_addr slot that follows one user register word and two interrupt
register words. Yet for every value of the shared regs_count read by the
parser (src/records/sample.rs lines 35, 161, 199, one count for both
blocks), a successful parse allocates exactly regs_count words, not
popcount(sample_regs_user) words, to the user register block, and never
reads 170 as phys_addr: the claim's layout is consumed by no regs_count. -/
theorem c4_shared_regs_count (rc : Nat) (rec : SampleRecord) :
    popCount64 infoW4.sample_regs_user = 1 ∧
    popCount64 infoW4.sample_regs_intr = 2 ∧
    wordAt Endianness.littleEndian c4Body.bytes
      (8 + popCount64 infoW4.sample_regs_user * 8 + 8 +
        popCount64 infoW4.sample_regs_intr * 8) = 170 ∧
    (SampleRecord.parse Endianness.littleEndian c4Body infoW4 rc = .ok rec →
      (rec.user_regs.map fun g => g.rawRegs.rawData.len) = some (rc * 8) ∧
      rec.phys_addr ≠ some 170) := by
  refine ⟨by decide, by decide, by decide, fun H => ?_⟩
  obtain ⟨h1, hlen, hnz, hz⟩ := c4_parse_inv H (by decide)
  refine ⟨h1, ?_⟩
  have h48 : c4Body.bytes.length = 48 := by decide
  rw [h48] at hlen
  have hub : rc ≤ 4 := by omega
  interval_cases rc
  · rw [(hz (by decide)).2]
    decide
  · rw [(hnz (by decide)).2]
    decide
  · rw [(hz (by decide)).2]
    decide
  · have := (hnz (by decide)).1
    rw [h48] at this
    omega
  · have := (hnz (by decide)).1
    rw [h48] at this
    omega

/-- Witness for C4: with regs_count 1 the body c4Body parses successfully to
c4RecW, whose user register block holds 1 * 8 bytes and whose phys_addr is
not 170. -/
theorem c4_shared_regs_count_witness :
    (c4RecW.user_regs.map fun g => g.rawRegs.rawData.len) = some (1 * 8) ∧
    c4RecW.phys_addr ≠ some 170 := by
  exact (c4_shared_regs_count 1 c4RecW).2.2.2 (by decide)

theorem readerU32_eq_ok {en : Endianness} {r : List Nat} {v : Nat} {r1 : List Nat}
    (H : readerU32 en r = .ok (v, r1)) :
    4 ≤ r.length ∧ v = decodeU en (r.take 4) ∧ r1 = r.drop 4 := by
  rw [readerU32, readBytes] at H
  by_cases h : r.length < 4
  · rw [if_pos h] at H
    exact absurd H (by simp)
  · rw [if_neg h] at H
    simp only at H
    obtain ⟨hv, hr⟩ := Prod.mk.inj (Except.ok.inj H)
    exact ⟨by omega, hv.symm, hr.symm⟩

theorem readerU64_eq_ok {en : Endianness} {r : List Nat} {v : Nat} {r1 : List Nat}
    (H : readerU64 en r = .ok (v, r1)) :
    8 ≤ r.length ∧ v = decodeU en (r.take 8) ∧ r1 = r.drop 8 := by
  rw [readerU64, readBytes] at H
  by_cases h : r.length < 8
  · rw [if_pos h] at H
    exact absurd H (by simp)
  · rw [if_neg h] at H
    simp only at H
    obtain ⟨hv, hr⟩ := Prod.mk.inj (Except.ok.inj H)
    exact ⟨by omega, hv.symm, hr.symm⟩

/-- C10: the sampling-policy union of a successfully parsed configuration.
Writing v for the raw 64-bit sampling word (bytes 16..24 of the attr): if
the FREQ flag of the decoded flags is set, the policy is Frequency v —
including v = 0; if FREQ is clear, the policy is NoSampling when v = 0 and
Period v when v is nonzero; and the policy is NoSampling exactly when FREQ
is clear and v = 0. -/
theorem c10_sampling_policy (en : Endianness) (reader : List Nat)
    (sizeOpt : Option Nat) (a : PerfEventAttr)
    (H : PerfEventAttr.parse en reader sizeOpt = .ok a) :
    (hasFlag a.flags attrFREQ = true →
      a.sampling_policy = SamplingPolicy.frequency (wordAt en reader 16)) ∧
    (hasFlag a.flags attrFREQ = false → wordAt en reader 16 = 0 →
      a.sampling_policy = SamplingPolicy.noSampling) ∧
    (hasFlag a.flags attrFREQ = false → wordAt en reader 16 ≠ 0 →
      a.sampling_policy = SamplingPolicy.period (wordAt en reader 16)) ∧
    (a.sampling_policy = SamplingPolicy.noSampling ↔
      (hasFlag a.flags attrFREQ = false ∧ wordAt en reader 16 = 0)) := by
  simp only [PerfEventAttr.parse] at H
  obtain ⟨⟨typeRaw, r1⟩, h1, H⟩ := bindM_ok_inv H
  obtain ⟨⟨selfSize, r2⟩, h2, H⟩ := bindM_ok_inv H
  obtain ⟨⟨config, r3⟩, h3, H⟩ := bindM_ok_inv H
  by_cases hsz : (sizeOpt.getD selfSize) < PERF_ATTR_SIZE_VER0
  · rw [if_pos hsz] at H
    exact absurd H (by simp [throw, throwThe, MonadExceptOf.throw])
  · rw [if_neg hsz] at H
    obtain ⟨⟨period, r4⟩, h4, H⟩ := bindM_ok_inv H
    obtain ⟨⟨sampleType, r5⟩, h5, H⟩ := bindM_ok_inv H
    obtain ⟨⟨readFormatRaw, r6⟩, h6, H⟩ := bindM_ok_inv H
    obtain ⟨⟨flagsRaw, r7⟩, h7, H⟩ := bindM_ok_inv H
    obtain ⟨⟨wk, r8⟩, h8, H⟩ := bindM_ok_inv H
    obtain ⟨⟨bpType, r9⟩, h9, H⟩ := bindM_ok_inv H
    obtain ⟨⟨bpAddr, r10⟩, h10, H⟩ := bindM_ok_inv H
    obtain ⟨⟨bpLen, r11⟩, h11, H⟩ := bindM_ok_inv H
    obtain ⟨⟨branchST, r12⟩, h12, H⟩ := bindM_ok_inv H
    obtain ⟨⟨sru, ssu, clk, r13⟩, h13, H⟩ := bindM_ok_inv H
    obtain ⟨⟨sri, r14⟩, h14, H⟩ := bindM_ok_inv H
    obtain ⟨⟨auxW, sms, r15⟩, h15, H⟩ := bindM_ok_inv H
    obtain ⟨⟨auxS, r16⟩, h16, H⟩ := bindM_ok_inv H
    obtain ⟨⟨sig, r17⟩, h17, H⟩ := bindM_ok_inv H
    obtain ⟨ty, hty, H⟩ := bindM_ok_inv H
    obtain ⟨clock, hclock, H⟩ := bindM_ok_inv H
    simp only [pure, Except.pure] at H
    have hrec := (Except.ok.inj H).symm
    have hsp : a.sampling_policy =
        (if hasFlag (flagsRaw &&& attrFlagsMask) attrFREQ
          then SamplingPolicy.frequency period
          else if period ≠ 0 then SamplingPolicy.period period
          else SamplingPolicy.noSampling) := by rw [hrec]
    have hfl : a.flags = flagsRaw &&& attrFlagsMask := by rw [hrec]
    obtain ⟨-, -, e1⟩ := readerU32_eq_ok h1
    obtain ⟨-, -, e2⟩ := readerU32_eq_ok h2
    obtain ⟨-, -, e3⟩ := readerU64_eq_ok h3
    obtain ⟨-, hv4, -⟩ := readerU64_eq_ok h4
    have hper : period = wordAt en reader 16 := by
      rw [hv4, e3, e2, e1, List.drop_drop, List.drop_drop]
      simp [wordAt]
    rw [hfl, ← hper]
    cases hB : hasFlag (flagsRaw &&& attrFlagsMask) attrFREQ with
    | true =>
      rw [hB, if_pos rfl] at hsp
      refine ⟨fun _ => hsp, fun h => absurd h (by simp),
        fun h _ => absurd h (by simp), ?_⟩
      rw [hsp]
      simp
    | false =>
      rw [hB, if_neg (show ¬(false = true) from by decide)] at hsp
      by_cases hz : period = 0
      · rw [if_neg (not_not_intro hz)] at hsp
        refine ⟨fun h => absurd h (by simp), fun _ _ => hsp,
          fun _ hnz => absurd hz hnz, ?_⟩
        rw [hsp]
        simp [hz]
      · rw [if_pos hz] at hsp
        refine ⟨fun h => absurd h (by simp), fun _ h => absurd h hz,
          fun _ _ => hsp, ?_⟩
        rw [hsp]
        simp [hz]

/-- Witness for C10: readerW10 parses successfully with FREQ set and raw
sampling word 0, and the policy is Frequency 0, not NoSampling. -/
theorem c10_sampling_policy_witness :
    attrW10.sampling_policy =
      SamplingPolicy.frequency (wordAt Endianness.littleEndian readerW10 16) ∧
    wordAt Endianness.littleEndian readerW10 16 = 0 := by
  have H := c10_sampling_policy Endianness.littleEndian readerW10 none attrW10
    (by decide)
  exact ⟨H.1 (by decide), by decide⟩


theorem ok_bind {α β : Type} (a : α) (f : α → Except IoErr β) :
    (Except.ok a >>= f) = f a := rfl

theorem readerU32_of_le {en : Endianness} {r : List Nat} (h : 4 ≤ r.length) :
    readerU32 en r = .ok (decodeU en (r.take 4), r.drop 4) := by
  rw [readerU32, readBytes, if_neg (by omega)]

theorem readerU64_of_le {en : Endianness} {r : List Nat} (h : 8 ≤ r.length) :
    readerU64 en r = .ok (decodeU en (r.take 8), r.drop 8) := by
  rw [readerU64, readBytes, if_neg (by omega)]

theorem readerU16_of_le {en : Endianness} {r : List Nat} (h : 2 ≤ r.length) :
    readerU16 en r = .ok (decodeU en (r.take 2), r.drop 2) := by
  rw [readerU16, readBytes, if_neg (by omega)]

theorem readerU32_of_lt {en : Endianness} {r : List Nat} (h : r.length < 4) :
    readerU32 en r = .error .unexpectedEof := by
  rw [readerU32, readBytes, if_pos h]

theorem c5_case64 (en : Endianness) (reader : List Nat)
    (hdecl : decodeU en ((reader.drop 4).take 4) = 64)
    (hlen : 64 ≤ reader.length)
    (hty : decodeU en (reader.take 4) = 2)
    (hclk : hasFlag (wordAt en reader 40 &&& attrFlagsMask) attrUSE_CLOCKID = false) :
    ∃ a, PerfEventAttr.parse en reader none = .ok a ∧ attrZeroBeyond 64 a := by
  simp only [PerfEventAttr.parse]
  have hL0 : 4 ≤ (reader : List Nat).length := by
    omega
  rw [readerU32_of_le hL0, ok_bind]
  first
  | dsimp only
  | skip
  have hL1 : 4 ≤ ((reader.drop 4) : List Nat).length := by
    simp only [List.length_drop]; omega
  rw [readerU32_of_le hL1, ok_bind]
  first
  | dsimp only
  | skip
  have hL2 : 8 ≤ (((reader.drop 4).drop 4) : List Nat).length := by
    simp only [List.length_drop]; omega
  rw [readerU64_of_le hL2, ok_bind]
  first
  | dsimp only
  | skip
  simp only [Option.getD_none]
  rw [hdecl]
  rw [if_neg (by decide)]
  have hL3 : 8 ≤ ((((reader.drop 4).drop 4).drop 8) : List Nat).length := by
    simp only [List.length_drop]; omega
  rw [readerU64_of_le hL3, ok_bind]
  first
  | dsimp only
  | skip
  have hL4 : 8 ≤ (((((reader.drop 4).drop 4).drop 8).drop 8) : List Nat).length := by
    simp only [List.length_drop]; omega
  rw [readerU64_of_le hL4, ok_bind]
  first
  | dsimp only
  | skip
  have hL5 : 8 ≤ ((((((reader.drop 4).drop 4).drop 8).drop 8).drop 8) : List Nat).length := by
    simp only [List.length_drop]; omega
  rw [readerU64_of_le hL5, ok_bind]
  first
  | dsimp only
  | skip
  have hL6 : 8 ≤ (((((((reader.drop 4).drop 4).drop 8).drop 8).drop 8).drop 8) : List Nat).length := by
    simp only [List.length_drop]; omega
  rw [readerU64_of_le hL6, ok_bind]
  first
  | dsimp only
  | skip
  have hL7 : 4 ≤ ((((((((reader.drop 4).drop 4).drop 8).drop 8).drop 8).drop 8).drop 8) : List Nat).length := by
    simp only [List.length_drop]; omega
  rw [readerU32_of_le hL7, ok_bind]
  first
  | dsimp only
  | skip
  have hL8 : 4 ≤ (((((((((reader.drop 4).drop 4).drop 8).drop 8).drop 8).drop 8).drop 8).drop 4) : List Nat).length := by
    simp only [List.length_drop]; omega
  rw [readerU32_of_le hL8, ok_bind]
  first
  | dsimp only
  | skip
  have hL9 : 8 ≤ ((((((((((reader.drop 4).drop 4).drop 8).drop 8).drop 8).drop 8).drop 8).drop 4).drop 4) : List Nat).length := by
    simp only [List.length_drop]; omega
  rw [readerU64_of_le hL9, ok_bind]
  first
  | dsimp only
  | skip
  rw [if_neg (by decide)]
  first
  | dsimp only [pure, Except.pure]
  | skip
  rw [ok_bind]
  first
  | dsimp only
  | skip
  rw [if_neg (by decide)]
  first
  | dsimp only [pure, Except.pure]
  | skip
  rw [ok_bind]
  first
  | dsimp only
  | skip
  rw [if_neg (by decide)]
  first
  | dsimp only [pure, Except.pure]
  | skip
  rw [ok_bind]
  first
  | dsimp only
  | skip
  rw [if_neg (by decide)]
  first
  | dsimp only [pure, Except.pure]
  | skip
  rw [ok_bind]
  first
  | dsimp only
  | skip
  rw [if_neg (by decide)]
  first
  | dsimp only [pure, Except.pure]
  | skip
  rw [ok_bind]
  first
  | dsimp only
  | skip
  rw [if_neg (by decide)]
  first
  | dsimp only [pure, Except.pure]
  | skip
  rw [ok_bind]
  first
  | dsimp only
  | skip
  rw [if_neg (by decide)]
  first
  | dsimp only [pure, Except.pure]
  | skip
  rw [ok_bind]
  first
  | dsimp only
  | skip
  rw [hty]
  simp only [PerfEventType.parse]
  first
  | dsimp only [pure, Except.pure]
  | skip
  rw [ok_bind]
  first
  | dsimp only
  | skip
  have hclk2 : hasFlag (decodeU en (((((((reader.drop 4).drop 4).drop 8).drop 8).drop 8).drop 8).take 8) &&& attrFlagsMask) attrUSE_CLOCKID = false := by
    have hdd : ((((((reader.drop 4).drop 4).drop 8).drop 8).drop 8).drop 8) = reader.drop 40 := by
      simp [List.drop_drop]
    rw [hdd]
    exact hclk
  rw [hclk2]
  rw [if_neg (by decide)]
  first
  | dsimp only [pure, Except.pure]
  | skip
  rw [ok_bind]
  first
  | dsimp only
  | skip
  refine ⟨_, rfl, ?_⟩
  exact ⟨fun _ => Nat.zero_and _, fun _ => ⟨rfl, rfl⟩, fun _ => rfl, fun _ => ⟨rfl, rfl⟩, fun _ => rfl, fun _ => rfl⟩

theorem c5_case72 (en : Endianness) (reader : List Nat)
    (hdecl : decodeU en ((reader.drop 4).take 4) = 72)
    (hlen : 72 ≤ reader.length)
    (hty : decodeU en (reader.take 4) = 2)
    (hclk : hasFlag (wordAt en reader 40 &&& attrFlagsMask) attrUSE_CLOCKID = false) :
    ∃ a, PerfEventAttr.parse en reader none = .ok a ∧ attrZeroBeyond 72 a := by
  simp only [PerfEventAttr.parse]
  have hL0 : 4 ≤ (reader : List Nat).length := by
    omega
  rw [readerU32_of_le hL0, ok_bind]
  first
  | dsimp only
  | skip
  have hL1 : 4 ≤ ((reader.drop 4) : List Nat).length := by
    simp only [List.length_drop]; omega
  rw [readerU32_of_le hL1, ok_bind]
  first
  | dsimp only
  | skip
  have hL2 : 8 ≤ (((reader.drop 4).drop 4) : List Nat).length := by
    simp only [List.length_drop]; omega
  rw [readerU64_of_le hL2, ok_bind]
  first
  | dsimp only
  | skip
  simp only [Option.getD_none]
  rw [hdecl]
  rw [if_neg (by decide)]
  have hL3 : 8 ≤ ((((reader.drop 4).drop 4).drop 8) : List Nat).length := by
    simp only [List.length_drop]; omega
  rw [readerU64_of_le hL3, ok_bind]
  first
  | dsimp only
  | skip
  have hL4 : 8 ≤ (((((reader.drop 4).drop 4).drop 8).drop 8) : List Nat).length := by
    simp only [List.length_drop]; omega
  rw [readerU64_of_le hL4, ok_bind]
  first
  | dsimp only
  | skip
  have hL5 : 8 ≤ ((((((reader.drop 4).drop 4).drop 8).drop 8).drop 8) : List Nat).length := by
    simp only [List.length_drop]; omega
  rw [readerU64_of_le hL5, ok_bind]
  first
  | dsimp only
  | skip
  have hL6 : 8 ≤ (((((((reader.drop 4).drop 4).drop 8).drop 8).drop 8).drop 8) : List Nat).length := by
    simp only [List.length_drop]; omega
  rw [readerU64_of_le hL6, ok_bind]
  first
  | dsimp only
  | skip
  have hL7 : 4 ≤ ((((((((reader.drop 4).drop 4).drop 8).drop 8).drop 8).drop 8).drop 8) : List Nat).length := by
    simp only [List.length_drop]; omega
  rw [readerU32_of_le hL7, ok_bind]
  first
  | dsimp only
  | skip
  have hL8 : 4 ≤ (((((((((reader.drop 4).drop 4).drop 8).drop 8).drop 8).drop 8).drop 8).drop 4) : List Nat).length := by
    simp only [List.length_drop]; omega
  rw [readerU32_of_le hL8, ok_bind]
  first
  | dsimp only
  | skip
  have hL9 : 8 ≤ ((((((((((reader.drop 4).drop 4).drop 8).drop 8).drop 8).drop 8).drop 8).drop 4).drop 4) : List Nat).length := by
    simp only [List.length_drop]; omega
  rw [readerU64_of_le hL9, ok_bind]
  first
  | dsimp only
  | skip
  rw [if_pos (by decide)]
  have hL10 : 8 ≤ (((((((((((reader.drop 4).drop 4).drop 8).drop 8).drop 8).drop 8).drop 8).drop 4).drop 4).drop 8) : List Nat).length := by
    simp only [List.length_drop]; omega
  rw [readerU64_of_le hL10, ok_bind]
  first
  | dsimp only
  | skip
  rw [if_neg (by decide)]
  first
  | dsimp only [pure, Except.pure]
  | skip
  rw [ok_bind]
  first
  | dsimp only
  | skip
  rw [if_neg (by decide)]
  first
  | dsimp only [pure, Except.pure]
  | skip
  rw [ok_bind]
  first
  | dsimp only
  | skip
  rw [if_neg (by decide)]
  first
  | dsimp only [pure, Except.pure]
  | skip
  rw [ok_bind]
  first
  | dsimp only
  | skip
  rw [if_neg (by decide)]
  first
  | dsimp only [pure, Except.pure]
  | skip
  rw [ok_bind]
  first
  | dsimp only
  | skip
  rw [if_neg (by decide)]
  first
  | dsimp only [pure, Except.pure]
  | skip
  rw [ok_bind]
  first
  | dsimp only
  | skip
  rw [if_neg (by decide)]
  first
  | dsimp only [pure, Except.pure]
  | skip
  rw [ok_bind]
  first
  | dsimp only
  | skip
  rw [hty]
  simp only [PerfEventType.parse]
  first
  | dsimp only [pure, Except.pure]
  | skip
  rw [ok_bind]
  first
  | dsimp only
  | skip
  have hclk2 : hasFlag (decodeU en (((((((reader.drop 4).drop 4).drop 8).drop 8).drop 8).drop 8).take 8) &&& attrFlagsMask) attrUSE_CLOCKID = false := by
    have hdd : ((((((reader.drop 4).drop 4).drop 8).drop 8).drop 8).drop 8) = reader.drop 40 := by
      simp [List.drop_drop]
    rw [hdd]
    exact hclk
  rw [hclk2]
  rw [if_neg (by decide)]
  first
  | dsimp only [pure, Except.pure]
  | skip
  rw [ok_bind]
  first
  | dsimp only
  | skip
  refine ⟨_, rfl, ?_⟩
  exact ⟨fun _ => Nat.zero_and _, fun _ => ⟨rfl, rfl⟩, fun _ => rfl, fun _ => ⟨rfl, rfl⟩, fun _ => rfl, fun _ => rfl⟩

theorem c5_case80 (en : Endianness) (reader : List Nat)
    (hdecl : decodeU en ((reader.drop 4).take 4) = 80)
    (hlen : 80 ≤ reader.length)
    (hty : decodeU en (reader.take 4) = 2)
    (hclk : hasFlag (wordAt en reader 40 &&& attrFlagsMask) attrUSE_CLOCKID = false) :
    ∃ a, PerfEventAttr.parse en reader none = .ok a ∧ attrZeroBeyond 80 a := by
  simp only [PerfEventAttr.parse]
  have hL0 : 4 ≤ (reader : List Nat).length := by
    omega
  rw [readerU32_of_le hL0, ok_bind]
  first
  | dsimp only
  | skip
  have hL1 : 4 ≤ ((reader.drop 4) : List Nat).length := by
    simp only [List.length_drop]; omega
  rw [readerU32_of_le hL1, ok_bind]
  first
  | dsimp only
  | skip
  have hL2 : 8 ≤ (((reader.drop 4).drop 4) : List Nat).length := by
    simp only [List.length_drop]; omega
  rw [readerU64_of_le hL2, ok_bind]
  first
  | dsimp only
  | skip
  simp only [Option.getD_none]
  rw [hdecl]
  rw [if_neg (by decide)]
  have hL3 : 8 ≤ ((((reader.drop 4).drop 4).drop 8) : List Nat).length := by
    simp only [List.length_drop]; omega
  rw [readerU64_of_le hL3, ok_bind]
  first
  | dsimp only
  | skip
  have hL4 : 8 ≤ (((((reader.drop 4).drop 4).drop 8).drop 8) : List Nat).length := by
    simp only [List.length_drop]; omega
  rw [readerU64_of_le hL4, ok_bind]
  first
  | dsimp only
  | skip
  have hL5 : 8 ≤ ((((((reader.drop 4).drop 4).drop 8).drop 8).drop 8) : List Nat).length := by
    simp only [List.length_drop]; omega
  rw [readerU64_of_le hL5, ok_bind]
  first
  | dsimp only
  | skip
  have hL6 : 8 ≤ (((((((reader.drop 4).drop 4).drop 8).drop 8).drop 8).drop 8) : List Nat).length := by
    simp only [List.length_drop]; omega
  rw [readerU64_of_le hL6, ok_bind]
  first
  | dsimp only
  | skip
  have hL7 : 4 ≤ ((((((((reader.drop 4).drop 4).drop 8).drop 8).drop 8).drop 8).drop 8) : List Nat).length := by
    simp only [List.length_drop]; omega
  rw [readerU32_of_le hL7, ok_bind]
  first
  | dsimp only
  | skip
  have hL8 : 4 ≤ (((((((((reader.drop 4).drop 4).drop 8).drop 8).drop 8).drop 8).drop 8).drop 4) : List Nat).length := by
    simp only [List.length_drop]; omega
  rw [readerU32_of_le hL8, ok_bind]
  first
  | dsimp only
  | skip
  have hL9 : 8 ≤ ((((((((((reader.drop 4).drop 4).drop 8).drop 8).drop 8).drop 8).drop 8).drop 4).drop 4) : List Nat).length := by
    simp only [List.length_drop]; omega
  rw [readerU64_of_le hL9, ok_bind]
  first
  | dsimp only
  | skip
  rw [if_pos (by decide)]
  have hL10 : 8 ≤ (((((((((((reader.drop 4).drop 4).drop 8).drop 8).drop 8).drop 8).drop 8).drop 4).drop 4).drop 8) : List Nat).length := by
    simp only [List.length_drop]; omega
  rw [readerU64_of_le hL10, ok_bind]
  first
  | dsimp only
  | skip
  rw [if_pos (by decide)]
  have hL11 : 8 ≤ ((((((((((((reader.drop 4).drop 4).drop 8).drop 8).drop 8).drop 8).drop 8).drop 4).drop 4).drop 8).drop 8) : List Nat).length := by
    simp only [List.length_drop]; omega
  rw [readerU64_of_le hL11, ok_bind]
  first
  | dsimp only
  | skip
  rw [if_neg (by decide)]
  first
  | dsimp only [pure, Except.pure]
  | skip
  rw [ok_bind]
  first
  | dsimp only
  | skip
  rw [if_neg (by decide)]
  first
  | dsimp only [pure, Except.pure]
  | skip
  rw [ok_bind]
  first
  | dsimp only
  | skip
  rw [if_neg (by decide)]
  first
  | dsimp only [pure, Except.pure]
  | skip
  rw [ok_bind]
  first
  | dsimp only
  | skip
  rw [if_neg (by decide)]
  first
  | dsimp only [pure, Except.pure]
  | skip
  rw [ok_bind]
  first
  | dsimp only
  | skip
  rw [if_neg (by decide)]
  first
  | dsimp only [pure, Except.pure]
  | skip
  rw [ok_bind]
  first
  | dsimp only
  | skip
  rw [hty]
  simp only [PerfEventType.parse]
  first
  | dsimp only [pure, Except.pure]
  | skip
  rw [ok_bind]
  first
  | dsimp only
  | skip
  have hclk2 : hasFlag (decodeU en (((((((reader.drop 4).drop 4).drop 8).drop 8).drop 8).drop 8).take 8) &&& attrFlagsMask) attrUSE_CLOCKID = false := by
    have hdd : ((((((reader.drop 4).drop 4).drop 8).drop 8).drop 8).drop 8) = reader.drop 40 := by
      simp [List.drop_drop]
    rw [hdd]
    exact hclk
  rw [hclk2]
  rw [if_neg (by decide)]
  first
  | dsimp only [pure, Except.pure]
  | skip
  rw [ok_bind]
  first
  | dsimp only
  | skip
  refine ⟨_, rfl, ?_⟩
  exact ⟨fun h => absurd h (by decide), fun _ => ⟨rfl, rfl⟩, fun _ => rfl, fun _ => ⟨rfl, rfl⟩, fun _ => rfl, fun _ => rfl⟩

theorem c5_case96 (en : Endianness) (reader : List Nat)
    (hdecl : decodeU en ((reader.drop 4).take 4) = 96)
    (hlen : 96 ≤ reader.length)
    (hty : decodeU en (reader.take 4) = 2)
    (hclk : hasFlag (wordAt en reader 40 &&& attrFlagsMask) attrUSE_CLOCKID = false) :
    ∃ a, PerfEventAttr.parse en reader none = .ok a ∧ attrZeroBeyond 96 a := by
  simp only [PerfEventAttr.parse]
  have hL0 : 4 ≤ (reader : List Nat).length := by
    omega
  rw [readerU32_of_le hL0, ok_bind]
  first
  | dsimp only
  | skip
  have hL1 : 4 ≤ ((reader.drop 4) : List Nat).length := by
    simp only [List.length_drop]; omega
  rw [readerU32_of_le hL1, ok_bind]
  first
  | dsimp only
  | skip
  have hL2 : 8 ≤ (((reader.drop 4).drop 4) : List Nat).length := by
    simp only [List.length_drop]; omega
  rw [readerU64_of_le hL2, ok_bind]
  first
  | dsimp only
  | skip
  simp only [Option.getD_none]
  rw [hdecl]
  rw [if_neg (by decide)]
  have hL3 : 8 ≤ ((((reader.drop 4).drop 4).drop 8) : List Nat).length := by
    simp only [List.length_drop]; omega
  rw [readerU64_of_le hL3, ok_bind]
  first
  | dsimp only
  | skip
  have hL4 : 8 ≤ (((((reader.drop 4).drop 4).drop 8).drop 8) : List Nat).length := by
    simp only [List.length_drop]; omega
  rw [readerU64_of_le hL4, ok_bind]
  first
  | dsimp only
  | skip
  have hL5 : 8 ≤ ((((((reader.drop 4).drop 4).drop 8).drop 8).drop 8) : List Nat).length := by
    simp only [List.length_drop]; omega
  rw [readerU64_of_le hL5, ok_bind]
  first
  | dsimp only
  | skip
  have hL6 : 8 ≤ (((((((reader.drop 4).drop 4).drop 8).drop 8).drop 8).drop 8) : List Nat).length := by
    simp only [List.length_drop]; omega
  rw [readerU64_of_le hL6, ok_bind]
  first
  | dsimp only
  | skip
  have hL7 : 4 ≤ ((((((((reader.drop 4).drop 4).drop 8).drop 8).drop 8).drop 8).drop 8) : List Nat).length := by
    simp only [List.length_drop]; omega
  rw [readerU32_of_le hL7, ok_bind]
  first
  | dsimp only
  | skip
  have hL8 : 4 ≤ (((((((((reader.drop 4).drop 4).drop 8).drop 8).drop 8).drop 8).drop 8).drop 4) : List Nat).length := by
    simp only [List.length_drop]; omega
  rw [readerU32_of_le hL8, ok_bind]
  first
  | dsimp only
  | skip
  have hL9 : 8 ≤ ((((((((((reader.drop 4).drop 4).drop 8).drop 8).drop 8).drop 8).drop 8).drop 4).drop 4) : List Nat).length := by
    simp only [List.length_drop]; omega
  rw [readerU64_of_le hL9, ok_bind]
  first
  | dsimp only
  | skip
  rw [if_pos (by decide)]
  have hL10 : 8 ≤ (((((((((((reader.drop 4).drop 4).drop 8).drop 8).drop 8).drop 8).drop 8).drop 4).drop 4).drop 8) : List Nat).length := by
    simp only [List.length_drop]; omega
  rw [readerU64_of_le hL10, ok_bind]
  first
  | dsimp only
  | skip
  rw [if_pos (by decide)]
  have hL11 : 8 ≤ ((((((((((((reader.drop 4).drop 4).drop 8).drop 8).drop 8).drop 8).drop 8).drop 4).drop 4).drop 8).drop 8) : List Nat).length := by
    simp only [List.length_drop]; omega
  rw [readerU64_of_le hL11, ok_bind]
  first
  | dsimp only
  | skip
  rw [if_pos (by decide)]
  have hL12 : 8 ≤ (((((((((((((reader.drop 4).drop 4).drop 8).drop 8).drop 8).drop 8).drop 8).drop 4).drop 4).drop 8).drop 8).drop 8) : List Nat).length := by
    simp only [List.length_drop]; omega
  rw [readerU64_of_le hL12, ok_bind]
  first
  | dsimp only
  | skip
  have hL13 : 4 ≤ ((((((((((((((reader.drop 4).drop 4).drop 8).drop 8).drop 8).drop 8).drop 8).drop 4).drop 4).drop 8).drop 8).drop 8).drop 8) : List Nat).length := by
    simp only [List.length_drop]; omega
  rw [readerU32_of_le hL13, ok_bind]
  first
  | dsimp only
  | skip
  have hL14 : 4 ≤ (((((((((((((((reader.drop 4).drop 4).drop 8).drop 8).drop 8).drop 8).drop 8).drop 4).drop 4).drop 8).drop 8).drop 8).drop 8).drop 4) : List Nat).length := by
    simp only [List.length_drop]; omega
  rw [readerU32_of_le hL14, ok_bind]
  first
  | dsimp only
  | skip
  first
  | dsimp only [pure, Except.pure]
  | skip
  rw [ok_bind]
  first
  | dsimp only
  | skip
  rw [if_neg (by decide)]
  first
  | dsimp only [pure, Except.pure]
  | skip
  rw [ok_bind]
  first
  | dsimp only
  | skip
  rw [if_neg (by decide)]
  first
  | dsimp only [pure, Except.pure]
  | skip
  rw [ok_bind]
  first
  | dsimp only
  | skip
  rw [if_neg (by decide)]
  first
  | dsimp only [pure, Except.pure]
  | skip
  rw [ok_bind]
  first
  | dsimp only
  | skip
  rw [if_neg (by decide)]
  first
  | dsimp only [pure, Except.pure]
  | skip
  rw [ok_bind]
  first
  | dsimp only
  | skip
  rw [hty]
  simp only [PerfEventType.parse]
  first
  | dsimp only [pure, Except.pure]
  | skip
  rw [ok_bind]
  first
  | dsimp only
  | skip
  have hclk2 : hasFlag (decodeU en (((((((reader.drop 4).drop 4).drop 8).drop 8).drop 8).drop 8).take 8) &&& attrFlagsMask) attrUSE_CLOCKID = false := by
    have hdd : ((((((reader.drop 4).drop 4).drop 8).drop 8).drop 8).drop 8) = reader.drop 40 := by
      simp [List.drop_drop]
    rw [hdd]
    exact hclk
  rw [hclk2]
  rw [if_neg (by decide)]
  first
  | dsimp only [pure, Except.pure]
  | skip
  rw [ok_bind]
  first
  | dsimp only
  | skip
  refine ⟨_, rfl, ?_⟩
  exact ⟨fun h => absurd h (by decide), fun h => absurd h (by decide), fun _ => rfl, fun _ => ⟨rfl, rfl⟩, fun _ => rfl, fun _ => rfl⟩

theorem c5_case104 (en : Endianness) (reader : List Nat)
    (hdecl : decodeU en ((reader.drop 4).take 4) = 104)
    (hlen : 104 ≤ reader.length)
    (hty : decodeU en (reader.take 4) = 2)
    (hclk : hasFlag (wordAt en reader 40 &&& attrFlagsMask) attrUSE_CLOCKID = false) :
    ∃ a, PerfEventAttr.parse en reader none = .ok a ∧ attrZeroBeyond 104 a := by
  simp only [PerfEventAttr.parse]
  have hL0 : 4 ≤ (reader : List Nat).length := by
    omega
  rw [readerU32_of_le hL0, ok_bind]
  first
  | dsimp only
  | skip
  have hL1 : 4 ≤ ((reader.drop 4) : List Nat).length := by
    simp only [List.length_drop]; omega
  rw [readerU32_of_le hL1, ok_bind]
  first
  | dsimp only
  | skip
  have hL2 : 8 ≤ (((reader.drop 4).drop 4) : List Nat).length := by
    simp only [List.length_drop]; omega
  rw [readerU64_of_le hL2, ok_bind]
  first
  | dsimp only
  | skip
  simp only [Option.getD_none]
  rw [hdecl]
  rw [if_neg (by decide)]
  have hL3 : 8 ≤ ((((reader.drop 4).drop 4).drop 8) : List Nat).length := by
    simp only [List.length_drop]; omega
  rw [readerU64_of_le hL3, ok_bind]
  first
  | dsimp only
  | skip
  have hL4 : 8 ≤ (((((reader.drop 4).drop 4).drop 8).drop 8) : List Nat).length := by
    simp only [List.length_drop]; omega
  rw [readerU64_of_le hL4, ok_bind]
  first
  | dsimp only
  | skip
  have hL5 : 8 ≤ ((((((reader.drop 4).drop 4).drop 8).drop 8).drop 8) : List Nat).length := by
    simp only [List.length_drop]; omega
  rw [readerU64_of_le hL5, ok_bind]
  first
  | dsimp only
  | skip
  have hL6 : 8 ≤ (((((((reader.drop 4).drop 4).drop 8).drop 8).drop 8).drop 8) : List Nat).length := by
    simp only [List.length_drop]; omega
  rw [readerU64_of_le hL6, ok_bind]
  first
  | dsimp only
  | skip
  have hL7 : 4 ≤ ((((((((reader.drop 4).drop 4).drop 8).drop 8).drop 8).drop 8).drop 8) : List Nat).length := by
    simp only [List.length_drop]; omega
  rw [readerU32_of_le hL7, ok_bind]
  first
  | dsimp only
  | skip
  have hL8 : 4 ≤ (((((((((reader.drop 4).drop 4).drop 8).drop 8).drop 8).drop 8).drop 8).drop 4) : List Nat).length := by
    simp only [List.length_drop]; omega
  rw [readerU32_of_le hL8, ok_bind]
  first
  | dsimp only
  | skip
  have hL9 : 8 ≤ ((((((((((reader.drop 4).drop 4).drop 8).drop 8).drop 8).drop 8).drop 8).drop 4).drop 4) : List Nat).length := by
    simp only [List.length_drop]; omega
  rw [readerU64_of_le hL9, ok_bind]
  first
  | dsimp only
  | skip
  rw [if_pos (by decide)]
  have hL10 : 8 ≤ (((((((((((reader.drop 4).drop 4).drop 8).drop 8).drop 8).drop 8).drop 8).drop 4).drop 4).drop 8) : List Nat).length := by
    simp only [List.length_drop]; omega
  rw [readerU64_of_le hL10, ok_bind]
  first
  | dsimp only
  | skip
  rw [if_pos (by decide)]
  have hL11 : 8 ≤ ((((((((((((reader.drop 4).drop 4).drop 8).drop 8).drop 8).drop 8).drop 8).drop 4).drop 4).drop 8).drop 8) : List Nat).length := by
    simp only [List.length_drop]; omega
  rw [readerU64_of_le hL11, ok_bind]
  first
  | dsimp only
  | skip
  rw [if_pos (by decide)]
  have hL12 : 8 ≤ (((((((((((((reader.drop 4).drop 4).drop 8).drop 8).drop 8).drop 8).drop 8).drop 4).drop 4).drop 8).drop 8).drop 8) : List Nat).length := by
    simp only [List.length_drop]; omega
  rw [readerU64_of_le hL12, ok_bind]
  first
  | dsimp only
  | skip
  have hL13 : 4 ≤ ((((((((((((((reader.drop 4).drop 4).drop 8).drop 8).drop 8).drop 8).drop 8).drop 4).drop 4).drop 8).drop 8).drop 8).drop 8) : List Nat).length := by
    simp only [List.length_drop]; omega
  rw [readerU32_of_le hL13, ok_bind]
  first
  | dsimp only
  | skip
  have hL14 : 4 ≤ (((((((((((((((reader.drop 4).drop 4).drop 8).drop 8).drop 8).drop 8).drop 8).drop 4).drop 4).drop 8).drop 8).drop 8).drop 8).drop 4) : List Nat).length := by
    simp only [List.length_drop]; omega
  rw [readerU32_of_le hL14, ok_bind]
  first
  | dsimp only
  | skip
  first
  | dsimp only [pure, Except.pure]
  | skip
  rw [ok_bind]
  first
  | dsimp only
  | skip
  rw [if_pos (by decide)]
  have hL15 : 8 ≤ ((((((((((((((((reader.drop 4).drop 4).drop 8).drop 8).drop 8).drop 8).drop 8).drop 4).drop 4).drop 8).drop 8).drop 8).drop 8).drop 4).drop 4) : List Nat).length := by
    simp only [List.length_drop]; omega
  rw [readerU64_of_le hL15, ok_bind]
  first
  | dsimp only
  | skip
  rw [if_neg (by decide)]
  first
  | dsimp only [pure, Except.pure]
  | skip
  rw [ok_bind]
  first
  | dsimp only
  | skip
  rw [if_neg (by decide)]
  first
  | dsimp only [pure, Except.pure]
  | skip
  rw [ok_bind]
  first
  | dsimp only
  | skip
  rw [if_neg (by decide)]
  first
  | dsimp only [pure, Except.pure]
  | skip
  rw [ok_bind]
  first
  | dsimp only
  | skip
  rw [hty]
  simp only [PerfEventType.parse]
  first
  | dsimp only [pure, Except.pure]
  | skip
  rw [ok_bind]
  first
  | dsimp only
  | skip
  have hclk2 : hasFlag (decodeU en (((((((reader.drop 4).drop 4).drop 8).drop 8).drop 8).drop 8).take 8) &&& attrFlagsMask) attrUSE_CLOCKID = false := by
    have hdd : ((((((reader.drop 4).drop 4).drop 8).drop 8).drop 8).drop 8) = reader.drop 40 := by
      simp [List.drop_drop]
    rw [hdd]
    exact hclk
  rw [hclk2]
  rw [if_neg (by decide)]
  first
  | dsimp only [pure, Except.pure]
  | skip
  rw [ok_bind]
  first
  | dsimp only
  | skip
  refine ⟨_, rfl, ?_⟩
  exact ⟨fun h => absurd h (by decide), fun h => absurd h (by decide), fun h => absurd h (by decide), fun _ => ⟨rfl, rfl⟩, fun _ => rfl, fun _ => rfl⟩

theorem c5_case112 (en : Endianness) (reader : List Nat)
    (hdecl : decodeU en ((reader.drop 4).take 4) = 112)
    (hlen : 112 ≤ reader.length)
    (hty : decodeU en (reader.take 4) = 2)
    (hclk : hasFlag (wordAt en reader 40 &&& attrFlagsMask) attrUSE_CLOCKID = false) :
    ∃ a, PerfEventAttr.parse en reader none = .ok a ∧ attrZeroBeyond 112 a := by
  simp only [PerfEventAttr.parse]
  have hL0 : 4 ≤ (reader : List Nat).length := by
    omega
  rw [readerU32_of_le hL0, ok_bind]
  first
  | dsimp only
  | skip
  have hL1 : 4 ≤ ((reader.drop 4) : List Nat).length := by
    simp only [List.length_drop]; omega
  rw [readerU32_of_le hL1, ok_bind]
  first
  | dsimp only
  | skip
  have hL2 : 8 ≤ (((reader.drop 4).drop 4) : List Nat).length := by
    simp only [List.length_drop]; omega
  rw [readerU64_of_le hL2, ok_bind]
  first
  | dsimp only
  | skip
  simp only [Option.getD_none]
  rw [hdecl]
  rw [if_neg (by decide)]
  have hL3 : 8 ≤ ((((reader.drop 4).drop 4).drop 8) : List Nat).length := by
    simp only [List.length_drop]; omega
  rw [readerU64_of_le hL3, ok_bind]
  first
  | dsimp only
  | skip
  have hL4 : 8 ≤ (((((reader.drop 4).drop 4).drop 8).drop 8) : List Nat).length := by
    simp only [List.length_drop]; omega
  rw [readerU64_of_le hL4, ok_bind]
  first
  | dsimp only
  | skip
  have hL5 : 8 ≤ ((((((reader.drop 4).drop 4).drop 8).drop 8).drop 8) : List Nat).length := by
    simp only [List.length_drop]; omega
  rw [readerU64_of_le hL5, ok_bind]
  first
  | dsimp only
  | skip
  have hL6 : 8 ≤ (((((((reader.drop 4).drop 4).drop 8).drop 8).drop 8).drop 8) : List Nat).length := by
    simp only [List.length_drop]; omega
  rw [readerU64_of_le hL6, ok_bind]
  first
  | dsimp only
  | skip
  have hL7 : 4 ≤ ((((((((reader.drop 4).drop 4).drop 8).drop 8).drop 8).drop 8).drop 8) : List Nat).length := by
    simp only [List.length_drop]; omega
  rw [readerU32_of_le hL7, ok_bind]
  first
  | dsimp only
  | skip
  have hL8 : 4 ≤ (((((((((reader.drop 4).drop 4).drop 8).drop 8).drop 8).drop 8).drop 8).drop 4) : List Nat).length := by
    simp only [List.length_drop]; omega
  rw [readerU32_of_le hL8, ok_bind]
  first
  | dsimp only
  | skip
  have hL9 : 8 ≤ ((((((((((reader.drop 4).drop 4).drop 8).drop 8).drop 8).drop 8).drop 8).drop 4).drop 4) : List Nat).length := by
    simp only [List.length_drop]; omega
  rw [readerU64_of_le hL9, ok_bind]
  first
  | dsimp only
  | skip
  rw [if_pos (by decide)]
  have hL10 : 8 ≤ (((((((((((reader.drop 4).drop 4).drop 8).drop 8).drop 8).drop 8).drop 8).drop 4).drop 4).drop 8) : List Nat).length := by
    simp only [List.length_drop]; omega
  rw [readerU64_of_le hL10, ok_bind]
  first
  | dsimp only
  | skip
  rw [if_pos (by decide)]
  have hL11 : 8 ≤ ((((((((((((reader.drop 4).drop 4).drop 8).drop 8).drop 8).drop 8).drop 8).drop 4).drop 4).drop 8).drop 8) : List Nat).length := by
    simp only [List.length_drop]; omega
  rw [readerU64_of_le hL11, ok_bind]
  first
  | dsimp only
  | skip
  rw [if_pos (by decide)]
  have hL12 : 8 ≤ (((((((((((((reader.drop 4).drop 4).drop 8).drop 8).drop 8).drop 8).drop 8).drop 4).drop 4).drop 8).drop 8).drop 8) : List Nat).length := by
    simp only [List.length_drop]; omega
  rw [readerU64_of_le hL12, ok_bind]
  first
  | dsimp only
  | skip
  have hL13 : 4 ≤ ((((((((((((((reader.drop 4).drop 4).drop 8).drop 8).drop 8).drop 8).drop 8).drop 4).drop 4).drop 8).drop 8).drop 8).drop 8) : List Nat).length := by
    simp only [List.length_drop]; omega
  rw [readerU32_of_le hL13, ok_bind]
  first
  | dsimp only
  | skip
  have hL14 : 4 ≤ (((((((((((((((reader.drop 4).drop 4).drop 8).drop 8).drop 8).drop 8).drop 8).drop 4).drop 4).drop 8).drop 8).drop 8).drop 8).drop 4) : List Nat).length := by
    simp only [List.length_drop]; omega
  rw [readerU32_of_le hL14, ok_bind]
  first
  | dsimp only
  | skip
  first
  | dsimp only [pure, Except.pure]
  | skip
  rw [ok_bind]
  first
  | dsimp only
  | skip
  rw [if_pos (by decide)]
  have hL15 : 8 ≤ ((((((((((((((((reader.drop 4).drop 4).drop 8).drop 8).drop 8).drop 8).drop 8).drop 4).drop 4).drop 8).drop 8).drop 8).drop 8).drop 4).drop 4) : List Nat).length := by
    simp only [List.length_drop]; omega
  rw [readerU64_of_le hL15, ok_bind]
  first
  | dsimp only
  | skip
  rw [if_pos (by decide)]
  have hL16 : 4 ≤ (((((((((((((((((reader.drop 4).drop 4).drop 8).drop 8).drop 8).drop 8).drop 8).drop 4).drop 4).drop 8).drop 8).drop 8).drop 8).drop 4).drop 4).drop 8) : List Nat).length := by
    simp only [List.length_drop]; omega
  rw [readerU32_of_le hL16, ok_bind]
  first
  | dsimp only
  | skip
  have hL17 : 2 ≤ ((((((((((((((((((reader.drop 4).drop 4).drop 8).drop 8).drop 8).drop 8).drop 8).drop 4).drop 4).drop 8).drop 8).drop 8).drop 8).drop 4).drop 4).drop 8).drop 4) : List Nat).length := by
    simp only [List.length_drop]; omega
  rw [readerU16_of_le hL17, ok_bind]
  first
  | dsimp only
  | skip
  have hL18 : 2 ≤ (((((((((((((((((((reader.drop 4).drop 4).drop 8).drop 8).drop 8).drop 8).drop 8).drop 4).drop 4).drop 8).drop 8).drop 8).drop 8).drop 4).drop 4).drop 8).drop 4).drop 2) : List Nat).length := by
    simp only [List.length_drop]; omega
  rw [readerU16_of_le hL18, ok_bind]
  first
  | dsimp only
  | skip
  first
  | dsimp only [pure, Except.pure]
  | skip
  rw [ok_bind]
  first
  | dsimp only
  | skip
  rw [if_neg (by decide)]
  first
  | dsimp only [pure, Except.pure]
  | skip
  rw [ok_bind]
  first
  | dsimp only
  | skip
  rw [if_neg (by decide)]
  first
  | dsimp only [pure, Except.pure]
  | skip
  rw [ok_bind]
  first
  | dsimp only
  | skip
  rw [hty]
  simp only [PerfEventType.parse]
  first
  | dsimp only [pure, Except.pure]
  | skip
  rw [ok_bind]
  first
  | dsimp only
  | skip
  have hclk2 : hasFlag (decodeU en (((((((reader.drop 4).drop 4).drop 8).drop 8).drop 8).drop 8).take 8) &&& attrFlagsMask) attrUSE_CLOCKID = false := by
    have hdd : ((((((reader.drop 4).drop 4).drop 8).drop 8).drop 8).drop 8) = reader.drop 40 := by
      simp [List.drop_drop]
    rw [hdd]
    exact hclk
  rw [hclk2]
  rw [if_neg (by decide)]
  first
  | dsimp only [pure, Except.pure]
  | skip
  rw [ok_bind]
  first
  | dsimp only
  | skip
  refine ⟨_, rfl, ?_⟩
  exact ⟨fun h => absurd h (by decide), fun h => absurd h (by decide), fun h => absurd h (by decide), fun h => absurd h (by decide), fun _ => rfl, fun _ => rfl⟩

theorem c5_case120 (en : Endianness) (reader : List Nat)
    (hdecl : decodeU en ((reader.drop 4).take 4) = 120)
    (hlen : 120 ≤ reader.length)
    (hty : decodeU en (reader.take 4) = 2)
    (hclk : hasFlag (wordAt en reader 40 &&& attrFlagsMask) attrUSE_CLOCKID = false) :
    ∃ a, PerfEventAttr.parse en reader none = .ok a ∧ attrZeroBeyond 120 a := by
  simp only [PerfEventAttr.parse]
  have hL0 : 4 ≤ (reader : List Nat).length := by
    omega
  rw [readerU32_of_le hL0, ok_bind]
  first
  | dsimp only
  | skip
  have hL1 : 4 ≤ ((reader.drop 4) : List Nat).length := by
    simp only [List.length_drop]; omega
  rw [readerU32_of_le hL1, ok_bind]
  first
  | dsimp only
  | skip
  have hL2 : 8 ≤ (((reader.drop 4).drop 4) : List Nat).length := by
    simp only [List.length_drop]; omega
  rw [readerU64_of_le hL2, ok_bind]
  first
  | dsimp only
  | skip
  simp only [Option.getD_none]
  rw [hdecl]
  rw [if_neg (by decide)]
  have hL3 : 8 ≤ ((((reader.drop 4).drop 4).drop 8) : List Nat).length := by
    simp only [List.length_drop]; omega
  rw [readerU64_of_le hL3, ok_bind]
  first
  | dsimp only
  | skip
  have hL4 : 8 ≤ (((((reader.drop 4).drop 4).drop 8).drop 8) : List Nat).length := by
    simp only [List.length_drop]; omega
  rw [readerU64_of_le hL4, ok_bind]
  first
  | dsimp only
  | skip
  have hL5 : 8 ≤ ((((((reader.drop 4).drop 4).drop 8).drop 8).drop 8) : List Nat).length := by
    simp only [List.length_drop]; omega
  rw [readerU64_of_le hL5, ok_bind]
  first
  | dsimp only
  | skip
  have hL6 : 8 ≤ (((((((reader.drop 4).drop 4).drop 8).drop 8).drop 8).drop 8) : List Nat).length := by
    simp only [List.length_drop]; omega
  rw [readerU64_of_le hL6, ok_bind]
  first
  | dsimp only
  | skip
  have hL7 : 4 ≤ ((((((((reader.drop 4).drop 4).drop 8).drop 8).drop 8).drop 8).drop 8) : List Nat).length := by
    simp only [List.length_drop]; omega
  rw [readerU32_of_le hL7, ok_bind]
  first
  | dsimp only
  | skip
  have hL8 : 4 ≤ (((((((((reader.drop 4).drop 4).drop 8).drop 8).drop 8).drop 8).drop 8).drop 4) : List Nat).length := by
    simp only [List.length_drop]; omega
  rw [readerU32_of_le hL8, ok_bind]
  first
  | dsimp only
  | skip
  have hL9 : 8 ≤ ((((((((((reader.drop 4).drop 4).drop 8).drop 8).drop 8).drop 8).drop 8).drop 4).drop 4) : List Nat).length := by
    simp only [List.length_drop]; omega
  rw [readerU64_of_le hL9, ok_bind]
  first
  | dsimp only
  | skip
  rw [if_pos (by decide)]
  have hL10 : 8 ≤ (((((((((((reader.drop 4).drop 4).drop 8).drop 8).drop 8).drop 8).drop 8).drop 4).drop 4).drop 8) : List Nat).length := by
    simp only [List.length_drop]; omega
  rw [readerU64_of_le hL10, ok_bind]
  first
  | dsimp only
  | skip
  rw [if_pos (by decide)]
  have hL11 : 8 ≤ ((((((((((((reader.drop 4).drop 4).drop 8).drop 8).drop 8).drop 8).drop 8).drop 4).drop 4).drop 8).drop 8) : List Nat).length := by
    simp only [List.length_drop]; omega
  rw [readerU64_of_le hL11, ok_bind]
  first
  | dsimp only
  | skip
  rw [if_pos (by decide)]
  have hL12 : 8 ≤ (((((((((((((reader.drop 4).drop 4).drop 8).drop 8).drop 8).drop 8).drop 8).drop 4).drop 4).drop 8).drop 8).drop 8) : List Nat).length := by
    simp only [List.length_drop]; omega
  rw [readerU64_of_le hL12, ok_bind]
  first
  | dsimp only
  | skip
  have hL13 : 4 ≤ ((((((((((((((reader.drop 4).drop 4).drop 8).drop 8).drop 8).drop 8).drop 8).drop 4).drop 4).drop 8).drop 8).drop 8).drop 8) : List Nat).length := by
    simp only [List.length_drop]; omega
  rw [readerU32_of_le hL13, ok_bind]
  first
  | dsimp only
  | skip
  have hL14 : 4 ≤ (((((((((((((((reader.drop 4).drop 4).drop 8).drop 8).drop 8).drop 8).drop 8).drop 4).drop 4).drop 8).drop 8).drop 8).drop 8).drop 4) : List Nat).length := by
    simp only [List.length_drop]; omega
  rw [readerU32_of_le hL14, ok_bind]
  first
  | dsimp only
  | skip
  first
  | dsimp only [pure, Except.pure]
  | skip
  rw [ok_bind]
  first
  | dsimp only
  | skip
  rw [if_pos (by decide)]
  have hL15 : 8 ≤ ((((((((((((((((reader.drop 4).drop 4).drop 8).drop 8).drop 8).drop 8).drop 8).drop 4).drop 4).drop 8).drop 8).drop 8).drop 8).drop 4).drop 4) : List Nat).length := by
    simp only [List.length_drop]; omega
  rw [readerU64_of_le hL15, ok_bind]
  first
  | dsimp only
  | skip
  rw [if_pos (by decide)]
  have hL16 : 4 ≤ (((((((((((((((((reader.drop 4).drop 4).drop 8).drop 8).drop 8).drop 8).drop 8).drop 4).drop 4).drop 8).drop 8).drop 8).drop 8).drop 4).drop 4).drop 8) : List Nat).length := by
    simp only [List.length_drop]; omega
  rw [readerU32_of_le hL16, ok_bind]
  first
  | dsimp only
  | skip
  have hL17 : 2 ≤ ((((((((((((((((((reader.drop 4).drop 4).drop 8).drop 8).drop 8).drop 8).drop 8).drop 4).drop 4).drop 8).drop 8).drop 8).drop 8).drop 4).drop 4).drop 8).drop 4) : List Nat).length := by
    simp only [List.length_drop]; omega
  rw [readerU16_of_le hL17, ok_bind]
  first
  | dsimp only
  | skip
  have hL18 : 2 ≤ (((((((((((((((((((reader.drop 4).drop 4).drop 8).drop 8).drop 8).drop 8).drop 8).drop 4).drop 4).drop 8).drop 8).drop 8).drop 8).drop 4).drop 4).drop 8).drop 4).drop 2) : List Nat).length := by
    simp only [List.length_drop]; omega
  rw [readerU16_of_le hL18, ok_bind]
  first
  | dsimp only
  | skip
  first
  | dsimp only [pure, Except.pure]
  | skip
  rw [ok_bind]
  first
  | dsimp only
  | skip
  rw [if_pos (by decide)]
  have hL19 : 4 ≤ ((((((((((((((((((((reader.drop 4).drop 4).drop 8).drop 8).drop 8).drop 8).drop 8).drop 4).drop 4).drop 8).drop 8).drop 8).drop 8).drop 4).drop 4).drop 8).drop 4).drop 2).drop 2) : List Nat).length := by
    simp only [List.length_drop]; omega
  rw [readerU32_of_le hL19, ok_bind]
  first
  | dsimp only
  | skip
  have hL20 : 4 ≤ (((((((((((((((((((((reader.drop 4).drop 4).drop 8).drop 8).drop 8).drop 8).drop 8).drop 4).drop 4).drop 8).drop 8).drop 8).drop 8).drop 4).drop 4).drop 8).drop 4).drop 2).drop 2).drop 4) : List Nat).length := by
    simp only [List.length_drop]; omega
  rw [readerU32_of_le hL20, ok_bind]
  first
  | dsimp only
  | skip
  first
  | dsimp only [pure, Except.pure]
  | skip
  rw [ok_bind]
  first
  | dsimp only
  | skip
  rw [if_neg (by decide)]
  first
  | dsimp only [pure, Except.pure]
  | skip
  rw [ok_bind]
  first
  | dsimp only
  | skip
  rw [hty]
  simp only [PerfEventType.parse]
  first
  | dsimp only [pure, Except.pure]
  | skip
  rw [ok_bind]
  first
  | dsimp only
  | skip
  have hclk2 : hasFlag (decodeU en (((((((reader.drop 4).drop 4).drop 8).drop 8).drop 8).drop 8).take 8) &&& attrFlagsMask) attrUSE_CLOCKID = false := by
    have hdd : ((((((reader.drop 4).drop 4).drop 8).drop 8).drop 8).drop 8) = reader.drop 40 := by
      simp [List.drop_drop]
    rw [hdd]
    exact hclk
  rw [hclk2]
  rw [if_neg (by decide)]
  first
  | dsimp only [pure, Except.pure]
  | skip
  rw [ok_bind]
  first
  | dsimp only
  | skip
  refine ⟨_, rfl, ?_⟩
  exact ⟨fun h => absurd h (by decide), fun h => absurd h (by decide), fun h => absurd h (by decide), fun h => absurd h (by decide), fun h => absurd h (by decide), fun _ => rfl⟩

theorem c5_case128 (en : Endianness) (reader : List Nat)
    (hdecl : decodeU en ((reader.drop 4).take 4) = 128)
    (hlen : 128 ≤ reader.length)
    (hty : decodeU en (reader.take 4) = 2)
    (hclk : hasFlag (wordAt en reader 40 &&& attrFlagsMask) attrUSE_CLOCKID = false) :
    ∃ a, PerfEventAttr.parse en reader none = .ok a ∧ attrZeroBeyond 128 a := by
  simp only [PerfEventAttr.parse]
  have hL0 : 4 ≤ (reader : List Nat).length := by
    omega
  rw [readerU32_of_le hL0, ok_bind]
  first
  | dsimp only
  | skip
  have hL1 : 4 ≤ ((reader.drop 4) : List Nat).length := by
    simp only [List.length_drop]; omega
  rw [readerU32_of_le hL1, ok_bind]
  first
  | dsimp only
  | skip
  have hL2 : 8 ≤ (((reader.drop 4).drop 4) : List Nat).length := by
    simp only [List.length_drop]; omega
  rw [readerU64_of_le hL2, ok_bind]
  first
  | dsimp only
  | skip
  simp only [Option.getD_none]
  rw [hdecl]
  rw [if_neg (by decide)]
  have hL3 : 8 ≤ ((((reader.drop 4).drop 4).drop 8) : List Nat).length := by
    simp only [List.length_drop]; omega
  rw [readerU64_of_le hL3, ok_bind]
  first
  | dsimp only
  | skip
  have hL4 : 8 ≤ (((((reader.drop 4).drop 4).drop 8).drop 8) : List Nat).length := by
    simp only [List.length_drop]; omega
  rw [readerU64_of_le hL4, ok_bind]
  first
  | dsimp only
  | skip
  have hL5 : 8 ≤ ((((((reader.drop 4).drop 4).drop 8).drop 8).drop 8) : List Nat).length := by
    simp only [List.length_drop]; omega
  rw [readerU64_of_le hL5, ok_bind]
  first
  | dsimp only
  | skip
  have hL6 : 8 ≤ (((((((reader.drop 4).drop 4).drop 8).drop 8).drop 8).drop 8) : List Nat).length := by
    simp only [List.length_drop]; omega
  rw [readerU64_of_le hL6, ok_bind]
  first
  | dsimp only
  | skip
  have hL7 : 4 ≤ ((((((((reader.drop 4).drop 4).drop 8).drop 8).drop 8).drop 8).drop 8) : List Nat).length := by
    simp only [List.length_drop]; omega
  rw [readerU32_of_le hL7, ok_bind]
  first
  | dsimp only
  | skip
  have hL8 : 4 ≤ (((((((((reader.drop 4).drop 4).drop 8).drop 8).drop 8).drop 8).drop 8).drop 4) : List Nat).length := by
    simp only [List.length_drop]; omega
  rw [readerU32_of_le hL8, ok_bind]
  first
  | dsimp only
  | skip
  have hL9 : 8 ≤ ((((((((((reader.drop 4).drop 4).drop 8).drop 8).drop 8).drop 8).drop 8).drop 4).drop 4) : List Nat).length := by
    simp only [List.length_drop]; omega
  rw [readerU64_of_le hL9, ok_bind]
  first
  | dsimp only
  | skip
  rw [if_pos (by decide)]
  have hL10 : 8 ≤ (((((((((((reader.drop 4).drop 4).drop 8).drop 8).drop 8).drop 8).drop 8).drop 4).drop 4).drop 8) : List Nat).length := by
    simp only [List.length_drop]; omega
  rw [readerU64_of_le hL10, ok_bind]
  first
  | dsimp only
  | skip
  rw [if_pos (by decide)]
  have hL11 : 8 ≤ ((((((((((((reader.drop 4).drop 4).drop 8).drop 8).drop 8).drop 8).drop 8).drop 4).drop 4).drop 8).drop 8) : List Nat).length := by
    simp only [List.length_drop]; omega
  rw [readerU64_of_le hL11, ok_bind]
  first
  | dsimp only
  | skip
  rw [if_pos (by decide)]
  have hL12 : 8 ≤ (((((((((((((reader.drop 4).drop 4).drop 8).drop 8).drop 8).drop 8).drop 8).drop 4).drop 4).drop 8).drop 8).drop 8) : List Nat).length := by
    simp only [List.length_drop]; omega
  rw [readerU64_of_le hL12, ok_bind]
  first
  | dsimp only
  | skip
  have hL13 : 4 ≤ ((((((((((((((reader.drop 4).drop 4).drop 8).drop 8).drop 8).drop 8).drop 8).drop 4).drop 4).drop 8).drop 8).drop 8).drop 8) : List Nat).length := by
    simp only [List.length_drop]; omega
  rw [readerU32_of_le hL13, ok_bind]
  first
  | dsimp only
  | skip
  have hL14 : 4 ≤ (((((((((((((((reader.drop 4).drop 4).drop 8).drop 8).drop 8).drop 8).drop 8).drop 4).drop 4).drop 8).drop 8).drop 8).drop 8).drop 4) : List Nat).length := by
    simp only [List.length_drop]; omega
  rw [readerU32_of_le hL14, ok_bind]
  first
  | dsimp only
  | skip
  first
  | dsimp only [pure, Except.pure]
  | skip
  rw [ok_bind]
  first
  | dsimp only
  | skip
  rw [if_pos (by decide)]
  have hL15 : 8 ≤ ((((((((((((((((reader.drop 4).drop 4).drop 8).drop 8).drop 8).drop 8).drop 8).drop 4).drop 4).drop 8).drop 8).drop 8).drop 8).drop 4).drop 4) : List Nat).length := by
    simp only [List.length_drop]; omega
  rw [readerU64_of_le hL15, ok_bind]
  first
  | dsimp only
  | skip
  rw [if_pos (by decide)]
  have hL16 : 4 ≤ (((((((((((((((((reader.drop 4).drop 4).drop 8).drop 8).drop 8).drop 8).drop 8).drop 4).drop 4).drop 8).drop 8).drop 8).drop 8).drop 4).drop 4).drop 8) : List Nat).length := by
    simp only [List.length_drop]; omega
  rw [readerU32_of_le hL16, ok_bind]
  first
  | dsimp only
  | skip
  have hL17 : 2 ≤ ((((((((((((((((((reader.drop 4).drop 4).drop 8).drop 8).drop 8).drop 8).drop 8).drop 4).drop 4).drop 8).drop 8).drop 8).drop 8).drop 4).drop 4).drop 8).drop 4) : List Nat).length := by
    simp only [List.length_drop]; omega
  rw [readerU16_of_le hL17, ok_bind]
  first
  | dsimp only
  | skip
  have hL18 : 2 ≤ (((((((((((((((((((reader.drop 4).drop 4).drop 8).drop 8).drop 8).drop 8).drop 8).drop 4).drop 4).drop 8).drop 8).drop 8).drop 8).drop 4).drop 4).drop 8).drop 4).drop 2) : List Nat).length := by
    simp only [List.length_drop]; omega
  rw [readerU16_of_le hL18, ok_bind]
  first
  | dsimp only
  | skip
  first
  | dsimp only [pure, Except.pure]
  | skip
  rw [ok_bind]
  first
  | dsimp only
  | skip
  rw [if_pos (by decide)]
  have hL19 : 4 ≤ ((((((((((((((((((((reader.drop 4).drop 4).drop 8).drop 8).drop 8).drop 8).drop 8).drop 4).drop 4).drop 8).drop 8).drop 8).drop 8).drop 4).drop 4).drop 8).drop 4).drop 2).drop 2) : List Nat).length := by
    simp only [List.length_drop]; omega
  rw [readerU32_of_le hL19, ok_bind]
  first
  | dsimp only
  | skip
  have hL20 : 4 ≤ (((((((((((((((((((((reader.drop 4).drop 4).drop 8).drop 8).drop 8).drop 8).drop 8).drop 4).drop 4).drop 8).drop 8).drop 8).drop 8).drop 4).drop 4).drop 8).drop 4).drop 2).drop 2).drop 4) : List Nat).length := by
    simp only [List.length_drop]; omega
  rw [readerU32_of_le hL20, ok_bind]
  first
  | dsimp only
  | skip
  first
  | dsimp only [pure, Except.pure]
  | skip
  rw [ok_bind]
  first
  | dsimp only
  | skip
  rw [if_pos (by decide)]
  have hL21 : 8 ≤ ((((((((((((((((((((((reader.drop 4).drop 4).drop 8).drop 8).drop 8).drop 8).drop 8).drop 4).drop 4).drop 8).drop 8).drop 8).drop 8).drop 4).drop 4).drop 8).drop 4).drop 2).drop 2).drop 4).drop 4) : List Nat).length := by
    simp only [List.length_drop]; omega
  rw [readerU64_of_le hL21, ok_bind]
  first
  | dsimp only
  | skip
  rw [hty]
  simp only [PerfEventType.parse]
  first
  | dsimp only [pure, Except.pure]
  | skip
  rw [ok_bind]
  first
  | dsimp only
  | skip
  have hclk2 : hasFlag (decodeU en (((((((reader.drop 4).drop 4).drop 8).drop 8).drop 8).drop 8).take 8) &&& attrFlagsMask) attrUSE_CLOCKID = false := by
    have hdd : ((((((reader.drop 4).drop 4).drop 8).drop 8).drop 8).drop 8) = reader.drop 40 := by
      simp [List.drop_drop]
    rw [hdd]
    exact hclk
  rw [hclk2]
  rw [if_neg (by decide)]
  first
  | dsimp only [pure, Except.pure]
  | skip
  rw [ok_bind]
  first
  | dsimp only
  | skip
  refine ⟨_, rfl, ?_⟩
  exact ⟨fun h => absurd h (by decide), fun h => absurd h (by decide), fun h => absurd h (by decide), fun h => absurd h (by decide), fun h => absurd h (by decide), fun h => absurd h (by decide)⟩

theorem c5_override (en : Endianness) (reader : List Nat) (s : Nat)
    (hdecl : decodeU en ((reader.drop 4).take 4) = s) :
    PerfEventAttr.parse en reader none = PerfEventAttr.parse en reader (some s) := by
  simp only [PerfEventAttr.parse]
  by_cases h4 : 4 ≤ reader.length
  · rw [readerU32_of_le h4, ok_bind, ok_bind]
    first
    | dsimp only
    | skip
    by_cases h8 : 4 ≤ (reader.drop 4).length
    · rw [readerU32_of_le h8, ok_bind, ok_bind]
      first
      | dsimp only
      | skip
      simp only [Option.getD_none, Option.getD_some]
      rw [hdecl]
    · rw [readerU32_of_lt (r := reader.drop 4) (by omega)]
      rfl
  · rw [readerU32_of_lt (r := reader) (by omega)]
    rfl

theorem c5_small_size (en : Endianness) (reader : List Nat) (sizeOpt : Option Nat)
    (h16 : 16 ≤ reader.length)
    (hsz : sizeOpt.getD (decodeU en ((reader.drop 4).take 4)) < PERF_ATTR_SIZE_VER0) :
    PerfEventAttr.parse en reader sizeOpt = .error .invalidInput := by
  simp only [PerfEventAttr.parse]
  have hL0 : 4 ≤ (reader : List Nat).length := by omega
  rw [readerU32_of_le hL0, ok_bind]
  first
  | dsimp only
  | skip
  have hL1 : 4 ≤ ((reader.drop 4) : List Nat).length := by
    simp only [List.length_drop]; omega
  rw [readerU32_of_le hL1, ok_bind]
  first
  | dsimp only
  | skip
  have hL2 : 8 ≤ (((reader.drop 4).drop 4) : List Nat).length := by
    simp only [List.length_drop]; omega
  rw [readerU64_of_le hL2, ok_bind]
  first
  | dsimp only
  | skip
  rw [if_pos hsz]
  rfl

/-- C5: version tolerance of PerfEventAttr::parse. (1) For every declared
size equal to a known version threshold N, a stream of at least N bytes with
a type code that decodes unconditionally (tracepoint) and the USE_CLOCKID
flag clear parses successfully, with every scalar field group beyond N
holding its zero default. (2) Parsing with no size override equals parsing
with an explicit override equal to the stream's self-declared size. (3) If
the effective size (override if supplied, else self-declared) is below the
oldest version's 64 bytes, parsing fails with InvalidInput (given the 16
bytes read before the size check are present). -/
theorem c5_version_tolerance (en : Endianness) (reader : List Nat) (N s : Nat)
    (sizeOpt : Option Nat) :
    (N ∈ attrSizeThresholds →
      decodeU en ((reader.drop 4).take 4) = N →
      N ≤ reader.length →
      decodeU en (reader.take 4) = 2 →
      hasFlag (wordAt en reader 40 &&& attrFlagsMask) attrUSE_CLOCKID = false →
      ∃ a, PerfEventAttr.parse en reader none = .ok a ∧ attrZeroBeyond N a) ∧
    (decodeU en ((reader.drop 4).take 4) = s →
      PerfEventAttr.parse en reader none = PerfEventAttr.parse en reader (some s)) ∧
    (16 ≤ reader.length →
      sizeOpt.getD (decodeU en ((reader.drop 4).take 4)) < PERF_ATTR_SIZE_VER0 →
      PerfEventAttr.parse en reader sizeOpt = .error .invalidInput) := by
  refine ⟨fun hN hdecl hlen hty hclk => ?_, c5_override en reader s,
    c5_small_size en reader sizeOpt⟩
  simp only [attrSizeThresholds, List.mem_cons, List.not_mem_nil, or_false] at hN
  rcases hN with rfl | rfl | rfl | rfl | rfl | rfl | rfl | rfl
  · exact c5_case64 en reader hdecl hlen hty hclk
  · exact c5_case72 en reader hdecl hlen hty hclk
  · exact c5_case80 en reader hdecl hlen hty hclk
  · exact c5_case96 en reader hdecl hlen hty hclk
  · exact c5_case104 en reader hdecl hlen hty hclk
  · exact c5_case112 en reader hdecl hlen hty hclk
  · exact c5_case120 en reader hdecl hlen hty hclk
  · exact c5_case128 en reader hdecl hlen hty hclk

/-- Witness for C5: readerW5 (declared size 96, tracepoint, 96 bytes) parses
with all post-VER3 groups zero and its parse is unchanged by an explicit
override of 96; readerW5c (declared size 0) fails with InvalidInput. -/
theorem c5_version_tolerance_witness :
    (∃ a, PerfEventAttr.parse Endianness.littleEndian readerW5 none = .ok a ∧
      attrZeroBeyond 96 a) ∧
    PerfEventAttr.parse Endianness.littleEndian readerW5 none =
      PerfEventAttr.parse Endianness.littleEndian readerW5 (some 96) ∧
    PerfEventAttr.parse Endianness.littleEndian readerW5c none =
      .error .invalidInput := by
  have H1 := c5_version_tolerance Endianness.littleEndian readerW5 96 96 none
  have H2 := c5_version_tolerance Endianness.littleEndian readerW5c 64 0 none
  refine ⟨?_, H1.2.1 (by decide), H2.2.2 (by decide) (by decide)⟩
  have := H1.1 (by decide) (by decide) (by decide) (by decide) (by decide)
  exact this

end PerfReader
